import Mathlib

/-!
# EasyShaderTestApp: frame orchestrator and shader manager

A shallow embedding of `src/Game/GameMain.cpp` and
`src/Graphics/Common/ShaderManager.cpp`.

* The process-wide globals of `GameMain.cpp` are the fields of `GameState`.
* Every call that leaves the two source files (graphics backend, platform layer,
  bytecode allocator, debug UI, default geometry) is recorded, with the answer it
  gave, as a `BackendCall` appended to `GameState.trace`.  The answers themselves
  are inputs of the model (`ShaderEnv`, `InitEnv`, `UpdateEnv`, `ResizeEnv`).
* The command buffer is a map from index to the command stored there; every
  store is also appended to `GraphicsCommandStream.writeLog` together with the
  stream length at that moment.
* Float-valued state (`g_gameCamera`, `g_projMat`, the mapped global data) is not
  modelled.
-/

namespace Tk

/-! ## Constants and enumerations declared in headers outside `src/` -/

/-- Array extents and sizes that the two source files use but do not define. -/
structure PlatformConstants where
  MAX_DESCRIPTOR_SETS_PER_SHADER : Nat
  MAX_BINDINGS_PER_SET : Nat
  MAX_MULTIPLE_RENDERTARGETS : Nat
  DEFAULT_QUAD_NUM_INDICES : Nat
  CACHE_LINE : Nat
  sizeofGraphicsCommand : Nat
  sizeofDescriptorData_Global : Nat
deriving DecidableEq, Repr

/-- The largest `uint16`. -/
def MAX_UINT16 : Nat := 65535

/-- `GameMain.cpp:42`. -/
def TINKER_PLATFORM_GRAPHICS_COMMAND_STREAM_MAX : Nat := MAX_UINT16

/-- Number of values of a `uint32`. -/
def UINT32_RANGE : Nat := 4294967296

/-- Modelled from the spec: resource handles are opaque identifiers into
backend-owned tables with a reserved invalid sentinel; the swap-chain image has
a reserved handle of its own (`IMAGE_HANDLE_SWAP_CHAIN`). -/
inductive ResourceHandle where
  | invalid
  | swapChain
  | created (id : Nat)
deriving DecidableEq, Repr

/-- Modelled from the spec: descriptor handles are opaque identifiers with a
reserved invalid sentinel. -/
inductive DescriptorHandle where
  | invalid
  | created (id : Nat)
deriving DecidableEq, Repr

def DefaultResHandle_Invalid : ResourceHandle := ResourceHandle.invalid

def IMAGE_HANDLE_SWAP_CHAIN : ResourceHandle := ResourceHandle.swapChain

def DefaultDescHandle_Invalid : DescriptorHandle := DescriptorHandle.invalid

/-- The handle is one returned for a created resource: neither the invalid
sentinel nor the swap-chain pseudo handle. -/
def ResourceHandle.isCreated : ResourceHandle → Bool
  | ResourceHandle.created _ => true
  | _ => false

/-- The image formats named in the source. -/
inductive ImageFormat where
  | Invalid
  | RGBA8_SRGB
  | TheSwapChainFormat
deriving DecidableEq, Repr

/-- The image layouts named in the source. -/
inductive ImageLayout where
  | eUndefined
  | eTransferDst
  | eRenderOptimal
  | eShaderRead
  | ePresent
deriving DecidableEq, Repr

/-- The shader ids named in the source. -/
inductive ShaderID where
  | SHADER_ID_SWAP_CHAIN_BLIT
  | SHADER_ID_IMGUI_DEBUGUI
  | SHADER_ID_Pass1
  | SHADER_ID_Pass2
deriving DecidableEq, Repr

/-- The descriptor layout ids named in the source; `DESCLAYOUT_ID_MAX` is the
filler value of unused `descLayouts` entries. -/
inductive DescLayoutID where
  | DESCLAYOUT_ID_SWAP_CHAIN_BLIT_TEX
  | DESCLAYOUT_ID_IMGUI_VBS
  | DESCLAYOUT_ID_IMGUI_TEX
  | DESCLAYOUT_ID_SWAP_CHAIN_BLIT_VBS
  | DESCLAYOUT_ID_VIEW_GLOBAL
  | DESCLAYOUT_ID_ASSET_INSTANCE
  | DESCLAYOUT_ID_ASSET_VBS
  | DESCLAYOUT_ID_POSONLY_VBS
  | DESCLAYOUT_ID_MAX
deriving DecidableEq, Repr

/-- Slot types of a descriptor layout; `eMax` is the value `InitInvalid` leaves
in a slot that declares nothing. -/
inductive DescriptorType where
  | eBuffer
  | eSSBO
  | eSampledImage
  | eMax
deriving DecidableEq, Repr

inductive BlendState where
  | eReplace
deriving DecidableEq, Repr

inductive DepthState where
  | eOff_NoCull
deriving DecidableEq, Repr

inductive ResourceType where
  | eBuffer1D
  | eImage2D
deriving DecidableEq, Repr

inductive BufferUsage where
  | eUniform
deriving DecidableEq, Repr

/-- One slot of a `DescriptorLayout`. -/
structure DescriptorLayoutParam where
  type : DescriptorType
  amount : Nat
deriving DecidableEq, Repr

/-- The array `DescriptorLayout::params`, of extent `MAX_BINDINGS_PER_SET`. -/
structure DescriptorLayout where
  params : List DescriptorLayoutParam
deriving DecidableEq, Repr

/-- Modelled from the spec: `DescriptorLayout::InitInvalid` (declared outside
`src/`) leaves every slot without a type. -/
def DescriptorLayout.InitInvalid (cfg : PlatformConstants) : DescriptorLayout :=
  { params := List.replicate cfg.MAX_BINDINGS_PER_SET { type := DescriptorType.eMax, amount := 0 } }

/-- The assignments `params[i].type = ty; params[i].amount = n`. -/
def DescriptorLayout.setParam (l : DescriptorLayout) (i : Nat) (ty : DescriptorType) (n : Nat) :
    DescriptorLayout :=
  { params := l.params.set i { type := ty, amount := n } }

/-- The array `DescriptorSetDataHandles::handles`, of extent
`MAX_BINDINGS_PER_SET`. -/
structure DescriptorSetDataHandles where
  handles : List ResourceHandle
deriving DecidableEq, Repr

/-- Modelled from the spec: `DescriptorSetDataHandles::InitInvalid` (declared
outside `src/`) sets every slot to the invalid sentinel. -/
def DescriptorSetDataHandles.InitInvalid (cfg : PlatformConstants) : DescriptorSetDataHandles :=
  { handles := List.replicate cfg.MAX_BINDINGS_PER_SET DefaultResHandle_Invalid }

/-- The assignment `handles[i] = h`. -/
def DescriptorSetDataHandles.setHandle (d : DescriptorSetDataHandles) (i : Nat)
    (h : ResourceHandle) : DescriptorSetDataHandles :=
  { handles := d.handles.set i h }

/-- The fields of `Graphics::ResourceDesc` the source assigns; a field the
source leaves at the default of its declaration is `none`. -/
structure ResourceDesc where
  resourceType : ResourceType
  bufferUsage : Option BufferUsage
  arrayEles : Option Nat
  dims : Nat × Nat × Nat
  imageFormat : Option ImageFormat
  debugLabel : String
deriving DecidableEq, Repr

/-! ## Graphics commands and the command stream -/

/-- Modelled from the spec: a graphics command is a discriminated record, one
variant per operation kind, each carrying the fields the source assigns for that
kind.  `m_colorRTs` holds the first `m_numColorRTs` entries of the array, the
only ones the source assigns.  The clear value is the four components of the
`v4f`, which the source always sets to zero. -/
inductive GraphicsCommand where
  | eLayoutTransition (debugLabel : String) (m_imageHandle : ResourceHandle)
      (m_startLayout m_endLayout : ImageLayout)
  | eClearImage (debugLabel : String) (m_imageHandle : ResourceHandle)
      (m_clearValue : Int × Int × Int × Int)
  | eTimestamp (name debugLabel : String) (startFrame : Bool)
  | eSetScissor (debugLabel : String) (m_scissorOffsetX m_scissorOffsetY : Int)
      (m_scissorWidth m_scissorHeight : Nat)
  | eDrawCall (debugLabel : String) (m_numIndices m_numInstances m_vertOffset m_indexOffset : Nat)
      (m_indexBufferHandle : ResourceHandle) (m_shader : ShaderID) (m_blendState : BlendState)
      (m_depthState : DepthState) (m_descriptors : List DescriptorHandle)
  | eRenderPassBegin (debugLabel : String) (m_numColorRTs : Nat) (m_colorRTs : List ResourceHandle)
      (m_depthRT : ResourceHandle) (m_renderWidth m_renderHeight : Nat)
  | eRenderPassEnd (debugLabel : String)
deriving DecidableEq, Repr

/-- Modelled from the spec: `GraphicsCommand::CmdTimestamp(name, label, start)`
(declared outside `src/`) turns the command into a timestamp marker; the third
argument defaults to `false`. -/
def GraphicsCommand.CmdTimestamp (name debugLabel : String) (startFrame : Bool) : GraphicsCommand :=
  GraphicsCommand.eTimestamp name debugLabel startFrame

/-- The command carries the handle in its image field or among its colour
targets. -/
def GraphicsCommand.carriesImage (h : ResourceHandle) : GraphicsCommand → Bool
  | GraphicsCommand.eLayoutTransition _ img _ _ => decide (img = h)
  | GraphicsCommand.eClearImage _ img _ => decide (img = h)
  | GraphicsCommand.eRenderPassBegin _ _ rts _ _ _ => decide (h ∈ rts)
  | _ => false

/-- One store into the command buffer: the index written and the value of
`m_numCommands` at that moment. -/
structure CommandWrite where
  index : Nat
  lengthAtWrite : Nat
deriving DecidableEq, Repr

/-- The struct `Graphics::GraphicsCommandStream`.  `m_graphicsCommands i` is the
content of element `i` of the buffer, `none` while nothing was stored there;
elements at `m_maxCommands` and beyond lie outside the allocation.  `writeLog`
is bookkeeping of the model: every store, in program order. -/
structure GraphicsCommandStream where
  m_graphicsCommands : Nat → Option GraphicsCommand
  m_numCommands : Nat
  m_maxCommands : Nat
  writeLog : List CommandWrite

namespace GraphicsCommandStream

/-- The value `graphicsCommandStream = {}` before a buffer is allocated. -/
def empty : GraphicsCommandStream :=
  { m_graphicsCommands := fun _ => none, m_numCommands := 0, m_maxCommands := 0, writeLog := [] }

/-- The store `command->... = ...` of a whole command through a pointer to
element `idx` of the buffer. -/
def write (st : GraphicsCommandStream) (idx : Nat) (c : GraphicsCommand) : GraphicsCommandStream :=
  { st with
    m_graphicsCommands := fun j => if j = idx then some c else st.m_graphicsCommands j
    writeLog := st.writeLog ++ [{ index := idx, lengthAtWrite := st.m_numCommands }] }

/-- The statement `++graphicsCommandStream.m_numCommands` on a `uint32`. -/
def incr (st : GraphicsCommandStream) : GraphicsCommandStream :=
  { st with m_numCommands := (st.m_numCommands + 1) % UINT32_RANGE }

/-- Modelled from the spec: appending stores the command at the current length
and increments the length.  It is what the absent `StartRenderPass`,
`EndRenderPass` and `DebugUI::Render` do to the stream. -/
def append (st : GraphicsCommandStream) (c : GraphicsCommand) : GraphicsCommandStream :=
  (st.write st.m_numCommands c).incr

/-- Appending a list of commands one after the other. -/
def appendAll (st : GraphicsCommandStream) (cs : List GraphicsCommand) : GraphicsCommandStream :=
  cs.foldl append st

/-- The recorded commands: elements `0 .. m_numCommands - 1` of the buffer. -/
def contents (st : GraphicsCommandStream) : List (Option GraphicsCommand) :=
  (List.range st.m_numCommands).map st.m_graphicsCommands

end GraphicsCommandStream

/-! ## Calls that leave the two source files -/

/-- The arguments `ShaderManager::LoadShader` passes to
`Graphics::CreateGraphicsPipeline`; the two bytecode buffers are represented by
their sizes. -/
structure PipelineArgs where
  vertexShaderFileSize : Nat
  fragmentShaderFileSize : Nat
  shaderID : ShaderID
  viewportWidth : Nat
  viewportHeight : Nat
  numColorRTs : Nat
  colorRTFormats : List ImageFormat
  depthFormat : ImageFormat
  descLayouts : List DescLayoutID
  numDescLayouts : Nat
deriving DecidableEq, Repr

/-- A call from the two source files into code outside them, with the value it
returned where the source uses one. -/
inductive BackendCall where
  | GetPlatformWindowHandles
  | CreateContext (windowWidth windowHeight : Nat)
  | CoreMallocAligned (size alignment : Nat)
  | CoreFreeAligned
  | AllocatorInit (size alignment : Nat)
  | AllocatorExplicitFree
  | AllocatorAlloc (size alignment : Nat)
  | GetEntireFileSize (fileName : String) (size : Nat)
  | ReadEntireFile (fileName : String) (size : Nat)
  | CreateGraphicsPipeline (args : PipelineArgs) (created : Bool)
  | DestroyAllPSOPerms
  | CreateDescriptorLayout (id : DescLayoutID) (layout : DescriptorLayout) (ok : Bool)
  | CreateResource (desc : ResourceDesc) (handle : ResourceHandle)
  | DestroyResource (handle : ResourceHandle)
  | CreateDescriptor (id : DescLayoutID) (handle : DescriptorHandle)
  | WriteDescriptor (id : DescLayoutID) (desc : DescriptorHandle) (data : DescriptorSetDataHandles)
  | DestroyDescriptor (handle : DescriptorHandle)
  | DestroyAllDescriptors
  | MapResource (handle : ResourceHandle)
  | UnmapResource (handle : ResourceHandle)
  | AcquireFrame (shouldRenderFrame : Bool)
  | BeginFrameRecording
  | ProcessGraphicsCommandStream (commands : List (Option GraphicsCommand)) (immediateSubmit : Bool)
  | EndFrameRecording
  | SubmitFrameToGPU
  | WindowMinimized
  | WindowResize
  | DestroyContext
  | SendMessageToServer (result : Int)
  | DebugUI_Init
  | DebugUI_NewFrame
  | DebugUI_UI_RenderPassStats
  | DebugUI_Render (colorHandle : ResourceHandle)
  | DebugUI_Shutdown
  | InputManager_UpdateAndDoCallbacks
  | CreateDefaultGeometry
  | DestroyDefaultGeometry
  | DestroyDefaultGeometryVertexBufferDescriptor
  | CreateAnimatedPoly
  | DestroyAnimatedPoly
deriving DecidableEq, Repr

/-- A trace of calls, oldest first. -/
abbrev Trace := List BackendCall

/-! ## `ShaderManager.cpp` -/

namespace ShaderManager

/-- `ShaderManager.cpp:10`. -/
def totalShaderBytecodeMaxSizeInBytes : Nat := 1024 * 1024 * 100

/-- What the platform and the backend answer during one `LoadAllShaders`. -/
structure ShaderEnv where
  fileSize : String → Nat
  pipelineCreated : ShaderID → Bool

/-- The struct `GraphicsPipelineAttachmentFormats` (`ShaderManager.cpp:20-35`);
`colorRTFormats` has extent `MAX_MULTIPLE_RENDERTARGETS`. -/
structure GraphicsPipelineAttachmentFormats where
  numColorRTs : Nat
  colorRTFormats : List ImageFormat
  depthFormat : ImageFormat
deriving DecidableEq, Repr

/-- `GraphicsPipelineAttachmentFormats::Init` (`ShaderManager.cpp:26-34`). -/
def GraphicsPipelineAttachmentFormats.Init (cfg : PlatformConstants) :
    GraphicsPipelineAttachmentFormats :=
  { numColorRTs := 0
    colorRTFormats := List.replicate cfg.MAX_MULTIPLE_RENDERTARGETS ImageFormat.Invalid
    depthFormat := ImageFormat.Invalid }

/-- The loads of one shader stage in `LoadShader` (`ShaderManager.cpp:46-52` and
`54-60`): nothing for a null file name, else size query, arena allocation, read.
Returns the file size and the extended trace. -/
def loadStage (env : ShaderEnv) (fileName : Option String) (t : Trace) : Nat × Trace :=
  match fileName with
  | none => (0, t)
  | some name =>
    let size := env.fileSize name
    (size, t ++ [BackendCall.GetEntireFileSize name size, BackendCall.AllocatorAlloc size 1,
      BackendCall.ReadEntireFile name size])

/-- `LoadShader` (`ShaderManager.cpp:37-69`). -/
def LoadShader (env : ShaderEnv) (vertexShaderFileName fragmentShaderFileName : Option String)
    (shaderID : ShaderID) (viewportWidth viewportHeight : Nat)
    (pipelineFormats : GraphicsPipelineAttachmentFormats)
    (descLayouts : List DescLayoutID) (numDescLayouts : Nat) (t : Trace) : Bool × Trace :=
  let v := loadStage env vertexShaderFileName t
  let f := loadStage env fragmentShaderFileName v.2
  let created := env.pipelineCreated shaderID
  (created, f.2 ++ [BackendCall.CreateGraphicsPipeline
    { vertexShaderFileSize := v.1
      fragmentShaderFileSize := f.1
      shaderID := shaderID
      viewportWidth := viewportWidth
      viewportHeight := viewportHeight
      numColorRTs := pipelineFormats.numColorRTs
      colorRTFormats := pipelineFormats.colorRTFormats
      depthFormat := pipelineFormats.depthFormat
      descLayouts := descLayouts
      numDescLayouts := numDescLayouts } created])

/-- `Startup` (`ShaderManager.cpp:71-74`). -/
def Startup (t : Trace) : Trace :=
  t ++ [BackendCall.AllocatorInit totalShaderBytecodeMaxSizeInBytes 1]

/-- `Shutdown` (`ShaderManager.cpp:76-79`). -/
def Shutdown (t : Trace) : Trace :=
  t ++ [BackendCall.AllocatorExplicitFree]

/-- The array `shaderFilePaths` of `LoadAllShaders` (`ShaderManager.cpp:101-111`):
eight elements, seven initialisers, the last one null.  The configured directory
prefix `SHADERS_SPV_PATH` is left out of the names. -/
def shaderFilePaths : List (Option String) :=
  [some "blit_VS.spv", some "blit_PS.spv", some "pass_VS.spv", some "pass1_PS.spv",
   some "pass2_PS.spv", some "imgui_VS.spv", some "imgui_PS.spv", none]

/-- Element `i` of `shaderFilePaths`. -/
def shaderFilePath (i : Nat) : Option String :=
  (shaderFilePaths.get? i).getD none

/-- The loop `for i < MAX_DESCRIPTOR_SETS_PER_SHADER: descLayouts[i] = DESCLAYOUT_ID_MAX`. -/
def descLayoutsAllMax (cfg : PlatformConstants) : List DescLayoutID :=
  List.replicate cfg.MAX_DESCRIPTOR_SETS_PER_SHADER DescLayoutID.DESCLAYOUT_ID_MAX

/-- The three statements `pipelineFormats.Init(); numColorRTs = 1;
colorRTFormats[0] = fmt`. -/
def singleColorFormats (cfg : PlatformConstants) (fmt : ImageFormat) :
    GraphicsPipelineAttachmentFormats :=
  let p := GraphicsPipelineAttachmentFormats.Init cfg
  let p := { p with numColorRTs := 1 }
  { p with colorRTFormats := p.colorRTFormats.set 0 fmt }

/-- `LoadAllShaders` (`ShaderManager.cpp:93-161`).  `TINKER_ASSERT(bOk)` is a
macro defined outside `src/`; the function is modelled as continuing after it. -/
def LoadAllShaders (cfg : PlatformConstants) (env : ShaderEnv) (windowWidth windowHeight : Nat)
    (t : Trace) : Trace :=
  let t := t ++ [BackendCall.AllocatorExplicitFree]
  let t := t ++ [BackendCall.AllocatorInit totalShaderBytecodeMaxSizeInBytes 1]
  let descLayouts := descLayoutsAllMax cfg
  -- Swap chain blit
  let descLayouts := descLayouts.set 0 DescLayoutID.DESCLAYOUT_ID_SWAP_CHAIN_BLIT_TEX
  let descLayouts := descLayouts.set 1 DescLayoutID.DESCLAYOUT_ID_SWAP_CHAIN_BLIT_VBS
  let pipelineFormats := singleColorFormats cfg ImageFormat.TheSwapChainFormat
  let r := LoadShader env (shaderFilePath 0) (shaderFilePath 1) ShaderID.SHADER_ID_SWAP_CHAIN_BLIT
    windowWidth windowHeight pipelineFormats descLayouts 2 t
  let t := r.2
  let descLayouts := descLayoutsAllMax cfg
  -- Imgui debug ui pass
  let descLayouts := descLayouts.set 0 DescLayoutID.DESCLAYOUT_ID_IMGUI_TEX
  let descLayouts := descLayouts.set 1 DescLayoutID.DESCLAYOUT_ID_IMGUI_VBS
  let pipelineFormats := singleColorFormats cfg ImageFormat.RGBA8_SRGB
  let r := LoadShader env (shaderFilePath 5) (shaderFilePath 6) ShaderID.SHADER_ID_IMGUI_DEBUGUI
    windowWidth windowHeight pipelineFormats descLayouts 2 t
  let t := r.2
  let descLayouts := descLayoutsAllMax cfg
  -- Pass1
  let descLayouts := descLayouts.set 0 DescLayoutID.DESCLAYOUT_ID_SWAP_CHAIN_BLIT_VBS
  let pipelineFormats := singleColorFormats cfg ImageFormat.RGBA8_SRGB
  let r := LoadShader env (shaderFilePath 2) (shaderFilePath 3) ShaderID.SHADER_ID_Pass1
    windowWidth windowHeight pipelineFormats descLayouts 1 t
  let t := r.2
  let descLayouts := descLayoutsAllMax cfg
  -- Pass2
  let descLayouts := descLayouts.set 0 DescLayoutID.DESCLAYOUT_ID_SWAP_CHAIN_BLIT_VBS
  let pipelineFormats := singleColorFormats cfg ImageFormat.RGBA8_SRGB
  let r := LoadShader env (shaderFilePath 2) (shaderFilePath 4) ShaderID.SHADER_ID_Pass2
    windowWidth windowHeight pipelineFormats descLayouts 1 t
  r.2

/-- `ReloadShaders` (`ShaderManager.cpp:81-85`). -/
def ReloadShaders (cfg : PlatformConstants) (env : ShaderEnv) (newWindowWidth newWindowHeight : Nat)
    (t : Trace) : Trace :=
  let t := t ++ [BackendCall.DestroyAllPSOPerms]
  LoadAllShaders cfg env newWindowWidth newWindowHeight t

/-- `CreateWindowDependentResources` (`ShaderManager.cpp:87-91`). -/
def CreateWindowDependentResources (cfg : PlatformConstants) (env : ShaderEnv)
    (newWindowWidth newWindowHeight : Nat) (t : Trace) : Trace :=
  LoadAllShaders cfg env newWindowWidth newWindowHeight t

/-- The layout with `params[0] = (ty, 1)` after `InitInvalid`. -/
def layout1 (cfg : PlatformConstants) (ty : DescriptorType) : DescriptorLayout :=
  (DescriptorLayout.InitInvalid cfg).setParam 0 ty 1

/-- The layout with `params[0..2] = (ty, 1)` after `InitInvalid`. -/
def layout3 (cfg : PlatformConstants) (ty : DescriptorType) : DescriptorLayout :=
  (((DescriptorLayout.InitInvalid cfg).setParam 0 ty 1).setParam 1 ty 1).setParam 2 ty 1

/-- The eight layouts `LoadAllShaderResources` declares, in program order, each
with the id it is registered under (`ShaderManager.cpp:170-228`). -/
def declaredLayouts (cfg : PlatformConstants) : List (DescLayoutID × DescriptorLayout) :=
  [ (DescLayoutID.DESCLAYOUT_ID_SWAP_CHAIN_BLIT_TEX, layout1 cfg DescriptorType.eSampledImage),
    (DescLayoutID.DESCLAYOUT_ID_IMGUI_VBS, layout3 cfg DescriptorType.eSSBO),
    (DescLayoutID.DESCLAYOUT_ID_IMGUI_TEX, layout1 cfg DescriptorType.eSampledImage),
    (DescLayoutID.DESCLAYOUT_ID_SWAP_CHAIN_BLIT_VBS, layout3 cfg DescriptorType.eSSBO),
    (DescLayoutID.DESCLAYOUT_ID_VIEW_GLOBAL, layout1 cfg DescriptorType.eBuffer),
    (DescLayoutID.DESCLAYOUT_ID_ASSET_INSTANCE, layout1 cfg DescriptorType.eBuffer),
    (DescLayoutID.DESCLAYOUT_ID_ASSET_VBS, layout3 cfg DescriptorType.eSSBO),
    (DescLayoutID.DESCLAYOUT_ID_POSONLY_VBS, layout1 cfg DescriptorType.eSSBO) ]

/-- What the backend answers during `LoadAllShaderResources`. -/
structure ShaderResourcesEnv where
  layoutCreated : DescLayoutID → Bool
  shaders : ShaderEnv

/-- One `bOk = CreateDescriptorLayout(id, &descriptorLayout)`. -/
def createLayoutCall (env : ShaderResourcesEnv) (d : DescLayoutID × DescriptorLayout) : BackendCall :=
  BackendCall.CreateDescriptorLayout d.1 d.2 (env.layoutCreated d.1)

/-- `LoadAllShaderResources` (`ShaderManager.cpp:163-231`); for `TINKER_ASSERT`
see `LoadAllShaders`. -/
def LoadAllShaderResources (cfg : PlatformConstants) (env : ShaderResourcesEnv)
    (windowWidth windowHeight : Nat) (t : Trace) : Trace :=
  let t := t ++ [createLayoutCall env (DescLayoutID.DESCLAYOUT_ID_SWAP_CHAIN_BLIT_TEX,
    layout1 cfg DescriptorType.eSampledImage)]
  let t := t ++ [createLayoutCall env (DescLayoutID.DESCLAYOUT_ID_IMGUI_VBS,
    layout3 cfg DescriptorType.eSSBO)]
  let t := t ++ [createLayoutCall env (DescLayoutID.DESCLAYOUT_ID_IMGUI_TEX,
    layout1 cfg DescriptorType.eSampledImage)]
  let t := t ++ [createLayoutCall env (DescLayoutID.DESCLAYOUT_ID_SWAP_CHAIN_BLIT_VBS,
    layout3 cfg DescriptorType.eSSBO)]
  let t := t ++ [createLayoutCall env (DescLayoutID.DESCLAYOUT_ID_VIEW_GLOBAL,
    layout1 cfg DescriptorType.eBuffer)]
  let t := t ++ [createLayoutCall env (DescLayoutID.DESCLAYOUT_ID_ASSET_INSTANCE,
    layout1 cfg DescriptorType.eBuffer)]
  let t := t ++ [createLayoutCall env (DescLayoutID.DESCLAYOUT_ID_ASSET_VBS,
    layout3 cfg DescriptorType.eSSBO)]
  let t := t ++ [createLayoutCall env (DescLayoutID.DESCLAYOUT_ID_POSONLY_VBS,
    layout1 cfg DescriptorType.eSSBO)]
  LoadAllShaders cfg env.shaders windowWidth windowHeight t

end ShaderManager

/-! ## The backend's permutation table -/

/-- One pipeline permutation held by the backend. -/
structure PSOPerm where
  shaderID : ShaderID
  viewportWidth : Nat
  viewportHeight : Nat
deriving DecidableEq, Repr

/-- Modelled from the spec: the backend's permutation table (the backend is
outside `src/`) is a collection that `DestroyAllPSOPerms` empties and to which
each successful `CreateGraphicsPipeline` adds one entry for its shader id; no
other call changes it. -/
def psoTableStep (tbl : List PSOPerm) : BackendCall → List PSOPerm
  | BackendCall.DestroyAllPSOPerms => []
  | BackendCall.CreateGraphicsPipeline args true =>
    tbl ++ [{ shaderID := args.shaderID, viewportWidth := args.viewportWidth,
              viewportHeight := args.viewportHeight }]
  | _ => tbl

/-- The permutation table after the calls of `t`, starting from `tbl`. -/
def psoTableFrom (tbl : List PSOPerm) (t : Trace) : List PSOPerm :=
  t.foldl psoTableStep tbl

/-! ## `GameMain.cpp`: state -/

/-- The handles of the global `defaultQuad` (declared in `GraphicsTypes.h`,
outside `src/`) that `GameMain.cpp` reads. -/
structure DefaultGeometry where
  positionBufferHandle : ResourceHandle
  uvBufferHandle : ResourceHandle
  normalBufferHandle : ResourceHandle
  indexBufferHandle : ResourceHandle
  m_descriptor : DescriptorHandle
deriving DecidableEq, Repr

/-- The handle fields of `GameGraphicsData`. -/
structure GameGraphicsData where
  m_rtColorHandle : ResourceHandle
  m_swapChainBlitDescHandle : DescriptorHandle
  m_DescData_Global : DescriptorHandle
  m_DescDataBufferHandle_Global : ResourceHandle
deriving DecidableEq, Repr

/-- The struct `GameRenderPass`; `colorRTs` has extent
`MAX_MULTIPLE_RENDERTARGETS`. -/
structure GameRenderPass where
  numColorRTs : Nat
  colorRTs : List ResourceHandle
  depthRT : ResourceHandle
  renderWidth : Nat
  renderHeight : Nat
  debugLabel : String
deriving DecidableEq, Repr

/-- Modelled from the spec: `GameRenderPass::Init` (in `RenderPass.cpp`, outside
`src/`) zero/invalid-initialises all fields. -/
def GameRenderPass.Init (cfg : PlatformConstants) : GameRenderPass :=
  { numColorRTs := 0
    colorRTs := List.replicate cfg.MAX_MULTIPLE_RENDERTARGETS DefaultResHandle_Invalid
    depthRT := DefaultResHandle_Invalid
    renderWidth := 0
    renderHeight := 0
    debugLabel := "" }

/-- Modelled from the spec: `StartRenderPass` (in `RenderPass.cpp`, outside
`src/`) appends a render-pass-begin command carrying the colour and depth target
handles and the dimensions of the pass. -/
def StartRenderPass (pass : GameRenderPass) (st : GraphicsCommandStream) : GraphicsCommandStream :=
  st.append (GraphicsCommand.eRenderPassBegin pass.debugLabel pass.numColorRTs
    (pass.colorRTs.take pass.numColorRTs) pass.depthRT pass.renderWidth pass.renderHeight)

/-- Modelled from the spec: `EndRenderPass` (in `RenderPass.cpp`, outside
`src/`) appends a render-pass-end command. -/
def EndRenderPass (pass : GameRenderPass) (st : GraphicsCommandStream) : GraphicsCommandStream :=
  st.append (GraphicsCommand.eRenderPassEnd pass.debugLabel)

/-- The file-scope variables of `GameMain.cpp` (lines 34-48), the global
`defaultQuad`, and the trace of calls made so far.  Of `gameRenderPasses` only
the element `eRenderPass_MainView` is ever used. -/
structure GameState where
  isGameInitted : Bool
  connectedToServer : Bool
  currentWindowWidth : Nat
  currentWindowHeight : Nat
  isWindowMinimized : Bool
  graphicsCommandStream : GraphicsCommandStream
  gameGraphicsData : GameGraphicsData
  mainViewPass : GameRenderPass
  defaultQuad : DefaultGeometry
  trace : Trace

/-- `GameMain.cpp:35`. -/
def isMultiplayer : Bool := false

/-- The state at program start: statics are zero-initialised, handle-valued
objects hold the invalid sentinel. -/
def GameState.initial (cfg : PlatformConstants) : GameState :=
  { isGameInitted := false
    connectedToServer := false
    currentWindowWidth := 0
    currentWindowHeight := 0
    isWindowMinimized := false
    graphicsCommandStream := GraphicsCommandStream.empty
    gameGraphicsData :=
      { m_rtColorHandle := DefaultResHandle_Invalid
        m_swapChainBlitDescHandle := DefaultDescHandle_Invalid
        m_DescData_Global := DefaultDescHandle_Invalid
        m_DescDataBufferHandle_Global := DefaultResHandle_Invalid }
    mainViewPass := GameRenderPass.Init cfg
    defaultQuad :=
      { positionBufferHandle := DefaultResHandle_Invalid
        uvBufferHandle := DefaultResHandle_Invalid
        normalBufferHandle := DefaultResHandle_Invalid
        indexBufferHandle := DefaultResHandle_Invalid
        m_descriptor := DefaultDescHandle_Invalid }
    trace := [] }

/-- Record one call. -/
def GameState.emit (s : GameState) (c : BackendCall) : GameState :=
  { s with trace := s.trace ++ [c] }

/-- Store a command at element `idx` of the buffer of `graphicsCommandStream`. -/
def GameState.writeCommand (s : GameState) (idx : Nat) (c : GraphicsCommand) : GameState :=
  { s with graphicsCommandStream := s.graphicsCommandStream.write idx c }

/-- The statement `++graphicsCommandStream.m_numCommands`. -/
def GameState.incrNumCommands (s : GameState) : GameState :=
  { s with graphicsCommandStream := s.graphicsCommandStream.incr }

/-! ## `GameMain.cpp`: initialisation and resources -/

/-- What platform and backend answer during `GameInit`. -/
structure InitEnv where
  shaderResources : ShaderManager.ShaderResourcesEnv
  defaultQuad : DefaultGeometry
  rtColorHandle : ResourceHandle
  swapChainBlitDescHandle : DescriptorHandle
  descDataBufferHandle_Global : ResourceHandle
  descData_Global : DescriptorHandle

/-- `InitDemo` (`GameMain.cpp:73-77`). -/
def InitDemo (s : GameState) : GameState :=
  s.emit BackendCall.CreateAnimatedPoly

/-- `DestroyDescriptors` (`GameMain.cpp:79-90`). -/
def DestroyDescriptors (s : GameState) : GameState :=
  let s := s.emit (BackendCall.DestroyDescriptor s.gameGraphicsData.m_swapChainBlitDescHandle)
  let s := { s with gameGraphicsData :=
    { s.gameGraphicsData with m_swapChainBlitDescHandle := DefaultDescHandle_Invalid } }
  let s := s.emit (BackendCall.DestroyDescriptor s.gameGraphicsData.m_DescData_Global)
  let s := { s with gameGraphicsData :=
    { s.gameGraphicsData with m_DescData_Global := DefaultDescHandle_Invalid } }
  let s := s.emit (BackendCall.DestroyResource s.gameGraphicsData.m_DescDataBufferHandle_Global)
  let s := { s with gameGraphicsData :=
    { s.gameGraphicsData with m_DescDataBufferHandle_Global := DefaultResHandle_Invalid } }
  s.emit BackendCall.DestroyAllDescriptors

/-- The `blitHandles` of `WriteSwapChainBlitResources` (`GameMain.cpp:94-96`). -/
def blitHandles (cfg : PlatformConstants) (s : GameState) : DescriptorSetDataHandles :=
  (DescriptorSetDataHandles.InitInvalid cfg).setHandle 0 s.gameGraphicsData.m_rtColorHandle

/-- The `vbHandles` of `WriteSwapChainBlitResources` (`GameMain.cpp:99-103`). -/
def vbHandles (cfg : PlatformConstants) (s : GameState) : DescriptorSetDataHandles :=
  (((DescriptorSetDataHandles.InitInvalid cfg).setHandle 0 s.defaultQuad.positionBufferHandle).setHandle
    1 s.defaultQuad.uvBufferHandle).setHandle 2 s.defaultQuad.normalBufferHandle

/-- `WriteSwapChainBlitResources` (`GameMain.cpp:92-105`). -/
def WriteSwapChainBlitResources (cfg : PlatformConstants) (s : GameState) : GameState :=
  let s := s.emit (BackendCall.WriteDescriptor DescLayoutID.DESCLAYOUT_ID_SWAP_CHAIN_BLIT_TEX
    s.gameGraphicsData.m_swapChainBlitDescHandle (blitHandles cfg s))
  s.emit (BackendCall.WriteDescriptor DescLayoutID.DESCLAYOUT_ID_SWAP_CHAIN_BLIT_VBS
    s.defaultQuad.m_descriptor (vbHandles cfg s))

/-- The resource description of the global uniform buffer (`GameMain.cpp:114-118`). -/
def globalBufferDesc (cfg : PlatformConstants) : ResourceDesc :=
  { resourceType := ResourceType.eBuffer1D
    bufferUsage := some BufferUsage.eUniform
    arrayEles := none
    dims := (cfg.sizeofDescriptorData_Global, 0, 0)
    imageFormat := none
    debugLabel := "Descriptor Buffer Global Constant Data" }

/-- Element 0 of `descDataHandles` in `CreateAllDescriptors`
(`GameMain.cpp:123-126`). -/
def globalDataHandles (cfg : PlatformConstants) (s : GameState) : DescriptorSetDataHandles :=
  (DescriptorSetDataHandles.InitInvalid cfg).setHandle 0 s.gameGraphicsData.m_DescDataBufferHandle_Global

/-- `CreateAllDescriptors` (`GameMain.cpp:107-128`). -/
def CreateAllDescriptors (cfg : PlatformConstants) (env : InitEnv) (s : GameState) : GameState :=
  -- Swap chain blit
  let s := s.emit (BackendCall.CreateDescriptor DescLayoutID.DESCLAYOUT_ID_SWAP_CHAIN_BLIT_TEX
    env.swapChainBlitDescHandle)
  let s := { s with gameGraphicsData :=
    { s.gameGraphicsData with m_swapChainBlitDescHandle := env.swapChainBlitDescHandle } }
  let s := WriteSwapChainBlitResources cfg s
  -- Descriptor data
  let s := s.emit (BackendCall.CreateResource (globalBufferDesc cfg) env.descDataBufferHandle_Global)
  let s := { s with gameGraphicsData :=
    { s.gameGraphicsData with m_DescDataBufferHandle_Global := env.descDataBufferHandle_Global } }
  let s := s.emit (BackendCall.CreateDescriptor DescLayoutID.DESCLAYOUT_ID_VIEW_GLOBAL
    env.descData_Global)
  let s := { s with gameGraphicsData :=
    { s.gameGraphicsData with m_DescData_Global := env.descData_Global } }
  s.emit (BackendCall.WriteDescriptor DescLayoutID.DESCLAYOUT_ID_VIEW_GLOBAL
    s.gameGraphicsData.m_DescData_Global (globalDataHandles cfg s))

/-- The resource description of the main colour target (`GameMain.cpp:132-137`). -/
def mainViewColorDesc (windowWidth windowHeight : Nat) : ResourceDesc :=
  { resourceType := ResourceType.eImage2D
    bufferUsage := none
    arrayEles := some 1
    dims := (windowWidth, windowHeight, 1)
    imageFormat := some ImageFormat.RGBA8_SRGB
    debugLabel := "MainViewColor" }

/-- `CreateGameRenderingResources` (`GameMain.cpp:130-147`); `rtColorHandle` is
the handle `CreateResource` returns. -/
def CreateGameRenderingResources (cfg : PlatformConstants) (rtColorHandle : ResourceHandle)
    (windowWidth windowHeight : Nat) (s : GameState) : GameState :=
  let s := s.emit (BackendCall.CreateResource (mainViewColorDesc windowWidth windowHeight)
    rtColorHandle)
  let s := { s with gameGraphicsData := { s.gameGraphicsData with m_rtColorHandle := rtColorHandle } }
  let pass := GameRenderPass.Init cfg
  let pass := { pass with numColorRTs := 1 }
  let pass := { pass with colorRTs := pass.colorRTs.set 0 s.gameGraphicsData.m_rtColorHandle }
  let pass := { pass with depthRT := DefaultResHandle_Invalid }
  let pass := { pass with renderWidth := windowWidth }
  let pass := { pass with renderHeight := windowHeight }
  let pass := { pass with debugLabel := "Main Render View" }
  { s with mainViewPass := pass }

/-- `GameInit` (`GameMain.cpp:149-188`).  `DebugUI::Init` and
`CreateDefaultGeometry` are outside `src/`; they are modelled as leaving the
length of the stream they are handed as they found it, and
`CreateDefaultGeometry` as filling `defaultQuad`.  The assignment
`graphicsCommandStream = {}` clears the stream; the bookkeeping `writeLog` is
carried over it. -/
def GameInit (cfg : PlatformConstants) (env : InitEnv) (windowWidth windowHeight : Nat)
    (s : GameState) : Nat × GameState :=
  let s := s.emit BackendCall.GetPlatformWindowHandles
  -- Graphics init
  let s := s.emit (BackendCall.CreateContext windowWidth windowHeight)
  let st := { GraphicsCommandStream.empty with writeLog := s.graphicsCommandStream.writeLog }
  let st := { st with m_numCommands := 0 }
  let st := { st with m_maxCommands := TINKER_PLATFORM_GRAPHICS_COMMAND_STREAM_MAX }
  let s := s.emit (BackendCall.CoreMallocAligned (st.m_maxCommands * cfg.sizeofGraphicsCommand)
    cfg.CACHE_LINE)
  let s := { s with graphicsCommandStream := st }
  let s := { s with trace := ShaderManager.Startup s.trace }
  let s := { s with trace :=
    ShaderManager.LoadAllShaderResources cfg env.shaderResources windowWidth windowHeight s.trace }
  let s := s.emit BackendCall.DebugUI_Init
  let s := { s with currentWindowWidth := windowWidth }
  let s := { s with currentWindowHeight := windowHeight }
  let s := s.emit BackendCall.CreateDefaultGeometry
  let s := { s with defaultQuad := env.defaultQuad }
  let s := CreateGameRenderingResources cfg env.rtColorHandle windowWidth windowHeight s
  let s := InitDemo s
  let s := CreateAllDescriptors cfg env s
  (0, s)

/-! ## `GameMain.cpp`: recording one frame -/

/-- What platform, backend and debug UI answer during one `GameUpdate`: the
answers used by the lazy `GameInit`, the result of `AcquireFrame`, the commands
the debug UI pass appends, and the result of `SendMessageToServer`. -/
structure UpdateEnv where
  init : InitEnv
  acquireFrame : Bool
  debugUICommands : List GraphicsCommand
  sendMessageResult : Int

/-- The array `command->m_descriptors` after the loop that invalidates every
element (`GameMain.cpp:305-308`, `327-330`, `402-405`). -/
def descriptorsAllInvalid (cfg : PlatformConstants) : List DescriptorHandle :=
  List.replicate cfg.MAX_DESCRIPTOR_SETS_PER_SHADER DefaultDescHandle_Invalid

/-- The draw of the default quad with shader `shader` and the given descriptor
array (`GameMain.cpp:295-309`, `317-331`, `392-407`). -/
def drawDefaultQuad (cfg : PlatformConstants) (s : GameState) (shader : ShaderID)
    (descriptors : List DescriptorHandle) : GraphicsCommand :=
  GraphicsCommand.eDrawCall "Draw default quad" cfg.DEFAULT_QUAD_NUM_INDICES 1 0 0
    s.defaultQuad.indexBufferHandle shader BlendState.eReplace DepthState.eOff_NoCull descriptors

/-- The scissor command of both passes (`GameMain.cpp:286-291`, `383-388`). -/
def setScissor (windowWidth windowHeight : Nat) : GraphicsCommand :=
  GraphicsCommand.eSetScissor "Set render pass scissor state" 0 0 windowWidth windowHeight

/-- `GameUpdate`, block "Transition color buffer" (`GameMain.cpp:242-269`). -/
def recordColorBufferTransitions (s : GameState) : GameState :=
  let command := s.graphicsCommandStream.m_numCommands
  -- Transition from layout undefined to transfer_dst (required for clear command)
  let s := s.writeCommand command (GraphicsCommand.eLayoutTransition
    "Transition color to transfer_dst" s.gameGraphicsData.m_rtColorHandle
    ImageLayout.eUndefined ImageLayout.eTransferDst)
  let s := s.incrNumCommands
  let command := command + 1
  let s := s.writeCommand command (GraphicsCommand.eClearImage "Clear color buffer"
    s.gameGraphicsData.m_rtColorHandle (0, 0, 0, 0))
  let s := s.incrNumCommands
  let command := command + 1
  let s := s.writeCommand command (GraphicsCommand.eLayoutTransition
    "Transition color to render_optimal" s.gameGraphicsData.m_rtColorHandle
    ImageLayout.eTransferDst ImageLayout.eRenderOptimal)
  s.incrNumCommands

/-- `GameUpdate`, block "Timestamp start of frame" (`GameMain.cpp:271-276`). -/
def recordFrameStartTimestamp (s : GameState) : GameState :=
  let command := s.graphicsCommandStream.m_numCommands
  let s := s.writeCommand command (GraphicsCommand.CmdTimestamp "Begin Frame" "Timestamp" true)
  s.incrNumCommands

/-- `GameUpdate`, block "Record render commands for main view render"
(`GameMain.cpp:278-341`).  The local array `descriptors` of that block is
written but never read and is left out. -/
def recordMainView (cfg : PlatformConstants) (windowWidth windowHeight : Nat) (s : GameState) :
    GameState :=
  let s := { s with graphicsCommandStream := StartRenderPass s.mainViewPass s.graphicsCommandStream }
  let command := s.graphicsCommandStream.m_numCommands
  let s := s.writeCommand command (setScissor windowWidth windowHeight)
  let s := s.incrNumCommands
  let command := command + 1
  let s := s.writeCommand command (drawDefaultQuad cfg s ShaderID.SHADER_ID_Pass1
    ((descriptorsAllInvalid cfg).set 0 s.defaultQuad.m_descriptor))
  let s := s.incrNumCommands
  let command := command + 1
  let s := s.writeCommand command (GraphicsCommand.CmdTimestamp "Pass 1" "Timestamp" false)
  let s := s.incrNumCommands
  let command := command + 1
  let s := s.writeCommand command (drawDefaultQuad cfg s ShaderID.SHADER_ID_Pass2
    ((descriptorsAllInvalid cfg).set 0 s.defaultQuad.m_descriptor))
  let s := s.incrNumCommands
  let s := { s with graphicsCommandStream := EndRenderPass s.mainViewPass s.graphicsCommandStream }
  let command := s.graphicsCommandStream.m_numCommands
  let s := s.writeCommand command (GraphicsCommand.CmdTimestamp "Pass 2" "Timestamp" false)
  s.incrNumCommands

/-- `GameUpdate`, "Imgui menus" (`GameMain.cpp:343-345`).  `DebugUI::Render`
is outside `src/`; it is modelled as appending the commands `ui` to the stream
it is handed. -/
def recordDebugUI (ui : List GraphicsCommand) (s : GameState) : GameState :=
  let s := s.emit BackendCall.DebugUI_UI_RenderPassStats
  let s := s.emit (BackendCall.DebugUI_Render s.gameGraphicsData.m_rtColorHandle)
  { s with graphicsCommandStream := s.graphicsCommandStream.appendAll ui }

/-- `GameUpdate`, "FINAL BLIT TO SWAP CHAIN" (`GameMain.cpp:352-423`). -/
def recordFinalBlit (cfg : PlatformConstants) (windowWidth windowHeight : Nat) (s : GameState) :
    GameState :=
  let command := s.graphicsCommandStream.m_numCommands
  -- Transition main view render target from render optimal to shader read
  let s := s.writeCommand command (GraphicsCommand.eLayoutTransition
    "Transition main view render target to shader read for blit"
    s.gameGraphicsData.m_rtColorHandle ImageLayout.eRenderOptimal ImageLayout.eShaderRead)
  let s := s.incrNumCommands
  let command := command + 1
  -- Transition of swap chain to render optimal
  let s := s.writeCommand command (GraphicsCommand.eLayoutTransition
    "Transition swap chain to render_optimal" IMAGE_HANDLE_SWAP_CHAIN
    ImageLayout.eUndefined ImageLayout.eRenderOptimal)
  let s := s.incrNumCommands
  let command := command + 1
  let s := s.writeCommand command (GraphicsCommand.eRenderPassBegin "Blit to swap chain" 1
    [IMAGE_HANDLE_SWAP_CHAIN] DefaultResHandle_Invalid windowWidth windowHeight)
  let s := s.incrNumCommands
  let command := command + 1
  let s := s.writeCommand command (setScissor windowWidth windowHeight)
  let s := s.incrNumCommands
  let command := command + 1
  let s := s.writeCommand command (drawDefaultQuad cfg s ShaderID.SHADER_ID_SWAP_CHAIN_BLIT
    (((descriptorsAllInvalid cfg).set 0 s.gameGraphicsData.m_swapChainBlitDescHandle).set 1
      s.defaultQuad.m_descriptor))
  let s := s.incrNumCommands
  let command := command + 1
  let s := s.writeCommand command (GraphicsCommand.eRenderPassEnd "End blit to screen render pass")
  let s := s.incrNumCommands
  let command := command + 1
  -- Transition of swap chain from render optimal to present
  let s := s.writeCommand command (GraphicsCommand.eLayoutTransition
    "Transition swap chain to present" IMAGE_HANDLE_SWAP_CHAIN
    ImageLayout.eRenderOptimal ImageLayout.ePresent)
  s.incrNumCommands

/-- `GameUpdate`, "Process recorded graphics command stream"
(`GameMain.cpp:429-436`). -/
def processCommandStream (s : GameState) : GameState :=
  let s := s.emit BackendCall.BeginFrameRecording
  let s := s.emit (BackendCall.ProcessGraphicsCommandStream s.graphicsCommandStream.contents false)
  let s := s.emit BackendCall.EndFrameRecording
  s.emit BackendCall.SubmitFrameToGPU

/-- `GameUpdate` from "Start frame" to the end (`GameMain.cpp:205-451`). -/
def GameUpdate_frame (cfg : PlatformConstants) (env : UpdateEnv) (windowWidth windowHeight : Nat)
    (s : GameState) : Nat × GameState :=
  -- Start frame
  let shouldRenderFrame := env.acquireFrame
  let s := s.emit (BackendCall.AcquireFrame shouldRenderFrame)
  if shouldRenderFrame = false then
    if s.isWindowMinimized = true then
      (0, s)
    else
      (1, s)
  else
    let s := s.emit BackendCall.DebugUI_NewFrame
    let s := { s with currentWindowWidth := windowWidth }
    let s := { s with currentWindowHeight := windowHeight }
    let s := s.emit BackendCall.InputManager_UpdateAndDoCallbacks
    -- Update scene and view
    let s := s.emit (BackendCall.MapResource s.gameGraphicsData.m_DescDataBufferHandle_Global)
    let s := s.emit (BackendCall.UnmapResource s.gameGraphicsData.m_DescDataBufferHandle_Global)
    let s := recordColorBufferTransitions s
    let s := recordFrameStartTimestamp s
    let s := recordMainView cfg windowWidth windowHeight s
    let s := recordDebugUI env.debugUICommands s
    let s := recordFinalBlit cfg windowWidth windowHeight s
    let s := processCommandStream s
    if (s.isGameInitted && isMultiplayer && s.connectedToServer) = true then
      let result := env.sendMessageResult
      let s := s.emit (BackendCall.SendMessageToServer result)
      if result ≠ 0 then
        (1, s)
      else
        (0, s)
    else
      (0, s)

/-- `GameUpdate` (`GameMain.cpp:190-452`): the returned status and the state
afterwards. -/
def GameUpdate (cfg : PlatformConstants) (env : UpdateEnv) (windowWidth windowHeight : Nat)
    (s : GameState) : Nat × GameState :=
  let s := { s with graphicsCommandStream := { s.graphicsCommandStream with m_numCommands := 0 } }
  if s.isGameInitted = false then
    let r := GameInit cfg env.init windowWidth windowHeight s
    if r.1 ≠ 0 then
      (r.1, r.2)
    else
      GameUpdate_frame cfg env windowWidth windowHeight { r.2 with isGameInitted := true }
  else
    GameUpdate_frame cfg env windowWidth windowHeight s

/-! ## `GameMain.cpp`: resize and teardown -/

/-- What the backend answers during one `GameWindowResize`. -/
structure ResizeEnv where
  shaders : ShaderManager.ShaderEnv
  rtColorHandle : ResourceHandle

/-- `DestroyWindowResizeDependentResources` (`GameMain.cpp:454-457`). -/
def DestroyWindowResizeDependentResources (s : GameState) : GameState :=
  s.emit (BackendCall.DestroyResource s.gameGraphicsData.m_rtColorHandle)

/-- `GameWindowResize` (`GameMain.cpp:459-483`). -/
def GameWindowResize (cfg : PlatformConstants) (env : ResizeEnv)
    (newWindowWidth newWindowHeight : Nat) (s : GameState) : GameState :=
  if newWindowWidth = 0 ∧ newWindowHeight = 0 then
    let s := s.emit BackendCall.WindowMinimized
    { s with isWindowMinimized := true }
  else
    let s := { s with isWindowMinimized := false }
    let s := s.emit BackendCall.WindowResize
    let t := ShaderManager.CreateWindowDependentResources cfg env.shaders newWindowWidth
      newWindowHeight s.trace
    let s := { s with trace := t }
    let s := { s with currentWindowWidth := newWindowWidth }
    let s := { s with currentWindowHeight := newWindowHeight }
    let s := DestroyWindowResizeDependentResources s
    let s := CreateGameRenderingResources cfg env.rtColorHandle newWindowWidth newWindowHeight s
    WriteSwapChainBlitResources cfg s

/-- `GameDestroy` (`GameMain.cpp:485-505`). -/
def GameDestroy (s : GameState) : GameState :=
  if s.isGameInitted = true then
    let s := s.emit BackendCall.DebugUI_Shutdown
    let s := DestroyWindowResizeDependentResources s
    let s := DestroyDescriptors s
    let s := s.emit BackendCall.DestroyDefaultGeometry
    let s := s.emit BackendCall.DestroyDefaultGeometryVertexBufferDescriptor
    let s := s.emit BackendCall.DestroyAnimatedPoly
    -- Shutdown graphics
    let s := { s with trace := ShaderManager.Shutdown s.trace }
    let s := s.emit BackendCall.DestroyContext
    s.emit BackendCall.CoreFreeAligned
  else
    s

/-! ## Sequences of entry-point calls -/

/-- A call of the application shell into the game: `GameUpdate` or
`GameWindowResize`, with what the outside answers during it. -/
inductive EntryCall where
  | update (env : UpdateEnv) (windowWidth windowHeight : Nat)
  | resize (env : ResizeEnv) (newWindowWidth newWindowHeight : Nat)

/-- The state after one entry-point call. -/
def step (cfg : PlatformConstants) (s : GameState) : EntryCall → GameState
  | EntryCall.update env w h => (GameUpdate cfg env w h s).2
  | EntryCall.resize env w h => GameWindowResize cfg env w h s

/-- The state after a sequence of entry-point calls. -/
def run (cfg : PlatformConstants) (s : GameState) (calls : List EntryCall) : GameState :=
  calls.foldl (step cfg) s

/-- The frame of an update call fits the stream: the eighteen commands of
`GameUpdate` and those of the debug UI pass are at most 65535. -/
def EntryCall.fits : EntryCall → Prop
  | EntryCall.update env _ _ => 18 + env.debugUICommands.length ≤ MAX_UINT16
  | EntryCall.resize _ _ _ => True

/-- The call is a `GameWindowResize` with a size other than (0,0). -/
def EntryCall.isNonzeroResize : EntryCall → Prop
  | EntryCall.update _ _ _ => False
  | EntryCall.resize _ w h => ¬ (w = 0 ∧ h = 0)

/-! ## The frame as the specification lists it -/

/-- The three commands that prepare the main colour target: transition from
undefined to transfer-destination, clear, transition to render-optimal. -/
def colorBufferTransitionCommands (s : GameState) : List GraphicsCommand :=
  [ GraphicsCommand.eLayoutTransition "Transition color to transfer_dst"
      s.gameGraphicsData.m_rtColorHandle ImageLayout.eUndefined ImageLayout.eTransferDst,
    GraphicsCommand.eClearImage "Clear color buffer" s.gameGraphicsData.m_rtColorHandle (0, 0, 0, 0),
    GraphicsCommand.eLayoutTransition "Transition color to render_optimal"
      s.gameGraphicsData.m_rtColorHandle ImageLayout.eTransferDst ImageLayout.eRenderOptimal ]

/-- The seven commands of the main view: main-pass begin, scissor, draw with
`SHADER_ID_Pass1`, timestamp, draw with `SHADER_ID_Pass2`, main-pass end,
timestamp. -/
def mainViewCommands (cfg : PlatformConstants) (windowWidth windowHeight : Nat) (s : GameState) :
    List GraphicsCommand :=
  [ GraphicsCommand.eRenderPassBegin s.mainViewPass.debugLabel s.mainViewPass.numColorRTs
      (s.mainViewPass.colorRTs.take s.mainViewPass.numColorRTs) s.mainViewPass.depthRT
      s.mainViewPass.renderWidth s.mainViewPass.renderHeight,
    GraphicsCommand.eSetScissor "Set render pass scissor state" 0 0 windowWidth windowHeight,
    GraphicsCommand.eDrawCall "Draw default quad" cfg.DEFAULT_QUAD_NUM_INDICES 1 0 0
      s.defaultQuad.indexBufferHandle ShaderID.SHADER_ID_Pass1 BlendState.eReplace
      DepthState.eOff_NoCull ((descriptorsAllInvalid cfg).set 0 s.defaultQuad.m_descriptor),
    GraphicsCommand.eTimestamp "Pass 1" "Timestamp" false,
    GraphicsCommand.eDrawCall "Draw default quad" cfg.DEFAULT_QUAD_NUM_INDICES 1 0 0
      s.defaultQuad.indexBufferHandle ShaderID.SHADER_ID_Pass2 BlendState.eReplace
      DepthState.eOff_NoCull ((descriptorsAllInvalid cfg).set 0 s.defaultQuad.m_descriptor),
    GraphicsCommand.eRenderPassEnd s.mainViewPass.debugLabel,
    GraphicsCommand.eTimestamp "Pass 2" "Timestamp" false ]

/-- The seven commands of the final blit: main colour target to shader-read,
swap chain to render-optimal, blit-pass begin on the swap chain, scissor, draw
with `SHADER_ID_SWAP_CHAIN_BLIT`, pass end, swap chain to present. -/
def finalBlitCommands (cfg : PlatformConstants) (windowWidth windowHeight : Nat) (s : GameState) :
    List GraphicsCommand :=
  [ GraphicsCommand.eLayoutTransition "Transition main view render target to shader read for blit"
      s.gameGraphicsData.m_rtColorHandle ImageLayout.eRenderOptimal ImageLayout.eShaderRead,
    GraphicsCommand.eLayoutTransition "Transition swap chain to render_optimal"
      IMAGE_HANDLE_SWAP_CHAIN ImageLayout.eUndefined ImageLayout.eRenderOptimal,
    GraphicsCommand.eRenderPassBegin "Blit to swap chain" 1 [IMAGE_HANDLE_SWAP_CHAIN]
      DefaultResHandle_Invalid windowWidth windowHeight,
    GraphicsCommand.eSetScissor "Set render pass scissor state" 0 0 windowWidth windowHeight,
    GraphicsCommand.eDrawCall "Draw default quad" cfg.DEFAULT_QUAD_NUM_INDICES 1 0 0
      s.defaultQuad.indexBufferHandle ShaderID.SHADER_ID_SWAP_CHAIN_BLIT BlendState.eReplace
      DepthState.eOff_NoCull
      (((descriptorsAllInvalid cfg).set 0 s.gameGraphicsData.m_swapChainBlitDescHandle).set 1
        s.defaultQuad.m_descriptor),
    GraphicsCommand.eRenderPassEnd "End blit to screen render pass",
    GraphicsCommand.eLayoutTransition "Transition swap chain to present"
      IMAGE_HANDLE_SWAP_CHAIN ImageLayout.eRenderOptimal ImageLayout.ePresent ]

/-- The whole frame in order: colour target preparation, frame-start timestamp,
main view, the commands `ui` of the debug UI pass, final blit. -/
def frameCommands (cfg : PlatformConstants) (windowWidth windowHeight : Nat) (s : GameState)
    (ui : List GraphicsCommand) : List GraphicsCommand :=
  colorBufferTransitionCommands s ++ [GraphicsCommand.eTimestamp "Begin Frame" "Timestamp" true] ++
    mainViewCommands cfg windowWidth windowHeight s ++ ui ++
    finalBlitCommands cfg windowWidth windowHeight s

/-- The calls of a `GameUpdate` that acquires its frame, from `AcquireFrame` on;
`commands` is the stream handed to the backend. -/
def frameTrace (s : GameState) (commands : List (Option GraphicsCommand)) : Trace :=
  [ BackendCall.AcquireFrame true, BackendCall.DebugUI_NewFrame,
    BackendCall.InputManager_UpdateAndDoCallbacks,
    BackendCall.MapResource s.gameGraphicsData.m_DescDataBufferHandle_Global,
    BackendCall.UnmapResource s.gameGraphicsData.m_DescDataBufferHandle_Global,
    BackendCall.DebugUI_UI_RenderPassStats,
    BackendCall.DebugUI_Render s.gameGraphicsData.m_rtColorHandle,
    BackendCall.BeginFrameRecording,
    BackendCall.ProcessGraphicsCommandStream commands false,
    BackendCall.EndFrameRecording,
    BackendCall.SubmitFrameToGPU ]

/-- The log entries of `n` stores made at the indices `k, k+1, ...`, each at the
index equal to the stream length at that moment. -/
def writesInOrder (k n : Nat) : List CommandWrite :=
  (List.range' k n).map (fun i => { index := i, lengthAtWrite := i })

/-- The state in which `GameUpdate` reaches "Start frame" (`GameMain.cpp:193-203`):
the stream length reset and, on the first call, `GameInit` run. -/
def afterLazyInit (cfg : PlatformConstants) (env : UpdateEnv) (windowWidth windowHeight : Nat)
    (s : GameState) : GameState :=
  let s := { s with graphicsCommandStream := { s.graphicsCommandStream with m_numCommands := 0 } }
  if s.isGameInitted = false then
    { (GameInit cfg env.init windowWidth windowHeight s).2 with isGameInitted := true }
  else
    s

/-! ## Observations on traces -/

/-- The call is a `CreateDescriptorLayout` for layout id `id`. -/
def isCreateDescriptorLayout (id : DescLayoutID) : BackendCall → Bool
  | BackendCall.CreateDescriptorLayout i _ _ => decide (i = id)
  | _ => false

/-- The call is a `CreateGraphicsPipeline`. -/
def isCreateGraphicsPipeline : BackendCall → Bool
  | BackendCall.CreateGraphicsPipeline _ _ => true
  | _ => false

/-- How often `CreateDescriptorLayout` was invoked for `id` in the trace. -/
def layoutCreations (id : DescLayoutID) (t : Trace) : Nat :=
  t.countP (isCreateDescriptorLayout id)

/-- The layout registered under `id` by the calls of the trace. -/
def registeredLayout (t : Trace) (id : DescLayoutID) : Option DescriptorLayout :=
  t.findSome? (fun c =>
    match c with
    | BackendCall.CreateDescriptorLayout i l _ => if i = id then some l else none
    | _ => none)

/-- The `WriteDescriptor` calls of the trace, in order. -/
def writeDescriptorCalls (t : Trace) :
    List (DescLayoutID × DescriptorHandle × DescriptorSetDataHandles) :=
  t.filterMap (fun c =>
    match c with
    | BackendCall.WriteDescriptor id d data => some (id, d, data)
    | _ => none)

/-- Slot `i` of the data holds a handle other than the invalid sentinel. -/
def DescriptorSetDataHandles.slotFilled (d : DescriptorSetDataHandles) (i : Nat) : Bool :=
  match d.handles.get? i with
  | some h => decide (h ≠ DefaultResHandle_Invalid)
  | none => false

/-- Slot `i` of the layout is given a type. -/
def DescriptorLayout.slotDeclared (l : DescriptorLayout) (i : Nat) : Bool :=
  match l.params.get? i with
  | some p => decide (p.type ≠ DescriptorType.eMax)
  | none => false

/-- The indices below `n` at which `p` holds. -/
def slotsWhere (n : Nat) (p : Nat → Bool) : List Nat :=
  (List.range n).filter p

/-- The stream respects its capacity: the length is at most the capacity, the
capacity is at most 65535 and equals it once `GameInit` has run, and every store
made so far went to the index equal to the length at that moment, below the
capacity. -/
def StreamWithinCapacity (s : GameState) : Prop :=
  s.graphicsCommandStream.m_numCommands ≤ s.graphicsCommandStream.m_maxCommands ∧
  s.graphicsCommandStream.m_maxCommands ≤ MAX_UINT16 ∧
  (s.isGameInitted = true → s.graphicsCommandStream.m_maxCommands = MAX_UINT16) ∧
  ∀ e ∈ s.graphicsCommandStream.writeLog,
    e.index = e.lengthAtWrite ∧ e.index < s.graphicsCommandStream.m_maxCommands

/-! ## Observations on teardown, layouts and descriptor bindings -/

/-- The data of the last `WriteDescriptor` of the trace into descriptor `d`. -/
def lastWrittenData (t : Trace) (d : DescriptorHandle) : Option DescriptorSetDataHandles :=
  t.foldl (fun acc c =>
    match c with
    | BackendCall.WriteDescriptor _ h data => if h = d then some data else acc
    | _ => acc) none

/-- The calls `GameDestroy` makes on the state, in order. -/
def destroyCalls (s : GameState) : Trace :=
  (GameDestroy s).trace.drop s.trace.length

/-- The subsystems that `GameInit` creates and `GameDestroy` releases. -/
inductive Subsystem where
  | graphicsContext
  | commandStreamStorage
  | shaderManager
  | debugUI
  | defaultGeometry
  | renderTarget
  | animatedContent
  | descriptors
deriving DecidableEq, Repr

/-- The subsystem a call of `GameInit` creates (part of), if any: the image
created by `CreateGameRenderingResources` is the render target, the buffer and
the descriptors created by `CreateAllDescriptors` are the descriptors. -/
def createdBy : BackendCall → Option Subsystem
  | BackendCall.CreateContext _ _ => some Subsystem.graphicsContext
  | BackendCall.CoreMallocAligned _ _ => some Subsystem.commandStreamStorage
  | BackendCall.AllocatorInit _ _ => some Subsystem.shaderManager
  | BackendCall.DebugUI_Init => some Subsystem.debugUI
  | BackendCall.CreateDefaultGeometry => some Subsystem.defaultGeometry
  | BackendCall.CreateResource desc _ =>
    if desc.resourceType = ResourceType.eImage2D then some Subsystem.renderTarget
    else some Subsystem.descriptors
  | BackendCall.CreateAnimatedPoly => some Subsystem.animatedContent
  | BackendCall.CreateDescriptor _ _ => some Subsystem.descriptors
  | _ => none

/-- The subsystem a call of `GameDestroy` releases (part of), if any; `rt` is
the handle of the main colour target. -/
def releasedBy (rt : ResourceHandle) : BackendCall → Option Subsystem
  | BackendCall.DestroyContext => some Subsystem.graphicsContext
  | BackendCall.CoreFreeAligned => some Subsystem.commandStreamStorage
  | BackendCall.AllocatorExplicitFree => some Subsystem.shaderManager
  | BackendCall.DebugUI_Shutdown => some Subsystem.debugUI
  | BackendCall.DestroyDefaultGeometry => some Subsystem.defaultGeometry
  | BackendCall.DestroyDefaultGeometryVertexBufferDescriptor => some Subsystem.defaultGeometry
  | BackendCall.DestroyResource h =>
    if h = rt then some Subsystem.renderTarget else some Subsystem.descriptors
  | BackendCall.DestroyAnimatedPoly => some Subsystem.animatedContent
  | BackendCall.DestroyDescriptor _ => some Subsystem.descriptors
  | BackendCall.DestroyAllDescriptors => some Subsystem.descriptors
  | _ => none

/-- The list without repetitions, each element at its first occurrence. -/
def firstOccurrences (l : List Subsystem) : List Subsystem :=
  l.foldl (fun acc x => if x ∈ acc then acc else acc ++ [x]) []

/-- The order in which the calls of the trace create the subsystems. -/
def creationOrder (t : Trace) : List Subsystem :=
  firstOccurrences (t.filterMap createdBy)

/-- The order in which the calls of the trace release the subsystems. -/
def releaseOrder (rt : ResourceHandle) (t : Trace) : List Subsystem :=
  firstOccurrences (t.filterMap (releasedBy rt))

/-- The calls `GameInit` makes on the state, in order. -/
def initCalls (cfg : PlatformConstants) (env : InitEnv) (w h : Nat) (s : GameState) : Trace :=
  (GameInit cfg env w h s).2.trace.drop s.trace.length

/-- The arguments of the `CreateGraphicsPipeline` calls of the trace, in order. -/
def pipelineCalls (t : Trace) : List PipelineArgs :=
  t.filterMap (fun c =>
    match c with
    | BackendCall.CreateGraphicsPipeline args _ => some args
    | _ => none)

/-- The attachment formats a pipeline declares: its shader id, the number of
colour formats, the colour formats counted by that number, the entries of the
whole array other than `Invalid`, and the depth format. -/
def PipelineArgs.attachments (a : PipelineArgs) :
    ShaderID × Nat × List ImageFormat × List ImageFormat × ImageFormat :=
  (a.shaderID, a.numColorRTs, a.colorRTFormats.take a.numColorRTs,
    a.colorRTFormats.filter (fun f => decide (f ≠ ImageFormat.Invalid)), a.depthFormat)

/-- The command is a layout transition. -/
def GraphicsCommand.isLayoutTransition : GraphicsCommand → Bool
  | GraphicsCommand.eLayoutTransition _ _ _ _ => true
  | _ => false

/-- The layout every image is in before the first command of a frame. -/
def layoutsAtFrameStart : ResourceHandle → ImageLayout :=
  fun _ => ImageLayout.eUndefined

/-- The layout of every image after one command: a layout transition moves its
image to its end layout, no other command changes a layout. -/
def layoutsAfterCommand (cur : ResourceHandle → ImageLayout) :
    GraphicsCommand → ResourceHandle → ImageLayout
  | GraphicsCommand.eLayoutTransition _ img _ e => fun x => if x = img then e else cur x
  | _ => cur

/-- The layout of every image after the commands, starting from `cur`. -/
def layoutsAfter (cur : ResourceHandle → ImageLayout) (cs : List GraphicsCommand) :
    ResourceHandle → ImageLayout :=
  cs.foldl layoutsAfterCommand cur

/-- A layout transition starts from the layout `cur` gives its image; any
other command passes. -/
def transitionStartsFrom (cur : ResourceHandle → ImageLayout) : GraphicsCommand → Bool
  | GraphicsCommand.eLayoutTransition _ img st _ => decide (cur img = st)
  | _ => true

/-- Every layout transition of the list starts from the layout its image is
in at that moment, the images being in the layouts `cur` before the list. -/
def transitionsChained (cur : ResourceHandle → ImageLayout) : List GraphicsCommand → Bool
  | [] => true
  | c :: cs => transitionStartsFrom cur c && transitionsChained (layoutsAfterCommand cur c) cs

/-- The state reached from program start by the calls. -/
def stateAfter (cfg : PlatformConstants) (calls : List EntryCall) : GameState :=
  run cfg (GameState.initial cfg) calls

/-- The handle the backend returns for the main colour target during the call
is the handle of a created resource. -/
def EntryCall.targetCreated : EntryCall → Prop
  | EntryCall.update env _ _ => env.init.rtColorHandle.isCreated = true
  | EntryCall.resize env _ _ => env.rtColorHandle.isCreated = true

/-- Once the game is initialised, the main pass targets exactly the main colour
target, which is a created resource. -/
def MainTargetBound (s : GameState) : Prop :=
  s.isGameInitted = true →
    s.mainViewPass.colorRTs.take s.mainViewPass.numColorRTs = [s.gameGraphicsData.m_rtColorHandle] ∧
    s.gameGraphicsData.m_rtColorHandle.isCreated = true

/-- One step of `boundLayout`: a `CreateDescriptor` or `WriteDescriptor` for
descriptor `d` binds it to the layout id of the call. -/
def boundLayoutStep (d : DescriptorHandle) (acc : Option DescLayoutID) :
    BackendCall → Option DescLayoutID
  | BackendCall.CreateDescriptor id h => if h = d then some id else acc
  | BackendCall.WriteDescriptor id h _ => if h = d then some id else acc
  | _ => acc

/-- The layout id under which descriptor `d` was last created or written by
the calls of the trace. -/
def boundLayout (t : Trace) (d : DescriptorHandle) : Option DescLayoutID :=
  t.foldl (boundLayoutStep d) none

/-- One step of `pipelineFor`. -/
def pipelineForStep (sh : ShaderID) (acc : Option PipelineArgs) : BackendCall → Option PipelineArgs
  | BackendCall.CreateGraphicsPipeline args _ => if args.shaderID = sh then some args else acc
  | _ => acc

/-- The arguments of the last `CreateGraphicsPipeline` call of the trace for
shader `sh`. -/
def pipelineFor (t : Trace) (sh : ShaderID) : Option PipelineArgs :=
  t.foldl (pipelineForStep sh) none

/-- The descriptor sets of a draw match the pipeline built for its shader: the
number of entries of `m_descriptors` other than the invalid handle is the
`numDescLayouts` of the pipeline, and the descriptor at each index below it is
bound to the pipeline's layout id at that index.  Commands other than draws
pass. -/
def drawMatchesPipeline (t : Trace) : GraphicsCommand → Bool
  | GraphicsCommand.eDrawCall _ _ _ _ _ _ shader _ _ descriptors =>
    match pipelineFor t shader with
    | none => false
    | some args =>
      decide ((descriptors.filter (fun d => decide (d ≠ DefaultDescHandle_Invalid))).length =
        args.numDescLayouts) &&
      decide ((descriptors.take args.numDescLayouts).map (boundLayout t) =
        (args.descLayouts.take args.numDescLayouts).map some)
  | _ => true

/-- The pipeline last built for `sh` was passed `n` layouts, the ids `ls`. -/
def PipelineLayouts (t : Trace) (sh : ShaderID) (n : Nat) (ls : List DescLayoutID) : Prop :=
  ∃ args, pipelineFor t sh = some args ∧ args.numDescLayouts = n ∧ args.descLayouts.take n = ls

/-- The descriptor handles the backend returns during the lazy initialisation
of an update are valid and pairwise distinct. -/
def EntryCall.descriptorsDistinct : EntryCall → Prop
  | EntryCall.update env _ _ =>
    env.init.swapChainBlitDescHandle ≠ DefaultDescHandle_Invalid ∧
    env.init.defaultQuad.m_descriptor ≠ DefaultDescHandle_Invalid ∧
    env.init.swapChainBlitDescHandle ≠ env.init.defaultQuad.m_descriptor ∧
    env.init.swapChainBlitDescHandle ≠ env.init.descData_Global ∧
    env.init.defaultQuad.m_descriptor ≠ env.init.descData_Global
  | EntryCall.resize _ _ _ => True

/-- Once the game is initialised: the swap-chain-blit descriptor and the
descriptor of the default quad are valid and bound to
`DESCLAYOUT_ID_SWAP_CHAIN_BLIT_TEX` and `DESCLAYOUT_ID_SWAP_CHAIN_BLIT_VBS`, and
the pipelines of the three shaders `GameUpdate` draws with were built with the
layouts `[SWAP_CHAIN_BLIT_VBS]`, `[SWAP_CHAIN_BLIT_VBS]` and
`[SWAP_CHAIN_BLIT_TEX, SWAP_CHAIN_BLIT_VBS]`. -/
def DescriptorsBound (s : GameState) : Prop :=
  s.isGameInitted = true →
    s.gameGraphicsData.m_swapChainBlitDescHandle ≠ DefaultDescHandle_Invalid ∧
    s.defaultQuad.m_descriptor ≠ DefaultDescHandle_Invalid ∧
    boundLayout s.trace s.gameGraphicsData.m_swapChainBlitDescHandle =
      some DescLayoutID.DESCLAYOUT_ID_SWAP_CHAIN_BLIT_TEX ∧
    boundLayout s.trace s.defaultQuad.m_descriptor =
      some DescLayoutID.DESCLAYOUT_ID_SWAP_CHAIN_BLIT_VBS ∧
    PipelineLayouts s.trace ShaderID.SHADER_ID_Pass1 1
      [DescLayoutID.DESCLAYOUT_ID_SWAP_CHAIN_BLIT_VBS] ∧
    PipelineLayouts s.trace ShaderID.SHADER_ID_Pass2 1
      [DescLayoutID.DESCLAYOUT_ID_SWAP_CHAIN_BLIT_VBS] ∧
    PipelineLayouts s.trace ShaderID.SHADER_ID_SWAP_CHAIN_BLIT 2
      [DescLayoutID.DESCLAYOUT_ID_SWAP_CHAIN_BLIT_TEX, DescLayoutID.DESCLAYOUT_ID_SWAP_CHAIN_BLIT_VBS]

/-! ## Observations on attachment formats -/

/-- One step of `targetFormat`: the creation of an image under handle `h`
gives the handle the image format of the description. -/
def targetFormatStep (h : ResourceHandle) (acc : Option ImageFormat) :
    BackendCall → Option ImageFormat
  | BackendCall.CreateResource desc h2 =>
    if h2 = h ∧ desc.resourceType = ResourceType.eImage2D then desc.imageFormat else acc
  | _ => acc

/-- The image format of a render target: `TheSwapChainFormat` for the swap
chain image, for a created handle the format of the image last created under it
by the calls of the trace, nothing for the invalid handle. -/
def targetFormat (t : Trace) : ResourceHandle → Option ImageFormat
  | ResourceHandle.swapChain => some ImageFormat.TheSwapChainFormat
  | ResourceHandle.invalid => none
  | ResourceHandle.created n => t.foldl (targetFormatStep (ResourceHandle.created n)) none

/-- The depth format of a pass: `Invalid` when the pass has no depth target,
else the format of its depth target. -/
def depthFormatOf (t : Trace) (depthRT : ResourceHandle) : Option ImageFormat :=
  if depthRT = DefaultResHandle_Invalid then some ImageFormat.Invalid else targetFormat t depthRT

/-- One step of `enclosingPass`. -/
def enclosingPassStep (acc : Option GraphicsCommand) (c : GraphicsCommand) :
    Option GraphicsCommand :=
  match c with
  | GraphicsCommand.eRenderPassBegin _ _ _ _ _ _ => some c
  | GraphicsCommand.eRenderPassEnd _ => none
  | _ => acc

/-- The render pass that is open after the commands: the last render-pass-begin
that no render-pass-end follows. -/
def enclosingPass (cs : List GraphicsCommand) : Option GraphicsCommand :=
  cs.foldl enclosingPassStep none

/-- The attachment formats of the pipeline last built for the shader of a draw
agree with the render pass `pass` the draw is recorded in: the pass has as many
colour targets as the pipeline has colour formats, each colour target has the
pipeline's format at its index, and the depth formats are equal.  A draw outside
every pass or with a shader for which no pipeline was built fails; commands
other than draws pass. -/
def drawAgreesWithPass (t : Trace) (pass : Option GraphicsCommand) : GraphicsCommand → Bool
  | GraphicsCommand.eDrawCall _ _ _ _ _ _ shader _ _ _ =>
    match pass, pipelineFor t shader with
    | some (GraphicsCommand.eRenderPassBegin _ n rts depth _ _), some args =>
      decide (n = args.numColorRTs) &&
      decide (rts.map (targetFormat t) = (args.colorRTFormats.take args.numColorRTs).map some) &&
      decide (depthFormatOf t depth = some args.depthFormat)
    | _, _ => false
  | _ => true

/-- The pipeline last built for `sh` declares exactly one colour format, `fmt`,
and an invalid depth format. -/
def PipelineFormats (t : Trace) (sh : ShaderID) (fmt : ImageFormat) : Prop :=
  ∃ args, pipelineFor t sh = some args ∧ args.numColorRTs = 1 ∧
    args.colorRTFormats.take 1 = [fmt] ∧
    args.colorRTFormats.filter (fun f => decide (f ≠ ImageFormat.Invalid)) = [fmt] ∧
    args.depthFormat = ImageFormat.Invalid

/-- Once the game is initialised: the main pass has exactly one colour target,
the main colour target, a created resource whose image was created as
`RGBA8_SRGB`, and no depth target; and the pipelines of the three shaders
`GameUpdate` draws with declare one colour format and no depth format,
`RGBA8_SRGB` for `SHADER_ID_Pass1` and `SHADER_ID_Pass2` and
`TheSwapChainFormat` for `SHADER_ID_SWAP_CHAIN_BLIT`. -/
def FormatsBound (s : GameState) : Prop :=
  s.isGameInitted = true →
    s.mainViewPass.numColorRTs = 1 ∧
    s.mainViewPass.colorRTs.take 1 = [s.gameGraphicsData.m_rtColorHandle] ∧
    s.mainViewPass.depthRT = DefaultResHandle_Invalid ∧
    s.gameGraphicsData.m_rtColorHandle.isCreated = true ∧
    targetFormat s.trace s.gameGraphicsData.m_rtColorHandle = some ImageFormat.RGBA8_SRGB ∧
    PipelineFormats s.trace ShaderID.SHADER_ID_Pass1 ImageFormat.RGBA8_SRGB ∧
    PipelineFormats s.trace ShaderID.SHADER_ID_Pass2 ImageFormat.RGBA8_SRGB ∧
    PipelineFormats s.trace ShaderID.SHADER_ID_SWAP_CHAIN_BLIT ImageFormat.TheSwapChainFormat

/-! ## Concrete inputs used to evaluate the definitions -/

/-- Constants of a sample build. -/
def sampleConstants : PlatformConstants :=
  { MAX_DESCRIPTOR_SETS_PER_SHADER := 3
    MAX_BINDINGS_PER_SET := 3
    MAX_MULTIPLE_RENDERTARGETS := 8
    DEFAULT_QUAD_NUM_INDICES := 6
    CACHE_LINE := 64
    sizeofGraphicsCommand := 128
    sizeofDescriptorData_Global := 64 }

/-- A backend in which every shader file has 100 bytes and every pipeline
creation succeeds. -/
def sampleShaderEnv : ShaderManager.ShaderEnv :=
  { fileSize := fun _ => 100, pipelineCreated := fun _ => true }

/-- Answers of a backend that hands out the handles 1 to 8 during `GameInit`. -/
def sampleInitEnv : InitEnv :=
  { shaderResources := { layoutCreated := fun _ => true, shaders := sampleShaderEnv }
    defaultQuad :=
      { positionBufferHandle := ResourceHandle.created 1
        uvBufferHandle := ResourceHandle.created 2
        normalBufferHandle := ResourceHandle.created 3
        indexBufferHandle := ResourceHandle.created 4
        m_descriptor := DescriptorHandle.created 5 }
    rtColorHandle := ResourceHandle.created 6
    swapChainBlitDescHandle := DescriptorHandle.created 7
    descDataBufferHandle_Global := ResourceHandle.created 8
    descData_Global := DescriptorHandle.created 9 }

/-- An update in which the frame is acquired and the debug UI records nothing. -/
def sampleUpdateEnv : UpdateEnv :=
  { init := sampleInitEnv, acquireFrame := true, debugUICommands := [], sendMessageResult := 0 }

/-- An update in which `AcquireFrame` returns false. -/
def sampleSkipEnv : UpdateEnv :=
  { sampleUpdateEnv with acquireFrame := false }

/-- A resize during which the new main colour target gets handle 10. -/
def sampleResizeEnv : ResizeEnv :=
  { shaders := sampleShaderEnv, rtColorHandle := ResourceHandle.created 10 }

/-- The game after its first `GameUpdate` at 800 x 600. -/
def sampleInitialized : GameState :=
  (GameUpdate sampleConstants sampleUpdateEnv 800 600 (GameState.initial sampleConstants)).2

/-- The initialised game after `GameWindowResize(0,0)`. -/
def sampleMinimized : GameState :=
  GameWindowResize sampleConstants sampleResizeEnv 0 0 sampleInitialized

/-- The initialised game after `GameWindowResize(640,480)`. -/
def sampleResized : GameState :=
  GameWindowResize sampleConstants sampleResizeEnv 640 480 sampleInitialized

/-! ## Lemmas on the command stream and the recording blocks -/

namespace GraphicsCommandStream

theorem append_eq (st : GraphicsCommandStream) (c : GraphicsCommand)
    (h : st.m_numCommands + 1 < UINT32_RANGE) :
    st.append c =
      { m_graphicsCommands := fun j => if j = st.m_numCommands then some c else st.m_graphicsCommands j
        m_numCommands := st.m_numCommands + 1
        m_maxCommands := st.m_maxCommands
        writeLog := st.writeLog ++ [{ index := st.m_numCommands, lengthAtWrite := st.m_numCommands }] } := by
  simp [append, write, incr, Nat.mod_eq_of_lt h]

theorem write_incr (st : GraphicsCommandStream) (c : GraphicsCommand) :
    (st.write st.m_numCommands c).incr = st.append c := rfl

theorem appendAll_nil (st : GraphicsCommandStream) : st.appendAll [] = st := rfl

theorem appendAll_cons (st : GraphicsCommandStream) (c : GraphicsCommand) (cs : List GraphicsCommand) :
    st.appendAll (c :: cs) = (st.append c).appendAll cs := rfl

theorem appendAll_append (st : GraphicsCommandStream) (cs ds : List GraphicsCommand) :
    st.appendAll (cs ++ ds) = (st.appendAll cs).appendAll ds := by
  simp [appendAll, List.foldl_append]

theorem appendAll_maxCommands (cs : List GraphicsCommand) (st : GraphicsCommandStream) :
    (st.appendAll cs).m_maxCommands = st.m_maxCommands := by
  induction cs generalizing st with
  | nil => rfl
  | cons c cs ih => rw [appendAll_cons, ih]; rfl

theorem appendAll_numCommands (cs : List GraphicsCommand) (st : GraphicsCommandStream)
    (h : st.m_numCommands + cs.length < UINT32_RANGE) :
    (st.appendAll cs).m_numCommands = st.m_numCommands + cs.length := by
  induction cs generalizing st with
  | nil => rfl
  | cons c cs ih =>
    simp only [List.length_cons] at h
    have h1 : st.m_numCommands + 1 < UINT32_RANGE := by omega
    rw [appendAll_cons, ih]
    · rw [append_eq st c h1]; simp only [List.length_cons]; omega
    · rw [append_eq st c h1]; simp only; omega

theorem contents_append (st : GraphicsCommandStream) (c : GraphicsCommand)
    (h : st.m_numCommands + 1 < UINT32_RANGE) :
    (st.append c).contents = st.contents ++ [some c] := by
  rw [append_eq st c h]
  simp only [contents, List.range_succ, List.map_append, List.map_cons, List.map_nil, if_true]
  congr 1
  apply List.map_congr_left
  intro i hi
  have : i < st.m_numCommands := List.mem_range.mp hi
  simp [Nat.ne_of_lt this]

theorem appendAll_contents (cs : List GraphicsCommand) (st : GraphicsCommandStream)
    (h : st.m_numCommands + cs.length < UINT32_RANGE) :
    (st.appendAll cs).contents = st.contents ++ cs.map some := by
  induction cs generalizing st with
  | nil => simp [appendAll_nil]
  | cons c cs ih =>
    simp only [List.length_cons] at h
    have h1 : st.m_numCommands + 1 < UINT32_RANGE := by omega
    have h2 : (st.append c).m_numCommands = st.m_numCommands + 1 := by rw [append_eq st c h1]
    rw [appendAll_cons, ih _ (by rw [h2]; omega), contents_append st c h1]
    simp

/-- The log entries of `n` stores made one after the other from length `k` on. -/
theorem appendAll_writeLog (cs : List GraphicsCommand) (st : GraphicsCommandStream)
    (h : st.m_numCommands + cs.length < UINT32_RANGE) :
    (st.appendAll cs).writeLog = st.writeLog ++
      (List.range' st.m_numCommands cs.length).map (fun i => { index := i, lengthAtWrite := i }) := by
  induction cs generalizing st with
  | nil => simp [appendAll_nil]
  | cons c cs ih =>
    simp only [List.length_cons] at h
    have h1 : st.m_numCommands + 1 < UINT32_RANGE := by omega
    have h2 : (st.append c).m_numCommands = st.m_numCommands + 1 := by rw [append_eq st c h1]
    have h3 : (st.append c).writeLog = st.writeLog ++
        [{ index := st.m_numCommands, lengthAtWrite := st.m_numCommands }] := by rw [append_eq st c h1]
    rw [appendAll_cons, ih _ (by rw [h2]; omega), h2, h3]
    simp [List.range'_succ]

end GraphicsCommandStream

theorem mod_range_of_lt {n : Nat} (h : n < UINT32_RANGE) : n % UINT32_RANGE = n :=
  Nat.mod_eq_of_lt h

theorem recordColorBufferTransitions_eq (s : GameState)
    (h : s.graphicsCommandStream.m_numCommands + 3 < UINT32_RANGE) :
    recordColorBufferTransitions s =
      { s with graphicsCommandStream :=
          s.graphicsCommandStream.appendAll (colorBufferTransitionCommands s) } := by
  have h1 := mod_range_of_lt (show s.graphicsCommandStream.m_numCommands + 1 < UINT32_RANGE by omega)
  have h2 := mod_range_of_lt (show s.graphicsCommandStream.m_numCommands + 1 + 1 < UINT32_RANGE by omega)
  simp [recordColorBufferTransitions, colorBufferTransitionCommands, GameState.writeCommand,
    GameState.incrNumCommands, GraphicsCommandStream.appendAll, GraphicsCommandStream.append,
    GraphicsCommandStream.write, GraphicsCommandStream.incr, h1, h2]

theorem recordFrameStartTimestamp_eq (s : GameState) :
    recordFrameStartTimestamp s =
      { s with graphicsCommandStream :=
          s.graphicsCommandStream.appendAll [GraphicsCommand.eTimestamp "Begin Frame" "Timestamp" true] } :=
  rfl

theorem recordMainView_eq (cfg : PlatformConstants) (w h : Nat) (s : GameState)
    (hn : s.graphicsCommandStream.m_numCommands + 7 < UINT32_RANGE) :
    recordMainView cfg w h s =
      { s with graphicsCommandStream :=
          s.graphicsCommandStream.appendAll (mainViewCommands cfg w h s) } := by
  have h1 := mod_range_of_lt (show s.graphicsCommandStream.m_numCommands + 1 < UINT32_RANGE by omega)
  have h2 := mod_range_of_lt (show s.graphicsCommandStream.m_numCommands + 2 < UINT32_RANGE by omega)
  have h3 := mod_range_of_lt (show s.graphicsCommandStream.m_numCommands + 3 < UINT32_RANGE by omega)
  have h4 := mod_range_of_lt (show s.graphicsCommandStream.m_numCommands + 4 < UINT32_RANGE by omega)
  have h5 := mod_range_of_lt (show s.graphicsCommandStream.m_numCommands + 5 < UINT32_RANGE by omega)
  have h6 := mod_range_of_lt (show s.graphicsCommandStream.m_numCommands + 6 < UINT32_RANGE by omega)
  simp [recordMainView, mainViewCommands, StartRenderPass, EndRenderPass, drawDefaultQuad, setScissor,
    GraphicsCommand.CmdTimestamp, GameState.writeCommand,
    GameState.incrNumCommands, GraphicsCommandStream.appendAll, GraphicsCommandStream.append,
    GraphicsCommandStream.write, GraphicsCommandStream.incr, h1, h2, h3, h4, h5, h6, Nat.add_assoc]

theorem recordFinalBlit_eq (cfg : PlatformConstants) (w h : Nat) (s : GameState)
    (hn : s.graphicsCommandStream.m_numCommands + 7 < UINT32_RANGE) :
    recordFinalBlit cfg w h s =
      { s with graphicsCommandStream :=
          s.graphicsCommandStream.appendAll (finalBlitCommands cfg w h s) } := by
  have h1 := mod_range_of_lt (show s.graphicsCommandStream.m_numCommands + 1 < UINT32_RANGE by omega)
  have h2 := mod_range_of_lt (show s.graphicsCommandStream.m_numCommands + 2 < UINT32_RANGE by omega)
  have h3 := mod_range_of_lt (show s.graphicsCommandStream.m_numCommands + 3 < UINT32_RANGE by omega)
  have h4 := mod_range_of_lt (show s.graphicsCommandStream.m_numCommands + 4 < UINT32_RANGE by omega)
  have h5 := mod_range_of_lt (show s.graphicsCommandStream.m_numCommands + 5 < UINT32_RANGE by omega)
  have h6 := mod_range_of_lt (show s.graphicsCommandStream.m_numCommands + 6 < UINT32_RANGE by omega)
  simp [recordFinalBlit, finalBlitCommands, drawDefaultQuad, setScissor,
    GameState.writeCommand,
    GameState.incrNumCommands, GraphicsCommandStream.appendAll, GraphicsCommandStream.append,
    GraphicsCommandStream.write, GraphicsCommandStream.incr, h1, h2, h3, h4, h5, h6, Nat.add_assoc]

theorem frameCommands_length (cfg : PlatformConstants) (w h : Nat) (s : GameState)
    (ui : List GraphicsCommand) : (frameCommands cfg w h s ui).length = 18 + ui.length := by
  simp [frameCommands, colorBufferTransitionCommands, mainViewCommands, finalBlitCommands]
  omega

/-- The five recording blocks of `GameUpdate` in a row. -/
theorem recordBlocks_eq (cfg : PlatformConstants) (w h : Nat) (ui : List GraphicsCommand)
    (s : GameState) (hn : s.graphicsCommandStream.m_numCommands + (18 + ui.length) < UINT32_RANGE) :
    recordFinalBlit cfg w h (recordDebugUI ui (recordMainView cfg w h
        (recordFrameStartTimestamp (recordColorBufferTransitions s)))) =
      { s with
        graphicsCommandStream := s.graphicsCommandStream.appendAll (frameCommands cfg w h s ui)
        trace := s.trace ++ [BackendCall.DebugUI_UI_RenderPassStats,
          BackendCall.DebugUI_Render s.gameGraphicsData.m_rtColorHandle] } := by
  have e1 := recordColorBufferTransitions_eq s (by omega)
  rw [e1, recordFrameStartTimestamp_eq]
  simp only [← GraphicsCommandStream.appendAll_append]
  rw [recordMainView_eq]
  · simp only [← GraphicsCommandStream.appendAll_append]
    simp only [recordDebugUI, GameState.emit]
    simp only [← GraphicsCommandStream.appendAll_append]
    rw [recordFinalBlit_eq]
    · simp only [← GraphicsCommandStream.appendAll_append]
      simp [frameCommands, colorBufferTransitionCommands, mainViewCommands, finalBlitCommands,
        drawDefaultQuad]
    · simp only []
      rw [GraphicsCommandStream.appendAll_numCommands]
      · simp [colorBufferTransitionCommands, mainViewCommands]; omega
      · simp [colorBufferTransitionCommands, mainViewCommands]; omega
  · simp only []
    rw [GraphicsCommandStream.appendAll_numCommands]
    · simp [colorBufferTransitionCommands]; omega
    · simp [colorBufferTransitionCommands]; omega

theorem GameUpdate_frame_acquired (cfg : PlatformConstants) (env : UpdateEnv) (w h : Nat)
    (s : GameState) (ha : env.acquireFrame = true)
    (hn : s.graphicsCommandStream.m_numCommands + (18 + env.debugUICommands.length) < UINT32_RANGE) :
    GameUpdate_frame cfg env w h s =
      (0, { s with
        currentWindowWidth := w
        currentWindowHeight := h
        graphicsCommandStream :=
          s.graphicsCommandStream.appendAll (frameCommands cfg w h s env.debugUICommands)
        trace := s.trace ++ frameTrace s
          (s.graphicsCommandStream.appendAll (frameCommands cfg w h s env.debugUICommands)).contents }) := by
  unfold GameUpdate_frame
  simp only [ha, Bool.true_eq_false, if_false]
  rw [recordBlocks_eq cfg w h env.debugUICommands _ (by simpa [GameState.emit] using hn)]
  simp [processCommandStream, GameState.emit, isMultiplayer, frameTrace, frameCommands,
    colorBufferTransitionCommands, mainViewCommands, finalBlitCommands, drawDefaultQuad]

theorem GameUpdate_frame_skipped (cfg : PlatformConstants) (env : UpdateEnv) (w h : Nat)
    (s : GameState) (ha : env.acquireFrame = false) :
    GameUpdate_frame cfg env w h s =
      (if s.isWindowMinimized = true then 0 else 1, s.emit (BackendCall.AcquireFrame false)) := by
  unfold GameUpdate_frame
  simp only [ha, if_true]
  by_cases hm : s.isWindowMinimized = true <;> simp [hm, GameState.emit]

/-! ## Lemmas on `GameUpdate` -/

theorem GameInit_fst (cfg : PlatformConstants) (env : InitEnv) (w h : Nat) (s : GameState) :
    (GameInit cfg env w h s).1 = 0 := rfl

theorem GameUpdate_eq (cfg : PlatformConstants) (env : UpdateEnv) (w h : Nat) (s : GameState) :
    GameUpdate cfg env w h s = GameUpdate_frame cfg env w h (afterLazyInit cfg env w h s) := by
  unfold GameUpdate afterLazyInit
  by_cases hi : s.isGameInitted = false
  · simp [hi, GameInit_fst]
  · simp [hi]

theorem afterLazyInit_isGameInitted (cfg : PlatformConstants) (env : UpdateEnv) (w h : Nat)
    (s : GameState) : (afterLazyInit cfg env w h s).isGameInitted = true := by
  unfold afterLazyInit
  by_cases hi : s.isGameInitted = false
  · simp [hi]
  · simp [hi]

theorem afterLazyInit_isWindowMinimized (cfg : PlatformConstants) (env : UpdateEnv) (w h : Nat)
    (s : GameState) : (afterLazyInit cfg env w h s).isWindowMinimized = s.isWindowMinimized := by
  unfold afterLazyInit
  by_cases hi : s.isGameInitted = false
  · simp [hi]; rfl
  · simp [hi]

theorem afterLazyInit_numCommands (cfg : PlatformConstants) (env : UpdateEnv) (w h : Nat)
    (s : GameState) : (afterLazyInit cfg env w h s).graphicsCommandStream.m_numCommands = 0 := by
  unfold afterLazyInit
  by_cases hi : s.isGameInitted = false
  · simp [hi]; rfl
  · simp [hi]

theorem afterLazyInit_writeLog (cfg : PlatformConstants) (env : UpdateEnv) (w h : Nat)
    (s : GameState) :
    (afterLazyInit cfg env w h s).graphicsCommandStream.writeLog = s.graphicsCommandStream.writeLog := by
  unfold afterLazyInit
  by_cases hi : s.isGameInitted = false
  · simp [hi]; rfl
  · simp [hi]

theorem afterLazyInit_maxCommands (cfg : PlatformConstants) (env : UpdateEnv) (w h : Nat)
    (s : GameState) :
    (afterLazyInit cfg env w h s).graphicsCommandStream.m_maxCommands =
      if s.isGameInitted = false then MAX_UINT16 else s.graphicsCommandStream.m_maxCommands := by
  unfold afterLazyInit
  by_cases hi : s.isGameInitted = false
  · simp [hi]; rfl
  · simp [hi]

theorem afterLazyInit_of_initted (cfg : PlatformConstants) (env : UpdateEnv) (w h : Nat)
    (s : GameState) (hi : s.isGameInitted = true) :
    afterLazyInit cfg env w h s =
      { s with graphicsCommandStream := { s.graphicsCommandStream with m_numCommands := 0 } } := by
  unfold afterLazyInit
  simp [hi]

theorem GameUpdate_frame_fst (cfg : PlatformConstants) (env : UpdateEnv) (w h : Nat) (s : GameState) :
    (GameUpdate_frame cfg env w h s).1 =
      if env.acquireFrame = false ∧ s.isWindowMinimized = false then 1 else 0 := by
  unfold GameUpdate_frame
  cases ha : env.acquireFrame <;> cases hm : s.isWindowMinimized <;>
    simp [GameState.emit, isMultiplayer, hm]

theorem GameUpdate_fst (cfg : PlatformConstants) (env : UpdateEnv) (w h : Nat) (s : GameState) :
    (GameUpdate cfg env w h s).1 =
      if env.acquireFrame = false ∧ s.isWindowMinimized = false then 1 else 0 := by
  rw [GameUpdate_eq, GameUpdate_frame_fst, afterLazyInit_isWindowMinimized]

theorem GameUpdate_frame_isGameInitted (cfg : PlatformConstants) (env : UpdateEnv) (w h : Nat)
    (s : GameState) : (GameUpdate_frame cfg env w h s).2.isGameInitted = s.isGameInitted := by
  unfold GameUpdate_frame
  cases ha : env.acquireFrame <;> cases hm : s.isWindowMinimized <;>
    simp [GameState.emit, isMultiplayer, hm, processCommandStream, recordFinalBlit, recordDebugUI,
      recordMainView, recordFrameStartTimestamp, recordColorBufferTransitions,
      GameState.writeCommand, GameState.incrNumCommands]

theorem GameUpdate_frame_isWindowMinimized (cfg : PlatformConstants) (env : UpdateEnv) (w h : Nat)
    (s : GameState) : (GameUpdate_frame cfg env w h s).2.isWindowMinimized = s.isWindowMinimized := by
  unfold GameUpdate_frame
  cases ha : env.acquireFrame <;> cases hm : s.isWindowMinimized <;>
    simp [GameState.emit, isMultiplayer, hm, processCommandStream, recordFinalBlit, recordDebugUI,
      recordMainView, recordFrameStartTimestamp, recordColorBufferTransitions,
      GameState.writeCommand, GameState.incrNumCommands]

theorem GameUpdate_frame_gameGraphicsData (cfg : PlatformConstants) (env : UpdateEnv) (w h : Nat)
    (s : GameState) : (GameUpdate_frame cfg env w h s).2.gameGraphicsData = s.gameGraphicsData := by
  unfold GameUpdate_frame
  cases ha : env.acquireFrame <;> cases hm : s.isWindowMinimized <;>
    simp [GameState.emit, isMultiplayer, hm, processCommandStream, recordFinalBlit, recordDebugUI,
      recordMainView, recordFrameStartTimestamp, recordColorBufferTransitions,
      GameState.writeCommand, GameState.incrNumCommands]

theorem GameUpdate_frame_mainViewPass (cfg : PlatformConstants) (env : UpdateEnv) (w h : Nat)
    (s : GameState) : (GameUpdate_frame cfg env w h s).2.mainViewPass = s.mainViewPass := by
  unfold GameUpdate_frame
  cases ha : env.acquireFrame <;> cases hm : s.isWindowMinimized <;>
    simp [GameState.emit, isMultiplayer, hm, processCommandStream, recordFinalBlit, recordDebugUI,
      recordMainView, recordFrameStartTimestamp, recordColorBufferTransitions,
      GameState.writeCommand, GameState.incrNumCommands]

theorem GameUpdate_frame_defaultQuad (cfg : PlatformConstants) (env : UpdateEnv) (w h : Nat)
    (s : GameState) : (GameUpdate_frame cfg env w h s).2.defaultQuad = s.defaultQuad := by
  unfold GameUpdate_frame
  cases ha : env.acquireFrame <;> cases hm : s.isWindowMinimized <;>
    simp [GameState.emit, isMultiplayer, hm, processCommandStream, recordFinalBlit, recordDebugUI,
      recordMainView, recordFrameStartTimestamp, recordColorBufferTransitions,
      GameState.writeCommand, GameState.incrNumCommands]

theorem GameUpdate_isGameInitted (cfg : PlatformConstants) (env : UpdateEnv) (w h : Nat)
    (s : GameState) : (GameUpdate cfg env w h s).2.isGameInitted = true := by
  rw [GameUpdate_eq, GameUpdate_frame_isGameInitted, afterLazyInit_isGameInitted]

theorem GameUpdate_isWindowMinimized (cfg : PlatformConstants) (env : UpdateEnv) (w h : Nat)
    (s : GameState) : (GameUpdate cfg env w h s).2.isWindowMinimized = s.isWindowMinimized := by
  rw [GameUpdate_eq, GameUpdate_frame_isWindowMinimized, afterLazyInit_isWindowMinimized]

/-- A skipped frame on an initialised game: status by the minimised flag, length
zero, one call recorded. -/
theorem GameUpdate_skipped (cfg : PlatformConstants) (env : UpdateEnv) (w h : Nat) (s : GameState)
    (hi : s.isGameInitted = true) (ha : env.acquireFrame = false) :
    (GameUpdate cfg env w h s).2.graphicsCommandStream.m_numCommands = 0 ∧
    (GameUpdate cfg env w h s).2.trace = s.trace ++ [BackendCall.AcquireFrame false] := by
  rw [GameUpdate_eq, GameUpdate_frame_skipped cfg env w h _ ha, afterLazyInit_of_initted cfg env w h s hi]
  simp [GameState.emit]

theorem GameWindowResize_zero (cfg : PlatformConstants) (env : ResizeEnv) (s : GameState) :
    GameWindowResize cfg env 0 0 s =
      { s with isWindowMinimized := true, trace := s.trace ++ [BackendCall.WindowMinimized] } := by
  simp [GameWindowResize, GameState.emit]

/-- The minimised flag and the initialised flag survive every call that is not
a resize to a size other than (0,0). -/
theorem run_keeps_minimized (cfg : PlatformConstants) (calls : List EntryCall) (s : GameState)
    (hi : s.isGameInitted = true) (hm : s.isWindowMinimized = true)
    (hc : ∀ c ∈ calls, ¬ c.isNonzeroResize) :
    (run cfg s calls).isGameInitted = true ∧ (run cfg s calls).isWindowMinimized = true := by
  induction calls generalizing s with
  | nil => exact ⟨hi, hm⟩
  | cons c cs ih =>
    have hc1 : ¬ c.isNonzeroResize := hc c (List.mem_cons_self _ _)
    have hcs : ∀ d ∈ cs, ¬ d.isNonzeroResize := fun d hd => hc d (List.mem_cons_of_mem _ hd)
    show (run cfg (step cfg s c) cs).isGameInitted = true ∧ _
    cases c with
    | update env w h =>
      apply ih _ _ _ hcs
      · exact GameUpdate_isGameInitted cfg env w h s
      · show (GameUpdate cfg env w h s).2.isWindowMinimized = true
        rw [GameUpdate_isWindowMinimized, hm]
    | resize env w h =>
      have hz : w = 0 ∧ h = 0 := by
        simp only [EntryCall.isNonzeroResize, not_not] at hc1
        exact hc1
      obtain ⟨rfl, rfl⟩ := hz
      apply ih _ _ _ hcs
      · show (GameWindowResize cfg env 0 0 s).isGameInitted = true
        rw [GameWindowResize_zero]; exact hi
      · show (GameWindowResize cfg env 0 0 s).isWindowMinimized = true
        rw [GameWindowResize_zero]

/-- An acquired frame, from the state in which "Start frame" is reached. -/
theorem GameUpdate_acquired (cfg : PlatformConstants) (env : UpdateEnv) (w h : Nat) (s : GameState)
    (ha : env.acquireFrame = true) (hn : 18 + env.debugUICommands.length < UINT32_RANGE) :
    (GameUpdate cfg env w h s).2.graphicsCommandStream =
        (afterLazyInit cfg env w h s).graphicsCommandStream.appendAll
          (frameCommands cfg w h (afterLazyInit cfg env w h s) env.debugUICommands) ∧
    (GameUpdate cfg env w h s).2.trace =
        (afterLazyInit cfg env w h s).trace ++ frameTrace (afterLazyInit cfg env w h s)
          ((afterLazyInit cfg env w h s).graphicsCommandStream.appendAll
            (frameCommands cfg w h (afterLazyInit cfg env w h s) env.debugUICommands)).contents := by
  have e := GameUpdate_frame_acquired cfg env w h (afterLazyInit cfg env w h s) ha
    (by rw [afterLazyInit_numCommands]; omega)
  rw [GameUpdate_eq, e]
  exact ⟨by simp only, by simp only⟩

theorem contents_of_numCommands_zero (st : GraphicsCommandStream) (h : st.m_numCommands = 0) :
    st.contents = [] := by
  simp [GraphicsCommandStream.contents, h]

/-- The stream after an acquired frame: length, contents, stores. -/
theorem GameUpdate_acquired_stream (cfg : PlatformConstants) (env : UpdateEnv) (w h : Nat)
    (s : GameState) (ha : env.acquireFrame = true)
    (hn : 18 + env.debugUICommands.length < UINT32_RANGE) :
    (GameUpdate cfg env w h s).2.graphicsCommandStream.m_numCommands =
        18 + env.debugUICommands.length ∧
    (GameUpdate cfg env w h s).2.graphicsCommandStream.contents =
        (frameCommands cfg w h (afterLazyInit cfg env w h s) env.debugUICommands).map some ∧
    (GameUpdate cfg env w h s).2.graphicsCommandStream.writeLog =
        s.graphicsCommandStream.writeLog ++ writesInOrder 0 (18 + env.debugUICommands.length) ∧
    (GameUpdate cfg env w h s).2.graphicsCommandStream.m_maxCommands =
        (afterLazyInit cfg env w h s).graphicsCommandStream.m_maxCommands := by
  have h0 := afterLazyInit_numCommands cfg env w h s
  have hl := frameCommands_length cfg w h (afterLazyInit cfg env w h s) env.debugUICommands
  have hlt : (afterLazyInit cfg env w h s).graphicsCommandStream.m_numCommands +
      (frameCommands cfg w h (afterLazyInit cfg env w h s) env.debugUICommands).length
        < UINT32_RANGE := by rw [h0, hl]; omega
  rw [(GameUpdate_acquired cfg env w h s ha hn).1]
  refine ⟨?_, ?_, ?_, ?_⟩
  · rw [GraphicsCommandStream.appendAll_numCommands _ _ hlt, h0, hl]; omega
  · rw [GraphicsCommandStream.appendAll_contents _ _ hlt, contents_of_numCommands_zero _ h0]
    simp
  · rw [GraphicsCommandStream.appendAll_writeLog _ _ hlt, h0, hl, afterLazyInit_writeLog]
    rfl
  · rw [GraphicsCommandStream.appendAll_maxCommands]

theorem frameCommands_congr (cfg : PlatformConstants) (w h : Nat) (s s2 : GameState)
    (ui : List GraphicsCommand) (h1 : s2.gameGraphicsData = s.gameGraphicsData)
    (h2 : s2.mainViewPass = s.mainViewPass) (h3 : s2.defaultQuad = s.defaultQuad) :
    frameCommands cfg w h s2 ui = frameCommands cfg w h s ui := by
  simp [frameCommands, colorBufferTransitionCommands, mainViewCommands, finalBlitCommands, h1, h2, h3]

theorem frameTrace_congr (s s2 : GameState) (cmds : List (Option GraphicsCommand))
    (h1 : s2.gameGraphicsData = s.gameGraphicsData) : frameTrace s2 cmds = frameTrace s cmds := by
  simp [frameTrace, h1]

/-! ## The capacity invariant -/

theorem GameWindowResize_graphicsCommandStream (cfg : PlatformConstants) (env : ResizeEnv)
    (w h : Nat) (s : GameState) :
    (GameWindowResize cfg env w h s).graphicsCommandStream = s.graphicsCommandStream := by
  unfold GameWindowResize
  split <;> simp [GameState.emit, WriteSwapChainBlitResources, CreateGameRenderingResources,
    DestroyWindowResizeDependentResources]

theorem GameWindowResize_isGameInitted (cfg : PlatformConstants) (env : ResizeEnv)
    (w h : Nat) (s : GameState) :
    (GameWindowResize cfg env w h s).isGameInitted = s.isGameInitted := by
  unfold GameWindowResize
  split <;> simp [GameState.emit, WriteSwapChainBlitResources, CreateGameRenderingResources,
    DestroyWindowResizeDependentResources]

theorem mem_writesInOrder {k n : Nat} {e : CommandWrite} (he : e ∈ writesInOrder k n) :
    e.index = e.lengthAtWrite ∧ k ≤ e.index ∧ e.index < k + n := by
  simp only [writesInOrder, List.mem_map, List.mem_range'_1] at he
  obtain ⟨i, ⟨h1, h2⟩, rfl⟩ := he
  exact ⟨rfl, h1, h2⟩

theorem GameUpdate_skipped_stream (cfg : PlatformConstants) (env : UpdateEnv) (w h : Nat)
    (s : GameState) (ha : env.acquireFrame = false) :
    (GameUpdate cfg env w h s).2.graphicsCommandStream =
      (afterLazyInit cfg env w h s).graphicsCommandStream := by
  rw [GameUpdate_eq, GameUpdate_frame_skipped cfg env w h _ ha]
  rfl

theorem StreamWithinCapacity_step (cfg : PlatformConstants) (s : GameState) (c : EntryCall)
    (hs : StreamWithinCapacity s) (hc : c.fits) : StreamWithinCapacity (step cfg s c) := by
  obtain ⟨h1, h2, h3, h4⟩ := hs
  cases c with
  | resize env w h =>
    show StreamWithinCapacity (GameWindowResize cfg env w h s)
    unfold StreamWithinCapacity
    rw [GameWindowResize_graphicsCommandStream, GameWindowResize_isGameInitted]
    exact ⟨h1, h2, h3, h4⟩
  | update env w h =>
    show StreamWithinCapacity (GameUpdate cfg env w h s).2
    have hmax : (afterLazyInit cfg env w h s).graphicsCommandStream.m_maxCommands = MAX_UINT16 := by
      rw [afterLazyInit_maxCommands]
      by_cases hi : s.isGameInitted = false
      · simp [hi]
      · simp only [hi, if_false]
        exact h3 (by simpa using hi)
    have hfit : 18 + env.debugUICommands.length ≤ MAX_UINT16 := hc
    have hM : MAX_UINT16 = 65535 := rfl
    have hold : ∀ e ∈ s.graphicsCommandStream.writeLog,
        e.index = e.lengthAtWrite ∧ e.index < MAX_UINT16 :=
      fun e he => ⟨(h4 e he).1, Nat.lt_of_lt_of_le (h4 e he).2 h2⟩
    unfold StreamWithinCapacity
    cases ha : env.acquireFrame with
    | false =>
      rw [GameUpdate_skipped_stream cfg env w h s ha, hmax, afterLazyInit_numCommands,
        afterLazyInit_writeLog]
      exact ⟨Nat.zero_le _, Nat.le_refl _, fun _ => rfl, hold⟩
    | true =>
      have hr : UINT32_RANGE = 4294967296 := rfl
      obtain ⟨e1, -, e3, e4⟩ := GameUpdate_acquired_stream cfg env w h s ha (by omega)
      rw [e1, e3, e4, hmax]
      refine ⟨hfit, Nat.le_refl _, fun _ => rfl, ?_⟩
      intro e he
      rcases List.mem_append.mp he with he | he
      · exact hold e he
      · obtain ⟨g1, -, g3⟩ := mem_writesInOrder he
        exact ⟨g1, by omega⟩

theorem StreamWithinCapacity_run (cfg : PlatformConstants) (calls : List EntryCall) (s : GameState)
    (hs : StreamWithinCapacity s) (hc : ∀ c ∈ calls, c.fits) :
    StreamWithinCapacity (run cfg s calls) := by
  induction calls generalizing s with
  | nil => exact hs
  | cons c cs ih =>
    exact ih _ (StreamWithinCapacity_step cfg s c hs (hc c (List.mem_cons_self _ _)))
      (fun d hd => hc d (List.mem_cons_of_mem _ hd))

theorem StreamWithinCapacity_initial (cfg : PlatformConstants) :
    StreamWithinCapacity (GameState.initial cfg) := by
  refine ⟨Nat.le_refl _, Nat.zero_le _, ?_, ?_⟩
  · intro h; cases h
  · intro e he; cases he

/-! ## Lemmas on traces -/

namespace ShaderManager

theorem shaderFilePath_values :
    shaderFilePath 0 = some "blit_VS.spv" ∧ shaderFilePath 1 = some "blit_PS.spv" ∧
    shaderFilePath 2 = some "pass_VS.spv" ∧ shaderFilePath 3 = some "pass1_PS.spv" ∧
    shaderFilePath 4 = some "pass2_PS.spv" ∧ shaderFilePath 5 = some "imgui_VS.spv" ∧
    shaderFilePath 6 = some "imgui_PS.spv" := by
  refine ⟨rfl, rfl, rfl, rfl, rfl, rfl, rfl⟩

theorem LoadAllShaders_append (cfg : PlatformConstants) (env : ShaderEnv) (w h : Nat) (t : Trace) :
    LoadAllShaders cfg env w h t = t ++ LoadAllShaders cfg env w h [] := by
  obtain ⟨p0, p1, p2, p3, p4, p5, p6⟩ := shaderFilePath_values
  simp [LoadAllShaders, LoadShader, loadStage, p0, p1, p2, p3, p4, p5, p6]

end ShaderManager

theorem psoTableFrom_append (tbl : List PSOPerm) (t1 t2 : Trace) :
    psoTableFrom tbl (t1 ++ t2) = psoTableFrom (psoTableFrom tbl t1) t2 := by
  simp [psoTableFrom, List.foldl_append]

theorem psoTableFrom_cons (tbl : List PSOPerm) (c : BackendCall) (t : Trace) :
    psoTableFrom tbl (c :: t) = psoTableFrom (psoTableStep tbl c) t := rfl

theorem psoTableFrom_LoadAllShaders (cfg : PlatformConstants) (env : ShaderManager.ShaderEnv)
    (w h : Nat) (tbl : List PSOPerm) (hok : ∀ id, env.pipelineCreated id = true) :
    psoTableFrom tbl (ShaderManager.LoadAllShaders cfg env w h []) = tbl ++
      [ { shaderID := ShaderID.SHADER_ID_SWAP_CHAIN_BLIT, viewportWidth := w, viewportHeight := h },
        { shaderID := ShaderID.SHADER_ID_IMGUI_DEBUGUI, viewportWidth := w, viewportHeight := h },
        { shaderID := ShaderID.SHADER_ID_Pass1, viewportWidth := w, viewportHeight := h },
        { shaderID := ShaderID.SHADER_ID_Pass2, viewportWidth := w, viewportHeight := h } ] := by
  obtain ⟨p0, p1, p2, p3, p4, p5, p6⟩ := ShaderManager.shaderFilePath_values
  simp [ShaderManager.LoadAllShaders, ShaderManager.LoadShader, ShaderManager.loadStage,
    p0, p1, p2, p3, p4, p5, p6, psoTableFrom, psoTableStep, hok]

theorem layoutCreations_append (id : DescLayoutID) (t1 t2 : Trace) :
    layoutCreations id (t1 ++ t2) = layoutCreations id t1 + layoutCreations id t2 := by
  simp [layoutCreations, List.countP_append]

theorem layoutCreations_LoadAllShaders (cfg : PlatformConstants) (env : ShaderManager.ShaderEnv)
    (w h : Nat) (id : DescLayoutID) :
    layoutCreations id (ShaderManager.LoadAllShaders cfg env w h []) = 0 := by
  obtain ⟨p0, p1, p2, p3, p4, p5, p6⟩ := ShaderManager.shaderFilePath_values
  simp [ShaderManager.LoadAllShaders, ShaderManager.LoadShader, ShaderManager.loadStage,
    p0, p1, p2, p3, p4, p5, p6, layoutCreations, List.countP_cons, isCreateDescriptorLayout]

theorem DestroyAllPSOPerms_not_mem_LoadAllShaders (cfg : PlatformConstants)
    (env : ShaderManager.ShaderEnv) (w h : Nat) :
    BackendCall.DestroyAllPSOPerms ∉ ShaderManager.LoadAllShaders cfg env w h [] := by
  obtain ⟨p0, p1, p2, p3, p4, p5, p6⟩ := ShaderManager.shaderFilePath_values
  simp [ShaderManager.LoadAllShaders, ShaderManager.LoadShader, ShaderManager.loadStage,
    p0, p1, p2, p3, p4, p5, p6]

theorem GameUpdate_frame_layoutCreations (cfg : PlatformConstants) (env : UpdateEnv) (w h : Nat)
    (s : GameState) (id : DescLayoutID) :
    layoutCreations id (GameUpdate_frame cfg env w h s).2.trace = layoutCreations id s.trace := by
  unfold GameUpdate_frame
  cases ha : env.acquireFrame <;> cases hm : s.isWindowMinimized <;>
    simp [GameState.emit, isMultiplayer, hm, processCommandStream, recordFinalBlit, recordDebugUI,
      recordMainView, recordFrameStartTimestamp, recordColorBufferTransitions,
      GameState.writeCommand, GameState.incrNumCommands, layoutCreations, List.countP_append,
      List.countP_cons, isCreateDescriptorLayout]

theorem GameWindowResize_layoutCreations (cfg : PlatformConstants) (env : ResizeEnv) (w h : Nat)
    (s : GameState) (id : DescLayoutID) :
    layoutCreations id (GameWindowResize cfg env w h s).trace = layoutCreations id s.trace := by
  unfold GameWindowResize
  split
  · simp [GameState.emit, layoutCreations, List.countP_append, List.countP_cons,
      isCreateDescriptorLayout]
  · simp only [WriteSwapChainBlitResources, CreateGameRenderingResources,
      DestroyWindowResizeDependentResources, GameState.emit,
      ShaderManager.CreateWindowDependentResources]
    rw [ShaderManager.LoadAllShaders_append]
    simp only [layoutCreations_append, layoutCreations_LoadAllShaders]
    simp [layoutCreations, List.countP_cons, isCreateDescriptorLayout]

theorem LoadAllShaderResources_eq (cfg : PlatformConstants) (env : ShaderManager.ShaderResourcesEnv)
    (w h : Nat) (t : Trace) :
    ShaderManager.LoadAllShaderResources cfg env w h t =
      t ++ (ShaderManager.declaredLayouts cfg).map (ShaderManager.createLayoutCall env) ++
        ShaderManager.LoadAllShaders cfg env.shaders w h [] := by
  unfold ShaderManager.LoadAllShaderResources
  simp only []
  rw [ShaderManager.LoadAllShaders_append]
  simp [ShaderManager.declaredLayouts]

theorem layoutCreations_declaredLayouts (cfg : PlatformConstants)
    (env : ShaderManager.ShaderResourcesEnv) (id : DescLayoutID) :
    layoutCreations id ((ShaderManager.declaredLayouts cfg).map (ShaderManager.createLayoutCall env)) =
      if id = DescLayoutID.DESCLAYOUT_ID_MAX then 0 else 1 := by
  cases id <;>
    simp [ShaderManager.declaredLayouts, ShaderManager.createLayoutCall, layoutCreations,
      List.countP_cons, isCreateDescriptorLayout]

theorem GameInit_layoutCreations (cfg : PlatformConstants) (env : InitEnv) (w h : Nat)
    (s : GameState) (id : DescLayoutID) :
    layoutCreations id (GameInit cfg env w h s).2.trace =
      layoutCreations id s.trace + if id = DescLayoutID.DESCLAYOUT_ID_MAX then 0 else 1 := by
  simp only [GameInit, GameState.emit, ShaderManager.Startup, CreateAllDescriptors, InitDemo,
    CreateGameRenderingResources, WriteSwapChainBlitResources]
  rw [LoadAllShaderResources_eq]
  simp only [layoutCreations_append, layoutCreations_LoadAllShaders, layoutCreations_declaredLayouts]
  simp [layoutCreations, List.countP_cons, isCreateDescriptorLayout]

/-! ## Layout registrations and descriptor slots -/

theorem layoutCreations_afterLazyInit (cfg : PlatformConstants) (env : UpdateEnv) (w h : Nat)
    (s : GameState) (id : DescLayoutID) :
    layoutCreations id (afterLazyInit cfg env w h s).trace =
      layoutCreations id s.trace +
        if s.isGameInitted = false ∧ id ≠ DescLayoutID.DESCLAYOUT_ID_MAX then 1 else 0 := by
  unfold afterLazyInit
  by_cases hi : s.isGameInitted = false
  · simp only [hi, if_true]
    rw [GameInit_layoutCreations]
    by_cases hid : id = DescLayoutID.DESCLAYOUT_ID_MAX <;> simp [hid]
  · simp [hi]

theorem layoutCreations_run (cfg : PlatformConstants) (calls : List EntryCall) (s : GameState)
    (hs : ∀ id, layoutCreations id s.trace =
      if s.isGameInitted = true ∧ id ≠ DescLayoutID.DESCLAYOUT_ID_MAX then 1 else 0) :
    ∀ id, layoutCreations id (run cfg s calls).trace =
      if (run cfg s calls).isGameInitted = true ∧ id ≠ DescLayoutID.DESCLAYOUT_ID_MAX then 1 else 0 := by
  induction calls generalizing s with
  | nil => exact hs
  | cons c cs ih =>
    apply ih
    intro id
    cases c with
    | resize env w h =>
      show layoutCreations id (GameWindowResize cfg env w h s).trace =
        if (GameWindowResize cfg env w h s).isGameInitted = true ∧ _ then 1 else 0
      simp only [GameWindowResize_layoutCreations, GameWindowResize_isGameInitted]
      exact hs id
    | update env w h =>
      show layoutCreations id (GameUpdate cfg env w h s).2.trace =
        if (GameUpdate cfg env w h s).2.isGameInitted = true ∧ _ then 1 else 0
      simp only [GameUpdate_isGameInitted]
      rw [GameUpdate_eq, GameUpdate_frame_layoutCreations, layoutCreations_afterLazyInit, hs id]
      cases hi : s.isGameInitted <;> by_cases hid : id = DescLayoutID.DESCLAYOUT_ID_MAX <;>
        simp [hid]

theorem slotFilled_blit (cfg : PlatformConstants) (s : GameState) (i : Nat)
    (hB : 3 ≤ cfg.MAX_BINDINGS_PER_SET)
    (hv : s.gameGraphicsData.m_rtColorHandle ≠ DefaultResHandle_Invalid) :
    (blitHandles cfg s).slotFilled i = decide (i < 1) := by
  simp only [blitHandles, DescriptorSetDataHandles.slotFilled, DescriptorSetDataHandles.setHandle,
    DescriptorSetDataHandles.InitInvalid]
  rcases i with _ | i
  · have : 0 < cfg.MAX_BINDINGS_PER_SET := by omega
    simp [List.get?_eq_getElem?, List.getElem?_set, this, hv]
  · by_cases hi : i + 1 < cfg.MAX_BINDINGS_PER_SET <;>
      simp [List.get?_eq_getElem?, List.getElem?_set, List.getElem?_replicate, hi]

theorem slotFilled_vb (cfg : PlatformConstants) (s : GameState) (i : Nat)
    (hB : 3 ≤ cfg.MAX_BINDINGS_PER_SET)
    (h0 : s.defaultQuad.positionBufferHandle ≠ DefaultResHandle_Invalid)
    (h1 : s.defaultQuad.uvBufferHandle ≠ DefaultResHandle_Invalid)
    (h2 : s.defaultQuad.normalBufferHandle ≠ DefaultResHandle_Invalid) :
    (vbHandles cfg s).slotFilled i = decide (i < 3) := by
  simp only [vbHandles, DescriptorSetDataHandles.slotFilled, DescriptorSetDataHandles.setHandle,
    DescriptorSetDataHandles.InitInvalid]
  have g0 : 0 < cfg.MAX_BINDINGS_PER_SET := by omega
  have g1 : 1 < cfg.MAX_BINDINGS_PER_SET := by omega
  have g2 : 2 < cfg.MAX_BINDINGS_PER_SET := by omega
  rcases i with _ | _ | _ | i
  · simp [List.get?_eq_getElem?, List.getElem?_set, g0, h0]
  · simp [List.get?_eq_getElem?, List.getElem?_set, g1, h1]
  · simp [List.get?_eq_getElem?, List.getElem?_set, g2, h2]
  · by_cases hi : i + 1 + 1 + 1 < cfg.MAX_BINDINGS_PER_SET <;>
      simp [List.get?_eq_getElem?, List.getElem?_set, List.getElem?_replicate, hi]

theorem slotFilled_single (cfg : PlatformConstants) (x : ResourceHandle) (i : Nat)
    (hB : 3 ≤ cfg.MAX_BINDINGS_PER_SET) (hv : x ≠ DefaultResHandle_Invalid) :
    ((DescriptorSetDataHandles.InitInvalid cfg).setHandle 0 x).slotFilled i = decide (i < 1) := by
  simp only [DescriptorSetDataHandles.slotFilled, DescriptorSetDataHandles.setHandle,
    DescriptorSetDataHandles.InitInvalid]
  rcases i with _ | i
  · have : 0 < cfg.MAX_BINDINGS_PER_SET := by omega
    simp [List.get?_eq_getElem?, List.getElem?_set, this, hv]
  · by_cases hi : i + 1 < cfg.MAX_BINDINGS_PER_SET <;>
      simp [List.get?_eq_getElem?, List.getElem?_set, List.getElem?_replicate, hi]

theorem slotDeclared_layout1 (cfg : PlatformConstants) (ty : DescriptorType) (i : Nat)
    (hB : 3 ≤ cfg.MAX_BINDINGS_PER_SET) (hty : ty ≠ DescriptorType.eMax) :
    (ShaderManager.layout1 cfg ty).slotDeclared i = decide (i < 1) := by
  simp only [ShaderManager.layout1, DescriptorLayout.slotDeclared, DescriptorLayout.setParam,
    DescriptorLayout.InitInvalid]
  rcases i with _ | i
  · have : 0 < cfg.MAX_BINDINGS_PER_SET := by omega
    simp [List.get?_eq_getElem?, List.getElem?_set, this, hty]
  · by_cases hi : i + 1 < cfg.MAX_BINDINGS_PER_SET <;>
      simp [List.get?_eq_getElem?, List.getElem?_set, List.getElem?_replicate, hi]

theorem slotDeclared_layout3 (cfg : PlatformConstants) (ty : DescriptorType) (i : Nat)
    (hB : 3 ≤ cfg.MAX_BINDINGS_PER_SET) (hty : ty ≠ DescriptorType.eMax) :
    (ShaderManager.layout3 cfg ty).slotDeclared i = decide (i < 3) := by
  simp only [ShaderManager.layout3, DescriptorLayout.slotDeclared, DescriptorLayout.setParam,
    DescriptorLayout.InitInvalid]
  have g0 : 0 < cfg.MAX_BINDINGS_PER_SET := by omega
  have g1 : 1 < cfg.MAX_BINDINGS_PER_SET := by omega
  have g2 : 2 < cfg.MAX_BINDINGS_PER_SET := by omega
  rcases i with _ | _ | _ | i
  · simp [List.get?_eq_getElem?, List.getElem?_set, g0, hty]
  · simp [List.get?_eq_getElem?, List.getElem?_set, g1, hty]
  · simp [List.get?_eq_getElem?, List.getElem?_set, g2, hty]
  · by_cases hi : i + 1 + 1 + 1 < cfg.MAX_BINDINGS_PER_SET <;>
      simp [List.get?_eq_getElem?, List.getElem?_set, List.getElem?_replicate, hi]

theorem slotsWhere_lt (n k : Nat) (p : Nat → Bool) (hk : k ≤ n) (hp : ∀ i, p i = decide (i < k)) :
    slotsWhere n p = List.range k := by
  obtain ⟨m, rfl⟩ := Nat.exists_eq_add_of_le hk
  have hp2 : p = fun i => decide (i < k) := funext hp
  subst hp2
  rw [slotsWhere, List.range_add, List.filter_append]
  have e1 : (List.range k).filter (fun i => decide (i < k)) = List.range k := by
    apply List.filter_eq_self.mpr
    intro a ha
    simpa using List.mem_range.mp ha
  have e2 : ((List.range m).map (fun x => k + x)).filter (fun i => decide (i < k)) = [] := by
    apply List.filter_eq_nil_iff.mpr
    intro a ha
    simp only [List.mem_map] at ha
    obtain ⟨b, -, rfl⟩ := ha
    simp
  rw [e1, e2, List.append_nil]

theorem registeredLayout_append_of_none (t1 t2 : Trace) (id : DescLayoutID)
    (h : registeredLayout t1 id = none) :
    registeredLayout (t1 ++ t2) id = registeredLayout t2 id := by
  simp only [registeredLayout] at h ⊢
  rw [List.findSome?_append, h]
  rfl

theorem registeredLayout_values (cfg : PlatformConstants) (env : ShaderManager.ShaderResourcesEnv)
    (w h : Nat) (t : Trace) (ht : ∀ id, registeredLayout t id = none) :
    registeredLayout (ShaderManager.LoadAllShaderResources cfg env w h t)
        DescLayoutID.DESCLAYOUT_ID_SWAP_CHAIN_BLIT_TEX =
      some (ShaderManager.layout1 cfg DescriptorType.eSampledImage) ∧
    registeredLayout (ShaderManager.LoadAllShaderResources cfg env w h t)
        DescLayoutID.DESCLAYOUT_ID_SWAP_CHAIN_BLIT_VBS =
      some (ShaderManager.layout3 cfg DescriptorType.eSSBO) ∧
    registeredLayout (ShaderManager.LoadAllShaderResources cfg env w h t)
        DescLayoutID.DESCLAYOUT_ID_VIEW_GLOBAL =
      some (ShaderManager.layout1 cfg DescriptorType.eBuffer) := by
  rw [LoadAllShaderResources_eq, List.append_assoc]
  refine ⟨?_, ?_, ?_⟩ <;>
  · rw [registeredLayout_append_of_none _ _ _ (ht _)]
    simp [registeredLayout, ShaderManager.declaredLayouts, ShaderManager.createLayoutCall,
      List.findSome?_cons]

/-! ## Resize -/

theorem GameWindowResize_nonzero (cfg : PlatformConstants) (env : ResizeEnv) (w h : Nat)
    (s : GameState) (hwh : ¬ (w = 0 ∧ h = 0)) :
    GameWindowResize cfg env w h s =
      { s with
        isWindowMinimized := false
        currentWindowWidth := w
        currentWindowHeight := h
        gameGraphicsData := { s.gameGraphicsData with m_rtColorHandle := env.rtColorHandle }
        mainViewPass :=
          { numColorRTs := 1
            colorRTs := (List.replicate cfg.MAX_MULTIPLE_RENDERTARGETS DefaultResHandle_Invalid).set 0
              env.rtColorHandle
            depthRT := DefaultResHandle_Invalid
            renderWidth := w
            renderHeight := h
            debugLabel := "Main Render View" }
        trace := s.trace ++ [BackendCall.WindowResize] ++
          ShaderManager.LoadAllShaders cfg env.shaders w h [] ++
          [ BackendCall.DestroyResource s.gameGraphicsData.m_rtColorHandle,
            BackendCall.CreateResource (mainViewColorDesc w h) env.rtColorHandle,
            BackendCall.WriteDescriptor DescLayoutID.DESCLAYOUT_ID_SWAP_CHAIN_BLIT_TEX
              s.gameGraphicsData.m_swapChainBlitDescHandle
              ((DescriptorSetDataHandles.InitInvalid cfg).setHandle 0 env.rtColorHandle),
            BackendCall.WriteDescriptor DescLayoutID.DESCLAYOUT_ID_SWAP_CHAIN_BLIT_VBS
              s.defaultQuad.m_descriptor (vbHandles cfg s) ] } := by
  unfold GameWindowResize
  rw [if_neg hwh]
  simp only [WriteSwapChainBlitResources, CreateGameRenderingResources,
    DestroyWindowResizeDependentResources, GameState.emit,
    ShaderManager.CreateWindowDependentResources, GameRenderPass.Init, blitHandles, vbHandles]
  rw [ShaderManager.LoadAllShaders_append]
  simp

theorem run_updates_keeps (cfg : PlatformConstants) (calls : List EntryCall) (s : GameState)
    (hi : s.isGameInitted = true) (hc : ∀ c ∈ calls, ∃ env w h, c = EntryCall.update env w h) :
    (run cfg s calls).isGameInitted = true ∧
    (run cfg s calls).gameGraphicsData = s.gameGraphicsData ∧
    (run cfg s calls).mainViewPass = s.mainViewPass ∧
    (run cfg s calls).defaultQuad = s.defaultQuad := by
  induction calls generalizing s with
  | nil => exact ⟨hi, rfl, rfl, rfl⟩
  | cons c cs ih =>
    obtain ⟨env, w, h, rfl⟩ := hc _ (List.mem_cons_self _ _)
    have hcs : ∀ d ∈ cs, ∃ env w h, d = EntryCall.update env w h :=
      fun d hd => hc d (List.mem_cons_of_mem _ hd)
    have e := afterLazyInit_of_initted cfg env w h s hi
    have k1 : (GameUpdate cfg env w h s).2.gameGraphicsData = s.gameGraphicsData := by
      rw [GameUpdate_eq, GameUpdate_frame_gameGraphicsData, e]
    have k2 : (GameUpdate cfg env w h s).2.mainViewPass = s.mainViewPass := by
      rw [GameUpdate_eq, GameUpdate_frame_mainViewPass, e]
    have k3 : (GameUpdate cfg env w h s).2.defaultQuad = s.defaultQuad := by
      rw [GameUpdate_eq, GameUpdate_frame_defaultQuad, e]
    obtain ⟨a, b, c, d⟩ := ih (GameUpdate cfg env w h s).2 (GameUpdate_isGameInitted cfg env w h s) hcs
    exact ⟨a, b.trans k1, c.trans k2, d.trans k3⟩

/-- Of the commands `GameUpdate` itself records, none carries a handle that is
neither the main colour target, nor the swap chain, nor a colour target of the
main pass. -/
theorem frameCommands_carriesImage (cfg : PlatformConstants) (w h : Nat) (s : GameState)
    (ui : List GraphicsCommand) (x : ResourceHandle) (c : GraphicsCommand)
    (hc : c ∈ frameCommands cfg w h s ui) (hx : c.carriesImage x = true)
    (h1 : x ≠ s.gameGraphicsData.m_rtColorHandle) (h2 : x ≠ IMAGE_HANDLE_SWAP_CHAIN)
    (h3 : x ∉ s.mainViewPass.colorRTs.take s.mainViewPass.numColorRTs) : c ∈ ui := by
  simp only [frameCommands, colorBufferTransitionCommands, mainViewCommands, finalBlitCommands,
    List.mem_append, List.mem_cons, List.mem_singleton, List.not_mem_nil, or_false] at hc
  have h1' : ¬ s.gameGraphicsData.m_rtColorHandle = x := fun e => h1 e.symm
  have h2' : ¬ IMAGE_HANDLE_SWAP_CHAIN = x := fun e => h2 e.symm
  rcases hc with (((hc | hc) | hc) | hc) | hc
  · rcases hc with rfl | rfl | rfl <;> simp [GraphicsCommand.carriesImage, h1'] at hx
  · subst hc; simp [GraphicsCommand.carriesImage] at hx
  · rcases hc with rfl | rfl | rfl | rfl | rfl | rfl | rfl <;>
      simp [GraphicsCommand.carriesImage, h3] at hx
  · exact hc
  · rcases hc with rfl | rfl | rfl | rfl | rfl | rfl | rfl <;>
      simp [GraphicsCommand.carriesImage, h1', h2', h2] at hx

/-! ## The claims -/

/-- C1: `GameUpdate` returns 1 exactly when `AcquireFrame` returned false while
`isWindowMinimized` is false, and 0 in every other case (frame acquired, or
acquire failed while minimised); `GameInit` always returns 0 and `isMultiplayer`
is the constant false. -/
theorem GameUpdate_status (cfg : PlatformConstants) (env : UpdateEnv) (w h : Nat) (s : GameState) :
    ((GameUpdate cfg env w h s).1 = 1 ↔ (env.acquireFrame = false ∧ s.isWindowMinimized = false)) ∧
    (GameUpdate cfg env w h s).1 =
      (if env.acquireFrame = false ∧ s.isWindowMinimized = false then 1 else 0) ∧
    (GameInit cfg env.init w h s).1 = 0 ∧
    isMultiplayer = false := by
  refine ⟨?_, GameUpdate_fst cfg env w h s, rfl, rfl⟩
  rw [GameUpdate_fst]
  by_cases hc : env.acquireFrame = false ∧ s.isWindowMinimized = false
  · simp [hc]
  · simp only [if_neg hc]
    constructor
    · intro h0; cases h0
    · intro h1; exact absurd h1 hc

/-- C2, as stated, fails: on the initialised game minimised by
`GameWindowResize(0,0)`, a `GameUpdate` whose `AcquireFrame` returns true
records eighteen commands and submits the frame. -/
theorem minimized_update_records_acquired_frame :
    sampleMinimized.isGameInitted = true ∧
    sampleMinimized.isWindowMinimized = true ∧
    (GameUpdate sampleConstants sampleUpdateEnv 800 600 sampleMinimized).1 = 0 ∧
    (GameUpdate sampleConstants sampleUpdateEnv 800 600
      sampleMinimized).2.graphicsCommandStream.m_numCommands = 18 ∧
    ((GameUpdate sampleConstants sampleUpdateEnv 800 600 sampleMinimized).2.trace.drop
      sampleMinimized.trace.length).getLast? = some BackendCall.SubmitFrameToGPU := by
  refine ⟨by decide, by decide, by decide, by decide, by decide⟩

/-- C2, amended: after `GameWindowResize(0,0)` on an initialised game, every
later `GameUpdate` made before a `GameWindowResize` to a size other than (0,0)
returns 0; when `AcquireFrame` returns false in that call, the stream is left
with length 0 and the only call made is `AcquireFrame` (nothing is processed or
submitted). -/
theorem minimized_update_skips_unacquired_frame (cfg : PlatformConstants) (renv : ResizeEnv)
    (s : GameState) (calls : List EntryCall) (env : UpdateEnv) (w h : Nat)
    (hi : s.isGameInitted = true) (hc : ∀ c ∈ calls, ¬ c.isNonzeroResize) :
    (GameUpdate cfg env w h (run cfg (GameWindowResize cfg renv 0 0 s) calls)).1 = 0 ∧
    (env.acquireFrame = false →
      (GameUpdate cfg env w h
        (run cfg (GameWindowResize cfg renv 0 0 s) calls)).2.graphicsCommandStream.m_numCommands = 0 ∧
      (GameUpdate cfg env w h (run cfg (GameWindowResize cfg renv 0 0 s) calls)).2.trace =
        (run cfg (GameWindowResize cfg renv 0 0 s) calls).trace ++ [BackendCall.AcquireFrame false]) := by
  have h0 : (GameWindowResize cfg renv 0 0 s).isGameInitted = true := by
    rw [GameWindowResize_zero]; exact hi
  have h1 : (GameWindowResize cfg renv 0 0 s).isWindowMinimized = true := by
    rw [GameWindowResize_zero]
  obtain ⟨k1, k2⟩ := run_keeps_minimized cfg calls _ h0 h1 hc
  refine ⟨?_, fun ha => GameUpdate_skipped cfg env w h _ k1 ha⟩
  rw [GameUpdate_fst, k2]
  simp

/-- Witness of the amended C2 on the sample game, with one skipped update in
between. -/
theorem minimized_update_skips_unacquired_frame_witness :
    (GameUpdate sampleConstants sampleSkipEnv 800 600
      (run sampleConstants (GameWindowResize sampleConstants sampleResizeEnv 0 0 sampleInitialized)
        [EntryCall.update sampleSkipEnv 800 600])).1 = 0 ∧
    (GameUpdate sampleConstants sampleSkipEnv 800 600
      (run sampleConstants (GameWindowResize sampleConstants sampleResizeEnv 0 0 sampleInitialized)
        [EntryCall.update sampleSkipEnv 800 600])).2.graphicsCommandStream.m_numCommands = 0 :=
  have H := minimized_update_skips_unacquired_frame sampleConstants sampleResizeEnv
    sampleInitialized [EntryCall.update sampleSkipEnv 800 600] sampleSkipEnv 800 600 (by decide)
    (by intro c hc; simp at hc; subst hc; simp [EntryCall.isNonzeroResize])
  ⟨H.1, (H.2 rfl).1⟩

/-- C3: on an initialised game whose `AcquireFrame` succeeds, with
`StartRenderPass` and `EndRenderPass` appending one command each and the debug
UI pass appending its `k` commands at the end of the stream, the stream has
length `18 + k` and holds, in order, the commands of `frameCommands`: the three
colour-target commands, the frame-start timestamp, the seven main-view commands,
the `k` debug-UI commands and the seven blit commands; every store goes to the
index equal to the stream length at that moment; and that stream is what
`ProcessGraphicsCommandStream` is handed. (`k` is small enough for the `uint32`
length not to wrap.) -/
theorem GameUpdate_records_frame (cfg : PlatformConstants) (env : UpdateEnv) (w h : Nat)
    (s : GameState) (hi : s.isGameInitted = true) (ha : env.acquireFrame = true)
    (hn : 18 + env.debugUICommands.length < UINT32_RANGE) :
    (GameUpdate cfg env w h s).2.graphicsCommandStream.m_numCommands =
      18 + env.debugUICommands.length ∧
    (GameUpdate cfg env w h s).2.graphicsCommandStream.contents =
      (frameCommands cfg w h s env.debugUICommands).map some ∧
    (GameUpdate cfg env w h s).2.graphicsCommandStream.writeLog =
      s.graphicsCommandStream.writeLog ++ writesInOrder 0 (18 + env.debugUICommands.length) ∧
    (GameUpdate cfg env w h s).2.trace =
      s.trace ++ frameTrace s ((frameCommands cfg w h s env.debugUICommands).map some) := by
  have e := afterLazyInit_of_initted cfg env w h s hi
  have ef : frameCommands cfg w h (afterLazyInit cfg env w h s) env.debugUICommands =
      frameCommands cfg w h s env.debugUICommands := by
    rw [e]; exact frameCommands_congr cfg w h s _ _ rfl rfl rfl
  obtain ⟨a1, a2, a3, -⟩ := GameUpdate_acquired_stream cfg env w h s ha hn
  refine ⟨a1, ?_, a3, ?_⟩
  · rw [a2, ef]
  · have t1 := (GameUpdate_acquired cfg env w h s ha hn).2
    have t2 := (GameUpdate_acquired cfg env w h s ha hn).1
    rw [t1, ← t2, a2, ef, e]
    rfl

/-- Witness of C3: the second update of the sample game. -/
theorem GameUpdate_records_frame_witness :
    (GameUpdate sampleConstants sampleUpdateEnv 800 600
      sampleInitialized).2.graphicsCommandStream.m_numCommands = 18 + 0 ∧
    (GameUpdate sampleConstants sampleUpdateEnv 800 600
      sampleInitialized).2.graphicsCommandStream.contents =
        (frameCommands sampleConstants 800 600 sampleInitialized []).map some :=
  have H := GameUpdate_records_frame sampleConstants sampleUpdateEnv 800 600 sampleInitialized
    (by decide) (by decide) (by decide)
  ⟨H.1, H.2.1⟩

/-- C4: in every state reached from program start by `GameUpdate` and
`GameWindowResize` calls whose debug UI pass appends `k` commands with
`18 + k ≤ 65535`, the stream length is at most the capacity, the capacity is
65535 once `GameInit` has run, and every store made so far went to an index
strictly below the capacity, at a moment when the length equalled that index
(so the length after the store is at most the capacity). -/
theorem stream_length_within_capacity (cfg : PlatformConstants) (calls : List EntryCall)
    (hc : ∀ c ∈ calls, c.fits) :
    (run cfg (GameState.initial cfg) calls).graphicsCommandStream.m_numCommands ≤
      (run cfg (GameState.initial cfg) calls).graphicsCommandStream.m_maxCommands ∧
    ((run cfg (GameState.initial cfg) calls).isGameInitted = true →
      (run cfg (GameState.initial cfg) calls).graphicsCommandStream.m_maxCommands = 65535) ∧
    ∀ e ∈ (run cfg (GameState.initial cfg) calls).graphicsCommandStream.writeLog,
      e.index < (run cfg (GameState.initial cfg) calls).graphicsCommandStream.m_maxCommands ∧
      e.lengthAtWrite + 1 ≤
        (run cfg (GameState.initial cfg) calls).graphicsCommandStream.m_maxCommands := by
  obtain ⟨h1, -, h3, h4⟩ :=
    StreamWithinCapacity_run cfg calls _ (StreamWithinCapacity_initial cfg) hc
  refine ⟨h1, h3, fun e he => ?_⟩
  obtain ⟨g1, g2⟩ := h4 e he
  exact ⟨g2, by omega⟩

/-- Witness of C4: first update, a resize, a second update. -/
theorem stream_length_within_capacity_witness :
    (run sampleConstants (GameState.initial sampleConstants)
      [EntryCall.update sampleUpdateEnv 800 600, EntryCall.resize sampleResizeEnv 640 480,
       EntryCall.update sampleUpdateEnv 640 480]).graphicsCommandStream.m_numCommands ≤
    (run sampleConstants (GameState.initial sampleConstants)
      [EntryCall.update sampleUpdateEnv 800 600, EntryCall.resize sampleResizeEnv 640 480,
       EntryCall.update sampleUpdateEnv 640 480]).graphicsCommandStream.m_maxCommands :=
  (stream_length_within_capacity sampleConstants
    [EntryCall.update sampleUpdateEnv 800 600, EntryCall.resize sampleResizeEnv 640 480,
     EntryCall.update sampleUpdateEnv 640 480]
    (by
      intro c hc
      simp only [List.mem_cons, List.mem_singleton, List.not_mem_nil, or_false] at hc
      rcases hc with rfl | rfl | rfl
      · show 18 + 0 ≤ 65535
        decide
      · exact trivial
      · show 18 + 0 ≤ 65535
        decide)).1

/-- C5: for every (w,h) the calls of `ReloadShaders(w,h)` are exactly one
`DestroyAllPSOPerms` followed by the calls of `LoadAllShaders(w,h)`; the latter
contain no `DestroyAllPSOPerms`, and every `CreateGraphicsPipeline` of the
reload comes after the destruction. -/
theorem ReloadShaders_trace (cfg : PlatformConstants) (env : ShaderManager.ShaderEnv) (w h : Nat)
    (t : Trace) :
    ShaderManager.ReloadShaders cfg env w h t =
      t ++ BackendCall.DestroyAllPSOPerms :: ShaderManager.LoadAllShaders cfg env w h [] ∧
    BackendCall.DestroyAllPSOPerms ∉ ShaderManager.LoadAllShaders cfg env w h [] ∧
    ∀ (i : Nat) (c : BackendCall),
      (BackendCall.DestroyAllPSOPerms :: ShaderManager.LoadAllShaders cfg env w h []).get? i = some c →
      isCreateGraphicsPipeline c = true → 0 < i := by
  refine ⟨?_, DestroyAllPSOPerms_not_mem_LoadAllShaders cfg env w h, ?_⟩
  · unfold ShaderManager.ReloadShaders
    simp only []
    rw [ShaderManager.LoadAllShaders_append]
    simp
  · intro i c hi hc
    rcases i with _ | i
    · simp only [List.get?_cons_zero, Option.some.injEq] at hi
      subst hi
      simp [isCreateGraphicsPipeline] at hc
    · exact Nat.succ_pos i

/-- C6: with the permutation table emptied by `DestroyAllPSOPerms` and extended
by each successful `CreateGraphicsPipeline`, after `ReloadShaders(w,h)` with all
creations succeeding the table is, whatever it held before and whatever calls
came before, exactly one entry for each of the four shader ids, each with
viewport (w,h). -/
theorem ReloadShaders_table (cfg : PlatformConstants) (env : ShaderManager.ShaderEnv) (w h : Nat)
    (tbl : List PSOPerm) (t : Trace) (hok : ∀ id, env.pipelineCreated id = true) :
    psoTableFrom tbl (ShaderManager.ReloadShaders cfg env w h t) =
      [ { shaderID := ShaderID.SHADER_ID_SWAP_CHAIN_BLIT, viewportWidth := w, viewportHeight := h },
        { shaderID := ShaderID.SHADER_ID_IMGUI_DEBUGUI, viewportWidth := w, viewportHeight := h },
        { shaderID := ShaderID.SHADER_ID_Pass1, viewportWidth := w, viewportHeight := h },
        { shaderID := ShaderID.SHADER_ID_Pass2, viewportWidth := w, viewportHeight := h } ] ∧
    ∀ id : ShaderID,
      ((psoTableFrom tbl (ShaderManager.ReloadShaders cfg env w h t)).filter
        (fun p => decide (p.shaderID = id))).length = 1 := by
  have e : psoTableFrom tbl (ShaderManager.ReloadShaders cfg env w h t) =
      [ { shaderID := ShaderID.SHADER_ID_SWAP_CHAIN_BLIT, viewportWidth := w, viewportHeight := h },
        { shaderID := ShaderID.SHADER_ID_IMGUI_DEBUGUI, viewportWidth := w, viewportHeight := h },
        { shaderID := ShaderID.SHADER_ID_Pass1, viewportWidth := w, viewportHeight := h },
        { shaderID := ShaderID.SHADER_ID_Pass2, viewportWidth := w, viewportHeight := h } ] := by
    unfold ShaderManager.ReloadShaders
    simp only []
    rw [ShaderManager.LoadAllShaders_append, psoTableFrom_append, psoTableFrom_append,
      psoTableFrom_LoadAllShaders cfg env w h _ hok]
    simp [psoTableFrom, psoTableStep]
  refine ⟨e, fun id => ?_⟩
  rw [e]
  cases id <;> simp [List.filter_cons]

/-- Witness of C6: a reload at 640 x 480 after the calls of the sample game. -/
theorem ReloadShaders_table_witness :
    psoTableFrom [] (ShaderManager.ReloadShaders sampleConstants sampleShaderEnv 640 480
      sampleInitialized.trace) =
      [ { shaderID := ShaderID.SHADER_ID_SWAP_CHAIN_BLIT, viewportWidth := 640, viewportHeight := 480 },
        { shaderID := ShaderID.SHADER_ID_IMGUI_DEBUGUI, viewportWidth := 640, viewportHeight := 480 },
        { shaderID := ShaderID.SHADER_ID_Pass1, viewportWidth := 640, viewportHeight := 480 },
        { shaderID := ShaderID.SHADER_ID_Pass2, viewportWidth := 640, viewportHeight := 480 } ] :=
  (ReloadShaders_table sampleConstants sampleShaderEnv 640 480 [] sampleInitialized.trace
    (fun _ => rfl)).1

/-- C7, evaluated: `GameWindowResize(640,480)` on the sample game issues no
`DestroyAllPSOPerms`, and the permutation table then holds two entries per
shader id, the four built at 800 x 600 included. -/
theorem resize_keeps_old_permutations :
    BackendCall.DestroyAllPSOPerms ∉ sampleResized.trace ∧
    psoTableFrom [] sampleResized.trace =
      [ { shaderID := ShaderID.SHADER_ID_SWAP_CHAIN_BLIT, viewportWidth := 800, viewportHeight := 600 },
        { shaderID := ShaderID.SHADER_ID_IMGUI_DEBUGUI, viewportWidth := 800, viewportHeight := 600 },
        { shaderID := ShaderID.SHADER_ID_Pass1, viewportWidth := 800, viewportHeight := 600 },
        { shaderID := ShaderID.SHADER_ID_Pass2, viewportWidth := 800, viewportHeight := 600 },
        { shaderID := ShaderID.SHADER_ID_SWAP_CHAIN_BLIT, viewportWidth := 640, viewportHeight := 480 },
        { shaderID := ShaderID.SHADER_ID_IMGUI_DEBUGUI, viewportWidth := 640, viewportHeight := 480 },
        { shaderID := ShaderID.SHADER_ID_Pass1, viewportWidth := 640, viewportHeight := 480 },
        { shaderID := ShaderID.SHADER_ID_Pass2, viewportWidth := 640, viewportHeight := 480 } ] ∧
    ShaderManager.CreateWindowDependentResources sampleConstants sampleShaderEnv 640 480 [] =
      ShaderManager.LoadAllShaders sampleConstants sampleShaderEnv 640 480 [] ∧
    ShaderManager.CreateWindowDependentResources sampleConstants sampleShaderEnv 640 480 [] ≠
      ShaderManager.ReloadShaders sampleConstants sampleShaderEnv 640 480 [] := by
  refine ⟨by decide, by decide, rfl, by decide⟩

/-- C8: over every sequence of `GameUpdate` and `GameWindowResize` calls from
program start, `CreateDescriptorLayout` has been invoked for each of the eight
layout ids exactly once if the lazy initialisation has run and not at all
otherwise, hence at most once for any id.  `LoadAllShaderResources` makes the
eight registrations of `declaredLayouts` (pairwise distinct ids, none of them a
pipeline creation) and then exactly the calls of `LoadAllShaders(w,h)`, which
register no layout; `GameWindowResize` and a `GameUpdate` on an initialised game
register none. -/
theorem descriptor_layouts_declared_once (cfg : PlatformConstants) (calls : List EntryCall)
    (id : DescLayoutID) (env : ShaderManager.ShaderResourcesEnv) (w h : Nat) (t : Trace) :
    layoutCreations id (run cfg (GameState.initial cfg) calls).trace =
      (if (run cfg (GameState.initial cfg) calls).isGameInitted = true ∧
          id ≠ DescLayoutID.DESCLAYOUT_ID_MAX then 1 else 0) ∧
    layoutCreations id (run cfg (GameState.initial cfg) calls).trace ≤ 1 ∧
    ShaderManager.LoadAllShaderResources cfg env w h t =
      t ++ (ShaderManager.declaredLayouts cfg).map (ShaderManager.createLayoutCall env) ++
        ShaderManager.LoadAllShaders cfg env.shaders w h [] ∧
    (ShaderManager.declaredLayouts cfg).map Prod.fst =
      [ DescLayoutID.DESCLAYOUT_ID_SWAP_CHAIN_BLIT_TEX, DescLayoutID.DESCLAYOUT_ID_IMGUI_VBS,
        DescLayoutID.DESCLAYOUT_ID_IMGUI_TEX, DescLayoutID.DESCLAYOUT_ID_SWAP_CHAIN_BLIT_VBS,
        DescLayoutID.DESCLAYOUT_ID_VIEW_GLOBAL, DescLayoutID.DESCLAYOUT_ID_ASSET_INSTANCE,
        DescLayoutID.DESCLAYOUT_ID_ASSET_VBS, DescLayoutID.DESCLAYOUT_ID_POSONLY_VBS ] ∧
    ((ShaderManager.declaredLayouts cfg).map Prod.fst).Nodup ∧
    (∀ c ∈ (ShaderManager.declaredLayouts cfg).map (ShaderManager.createLayoutCall env),
      isCreateGraphicsPipeline c = false) ∧
    layoutCreations id (ShaderManager.LoadAllShaders cfg env.shaders w h []) = 0 := by
  have hrun := layoutCreations_run cfg calls (GameState.initial cfg)
    (by intro j; simp [GameState.initial, layoutCreations]) id
  refine ⟨hrun, ?_, LoadAllShaderResources_eq cfg env w h t, rfl, ?_, ?_,
    layoutCreations_LoadAllShaders cfg env.shaders w h id⟩
  · rw [hrun]; split <;> omega
  · simp [ShaderManager.declaredLayouts]
  · intro c hc
    simp only [ShaderManager.declaredLayouts, List.map_cons, List.map_nil, List.mem_cons,
      List.mem_singleton, List.not_mem_nil, or_false] at hc
    rcases hc with rfl | rfl | rfl | rfl | rfl | rfl | rfl | rfl <;> rfl

theorem CreateAllDescriptors_trace (cfg : PlatformConstants) (env : InitEnv) (s : GameState) :
    (CreateAllDescriptors cfg env s).trace = s.trace ++
      [ BackendCall.CreateDescriptor DescLayoutID.DESCLAYOUT_ID_SWAP_CHAIN_BLIT_TEX
          env.swapChainBlitDescHandle,
        BackendCall.WriteDescriptor DescLayoutID.DESCLAYOUT_ID_SWAP_CHAIN_BLIT_TEX
          env.swapChainBlitDescHandle (blitHandles cfg s),
        BackendCall.WriteDescriptor DescLayoutID.DESCLAYOUT_ID_SWAP_CHAIN_BLIT_VBS
          s.defaultQuad.m_descriptor (vbHandles cfg s),
        BackendCall.CreateResource (globalBufferDesc cfg) env.descDataBufferHandle_Global,
        BackendCall.CreateDescriptor DescLayoutID.DESCLAYOUT_ID_VIEW_GLOBAL env.descData_Global,
        BackendCall.WriteDescriptor DescLayoutID.DESCLAYOUT_ID_VIEW_GLOBAL env.descData_Global
          ((DescriptorSetDataHandles.InitInvalid cfg).setHandle 0
            env.descDataBufferHandle_Global) ] := by
  simp [CreateAllDescriptors, WriteSwapChainBlitResources, GameState.emit, blitHandles, vbHandles,
    globalDataHandles]

theorem WriteSwapChainBlitResources_trace (cfg : PlatformConstants) (s : GameState) :
    (WriteSwapChainBlitResources cfg s).trace = s.trace ++
      [ BackendCall.WriteDescriptor DescLayoutID.DESCLAYOUT_ID_SWAP_CHAIN_BLIT_TEX
          s.gameGraphicsData.m_swapChainBlitDescHandle (blitHandles cfg s),
        BackendCall.WriteDescriptor DescLayoutID.DESCLAYOUT_ID_SWAP_CHAIN_BLIT_VBS
          s.defaultQuad.m_descriptor (vbHandles cfg s) ] := by
  simp [WriteSwapChainBlitResources, GameState.emit, blitHandles, vbHandles]

/-- C9: with arrays of at least three binding slots and created handles other
than the invalid sentinel, the `WriteDescriptor` calls of `CreateAllDescriptors`
are the three for `DESCLAYOUT_ID_SWAP_CHAIN_BLIT_TEX`,
`DESCLAYOUT_ID_SWAP_CHAIN_BLIT_VBS` and `DESCLAYOUT_ID_VIEW_GLOBAL`, those of
`WriteSwapChainBlitResources` the first two, and in each of them the slots
holding a non-invalid handle are exactly the slots given a type by the layout
that `LoadAllShaderResources` registers under that id: slot 0, slots 0 to 2 and
slot 0. -/
theorem WriteDescriptor_fills_declared_slots (cfg : PlatformConstants) (env : InitEnv)
    (renv : ShaderManager.ShaderResourcesEnv) (w h : Nat) (s : GameState)
    (hB : 3 ≤ cfg.MAX_BINDINGS_PER_SET)
    (hrt : s.gameGraphicsData.m_rtColorHandle ≠ DefaultResHandle_Invalid)
    (hpos : s.defaultQuad.positionBufferHandle ≠ DefaultResHandle_Invalid)
    (huv : s.defaultQuad.uvBufferHandle ≠ DefaultResHandle_Invalid)
    (hnor : s.defaultQuad.normalBufferHandle ≠ DefaultResHandle_Invalid)
    (hglob : env.descDataBufferHandle_Global ≠ DefaultResHandle_Invalid) :
    (writeDescriptorCalls ((CreateAllDescriptors cfg env s).trace.drop s.trace.length)).map
        (fun c => c.1) =
      [ DescLayoutID.DESCLAYOUT_ID_SWAP_CHAIN_BLIT_TEX, DescLayoutID.DESCLAYOUT_ID_SWAP_CHAIN_BLIT_VBS,
        DescLayoutID.DESCLAYOUT_ID_VIEW_GLOBAL ] ∧
    (writeDescriptorCalls ((WriteSwapChainBlitResources cfg s).trace.drop s.trace.length)).map
        (fun c => c.1) =
      [ DescLayoutID.DESCLAYOUT_ID_SWAP_CHAIN_BLIT_TEX,
        DescLayoutID.DESCLAYOUT_ID_SWAP_CHAIN_BLIT_VBS ] ∧
    ∀ c ∈ writeDescriptorCalls ((CreateAllDescriptors cfg env s).trace.drop s.trace.length) ++
        writeDescriptorCalls ((WriteSwapChainBlitResources cfg s).trace.drop s.trace.length),
      ∃ layout, registeredLayout (ShaderManager.LoadAllShaderResources cfg renv w h []) c.1 =
          some layout ∧
        (∀ i, c.2.2.slotFilled i = layout.slotDeclared i) ∧
        slotsWhere cfg.MAX_BINDINGS_PER_SET c.2.2.slotFilled =
          slotsWhere cfg.MAX_BINDINGS_PER_SET layout.slotDeclared ∧
        slotsWhere cfg.MAX_BINDINGS_PER_SET c.2.2.slotFilled =
          List.range (if c.1 = DescLayoutID.DESCLAYOUT_ID_SWAP_CHAIN_BLIT_VBS then 3 else 1) := by
  obtain ⟨r1, r2, r3⟩ := registeredLayout_values cfg renv w h [] (fun _ => rfl)
  have f1 := fun i => slotFilled_blit cfg s i hB hrt
  have f2 := fun i => slotFilled_vb cfg s i hB hpos huv hnor
  have f3 := fun i => slotFilled_single cfg env.descDataBufferHandle_Global i hB hglob
  have d1 := fun i => slotDeclared_layout1 cfg DescriptorType.eSampledImage i hB (by decide)
  have d2 := fun i => slotDeclared_layout3 cfg DescriptorType.eSSBO i hB (by decide)
  have d3 := fun i => slotDeclared_layout1 cfg DescriptorType.eBuffer i hB (by decide)
  have k1 : (1 : Nat) ≤ cfg.MAX_BINDINGS_PER_SET := by omega
  rw [CreateAllDescriptors_trace, WriteSwapChainBlitResources_trace]
  simp only [List.drop_left, writeDescriptorCalls, List.filterMap_cons, List.filterMap_nil,
    List.map_cons, List.map_nil, true_and]
  intro c hc
  simp only [List.cons_append, List.nil_append, List.mem_cons, List.mem_singleton,
    List.not_mem_nil, or_false] at hc
  rcases hc with rfl | rfl | rfl | rfl | rfl
  · exact ⟨_, r1, fun i => (f1 i).trans (d1 i).symm,
      (slotsWhere_lt _ 1 _ k1 f1).trans (slotsWhere_lt _ 1 _ k1 d1).symm,
      slotsWhere_lt _ 1 _ k1 f1⟩
  · exact ⟨_, r2, fun i => (f2 i).trans (d2 i).symm,
      (slotsWhere_lt _ 3 _ hB f2).trans (slotsWhere_lt _ 3 _ hB d2).symm,
      slotsWhere_lt _ 3 _ hB f2⟩
  · exact ⟨_, r3, fun i => (f3 i).trans (d3 i).symm,
      (slotsWhere_lt _ 1 _ k1 f3).trans (slotsWhere_lt _ 1 _ k1 d3).symm,
      slotsWhere_lt _ 1 _ k1 f3⟩
  · exact ⟨_, r1, fun i => (f1 i).trans (d1 i).symm,
      (slotsWhere_lt _ 1 _ k1 f1).trans (slotsWhere_lt _ 1 _ k1 d1).symm,
      slotsWhere_lt _ 1 _ k1 f1⟩
  · exact ⟨_, r2, fun i => (f2 i).trans (d2 i).symm,
      (slotsWhere_lt _ 3 _ hB f2).trans (slotsWhere_lt _ 3 _ hB d2).symm,
      slotsWhere_lt _ 3 _ hB f2⟩

/-- Witness of C9 on the sample game. -/
theorem WriteDescriptor_fills_declared_slots_witness :
    (writeDescriptorCalls ((CreateAllDescriptors sampleConstants sampleInitEnv
        sampleInitialized).trace.drop sampleInitialized.trace.length)).map (fun c => c.1) =
      [ DescLayoutID.DESCLAYOUT_ID_SWAP_CHAIN_BLIT_TEX, DescLayoutID.DESCLAYOUT_ID_SWAP_CHAIN_BLIT_VBS,
        DescLayoutID.DESCLAYOUT_ID_VIEW_GLOBAL ] :=
  (WriteDescriptor_fills_declared_slots sampleConstants sampleInitEnv
    sampleInitEnv.shaderResources 800 600 sampleInitialized (by decide) (by decide) (by decide)
    (by decide) (by decide) (by decide)).1

theorem take_one_set_zero (n : Nat) (x y : ResourceHandle) (hn : 1 ≤ n) :
    ((List.replicate n y).set 0 x).take 1 = [x] := by
  obtain ⟨m, rfl⟩ : ∃ m, n = m + 1 := ⟨n - 1, by omega⟩
  simp [List.replicate_succ]

/-- C10: after `GameWindowResize(0,0)` then `GameWindowResize(W,H)` with
(W,H) other than (0,0), in particular with W,H > 0, on an initialised game,
where both main colour target handles are created handles and the new one
differs from the old one: the minimised flag is false; `m_rtColorHandle` is the
new handle, valid and distinct from the old one; the main pass has one colour
target,
`colorRTs[0]` the new handle, and dimensions (W,H); the calls of the two resizes
end with the destruction of the old handle, the creation of the new one and the
rewrite of the swap-chain-blit descriptor with the new handle in slot 0; and
after any further `GameUpdate` calls, every command in the stream of a
`GameUpdate` that carries the old handle in its image field or among its colour
targets is one of the commands appended by the debug UI pass, so none that
`GameUpdate` itself records does. -/
theorem resize_replaces_main_color_target (cfg : PlatformConstants) (e1 e2 : ResizeEnv)
    (W H : Nat) (s : GameState) (calls : List EntryCall) (env : UpdateEnv) (w h : Nat)
    (hi : s.isGameInitted = true) (hwh : ¬ (W = 0 ∧ H = 0))
    (hold : s.gameGraphicsData.m_rtColorHandle.isCreated = true)
    (hnew : e2.rtColorHandle.isCreated = true)
    (hne : e2.rtColorHandle ≠ s.gameGraphicsData.m_rtColorHandle)
    (hR : 1 ≤ cfg.MAX_MULTIPLE_RENDERTARGETS) (hB : 1 ≤ cfg.MAX_BINDINGS_PER_SET)
    (hc : ∀ c ∈ calls, ∃ env w h, c = EntryCall.update env w h)
    (hn : 18 + env.debugUICommands.length < UINT32_RANGE) :
    (GameWindowResize cfg e2 W H (GameWindowResize cfg e1 0 0 s)).isWindowMinimized = false ∧
    (GameWindowResize cfg e2 W H (GameWindowResize cfg e1 0 0 s)).gameGraphicsData.m_rtColorHandle =
      e2.rtColorHandle ∧
    (GameWindowResize cfg e2 W H (GameWindowResize cfg e1 0 0 s)).gameGraphicsData.m_rtColorHandle ≠
      s.gameGraphicsData.m_rtColorHandle ∧
    (GameWindowResize cfg e2 W H (GameWindowResize cfg e1 0 0 s)).gameGraphicsData.m_rtColorHandle ≠
      DefaultResHandle_Invalid ∧
    (GameWindowResize cfg e2 W H (GameWindowResize cfg e1 0 0 s)).mainViewPass.numColorRTs = 1 ∧
    (GameWindowResize cfg e2 W H (GameWindowResize cfg e1 0 0 s)).mainViewPass.colorRTs.get? 0 =
      some e2.rtColorHandle ∧
    (GameWindowResize cfg e2 W H (GameWindowResize cfg e1 0 0 s)).mainViewPass.renderWidth = W ∧
    (GameWindowResize cfg e2 W H (GameWindowResize cfg e1 0 0 s)).mainViewPass.renderHeight = H ∧
    (GameWindowResize cfg e2 W H (GameWindowResize cfg e1 0 0 s)).trace =
      s.trace ++ [BackendCall.WindowMinimized, BackendCall.WindowResize] ++
        ShaderManager.LoadAllShaders cfg e2.shaders W H [] ++
        [ BackendCall.DestroyResource s.gameGraphicsData.m_rtColorHandle,
          BackendCall.CreateResource (mainViewColorDesc W H) e2.rtColorHandle,
          BackendCall.WriteDescriptor DescLayoutID.DESCLAYOUT_ID_SWAP_CHAIN_BLIT_TEX
            s.gameGraphicsData.m_swapChainBlitDescHandle
            ((DescriptorSetDataHandles.InitInvalid cfg).setHandle 0 e2.rtColorHandle),
          BackendCall.WriteDescriptor DescLayoutID.DESCLAYOUT_ID_SWAP_CHAIN_BLIT_VBS
            s.defaultQuad.m_descriptor (vbHandles cfg s) ] ∧
    ((DescriptorSetDataHandles.InitInvalid cfg).setHandle 0 e2.rtColorHandle).handles.get? 0 =
      some e2.rtColorHandle ∧
    ∀ c, some c ∈ (GameUpdate cfg env w h
          (run cfg (GameWindowResize cfg e2 W H (GameWindowResize cfg e1 0 0 s))
            calls)).2.graphicsCommandStream.contents →
        c.carriesImage s.gameGraphicsData.m_rtColorHandle = true →
        c ∈ env.debugUICommands := by
  have hR0 : 0 < cfg.MAX_MULTIPLE_RENDERTARGETS := by omega
  have hB0 : 0 < cfg.MAX_BINDINGS_PER_SET := by omega
  have z1 : (GameWindowResize cfg e1 0 0 s).isGameInitted = true := by
    rw [GameWindowResize_zero]; exact hi
  have z2 : (GameWindowResize cfg e1 0 0 s).gameGraphicsData = s.gameGraphicsData := by
    rw [GameWindowResize_zero]
  have z3 : (GameWindowResize cfg e1 0 0 s).defaultQuad = s.defaultQuad := by
    rw [GameWindowResize_zero]
  have z4 : (GameWindowResize cfg e1 0 0 s).trace = s.trace ++ [BackendCall.WindowMinimized] := by
    rw [GameWindowResize_zero]
  have e := GameWindowResize_nonzero cfg e2 W H (GameWindowResize cfg e1 0 0 s) hwh
  generalize GameWindowResize cfg e1 0 0 s = s1 at e z1 z2 z3 z4 ⊢
  have q1 : (GameWindowResize cfg e2 W H s1).isGameInitted = true := by
    rw [GameWindowResize_isGameInitted]; exact z1
  have q2 : (GameWindowResize cfg e2 W H s1).gameGraphicsData.m_rtColorHandle = e2.rtColorHandle := by
    rw [e]
  have q3 : (GameWindowResize cfg e2 W H s1).mainViewPass.colorRTs =
      (List.replicate cfg.MAX_MULTIPLE_RENDERTARGETS DefaultResHandle_Invalid).set 0
        e2.rtColorHandle := by rw [e]
  have q4 : (GameWindowResize cfg e2 W H s1).mainViewPass.numColorRTs = 1 := by rw [e]
  have q5 : e2.rtColorHandle ≠ DefaultResHandle_Invalid := by
    intro x
    rw [x] at hnew
    cases hnew
  refine ⟨by rw [e], q2, by rw [q2]; exact hne, by rw [q2]; exact q5, q4, ?_, by rw [e],
    by rw [e], ?_, ?_, ?_⟩
  · rw [q3]
    simp [List.get?_eq_getElem?, List.getElem?_set, hR0]
  · rw [e]
    simp [vbHandles, z2, z3, z4]
  · simp [DescriptorSetDataHandles.setHandle, DescriptorSetDataHandles.InitInvalid,
      List.get?_eq_getElem?, List.getElem?_set, hB0]
  · intro c hmem hcarry
    obtain ⟨k1, k2, k3, -⟩ := run_updates_keeps cfg calls _ q1 hc
    generalize run cfg (GameWindowResize cfg e2 W H s1) calls = S at hmem k1 k2 k3
    cases ha : env.acquireFrame with
    | false =>
      have z := (GameUpdate_skipped cfg env w h S k1 ha).1
      rw [contents_of_numCommands_zero _ z] at hmem
      cases hmem
    | true =>
      obtain ⟨-, a2, -, -⟩ := GameUpdate_acquired_stream cfg env w h S ha hn
      rw [a2, afterLazyInit_of_initted cfg env w h S k1] at hmem
      have hmem2 : c ∈ frameCommands cfg w h S env.debugUICommands := by
        rcases List.mem_map.mp hmem with ⟨d, hd, hde⟩
        cases hde
        rw [← frameCommands_congr cfg w h S _ env.debugUICommands rfl rfl rfl]
        exact hd
      apply frameCommands_carriesImage cfg w h S env.debugUICommands _ c hmem2 hcarry
      · rw [k2, q2]; exact fun x => hne x.symm
      · intro x
        rw [x] at hold
        cases hold
      · rw [k3, q3, q4, take_one_set_zero _ _ _ hR]
        simp only [List.mem_singleton]
        exact fun x => hne x.symm

/-- Witness of C10: the sample game resized to (0,0) and then to 640 x 480,
followed by two updates. -/
theorem resize_replaces_main_color_target_witness :
    (GameWindowResize sampleConstants sampleResizeEnv 640 480
      (GameWindowResize sampleConstants sampleResizeEnv 0 0
        sampleInitialized)).gameGraphicsData.m_rtColorHandle = ResourceHandle.created 10 ∧
    (GameWindowResize sampleConstants sampleResizeEnv 640 480
      (GameWindowResize sampleConstants sampleResizeEnv 0 0
        sampleInitialized)).gameGraphicsData.m_rtColorHandle ≠ ResourceHandle.created 6 :=
  have H := resize_replaces_main_color_target sampleConstants sampleResizeEnv sampleResizeEnv
    640 480 sampleInitialized [EntryCall.update sampleUpdateEnv 640 480] sampleUpdateEnv 640 480
    (by decide) (by decide) (by decide) (by decide) (by decide) (by decide) (by decide)
    (by intro c hc; simp at hc; exact ⟨_, _, _, hc⟩) (by decide)
  ⟨H.2.1, H.2.2.1⟩

/-! ## Teardown, descriptor bindings, layouts and formats -/

theorem GameDestroy_trace (s : GameState) (hi : s.isGameInitted = true) :
    (GameDestroy s).trace = s.trace ++
      [ BackendCall.DebugUI_Shutdown,
        BackendCall.DestroyResource s.gameGraphicsData.m_rtColorHandle,
        BackendCall.DestroyDescriptor s.gameGraphicsData.m_swapChainBlitDescHandle,
        BackendCall.DestroyDescriptor s.gameGraphicsData.m_DescData_Global,
        BackendCall.DestroyResource s.gameGraphicsData.m_DescDataBufferHandle_Global,
        BackendCall.DestroyAllDescriptors,
        BackendCall.DestroyDefaultGeometry,
        BackendCall.DestroyDefaultGeometryVertexBufferDescriptor,
        BackendCall.DestroyAnimatedPoly,
        BackendCall.AllocatorExplicitFree,
        BackendCall.DestroyContext,
        BackendCall.CoreFreeAligned ] := by
  simp [GameDestroy, hi, GameState.emit, DestroyWindowResizeDependentResources, DestroyDescriptors,
    ShaderManager.Shutdown]

theorem destroyCalls_eq (s : GameState) (hi : s.isGameInitted = true) :
    destroyCalls s =
      [ BackendCall.DebugUI_Shutdown,
        BackendCall.DestroyResource s.gameGraphicsData.m_rtColorHandle,
        BackendCall.DestroyDescriptor s.gameGraphicsData.m_swapChainBlitDescHandle,
        BackendCall.DestroyDescriptor s.gameGraphicsData.m_DescData_Global,
        BackendCall.DestroyResource s.gameGraphicsData.m_DescDataBufferHandle_Global,
        BackendCall.DestroyAllDescriptors,
        BackendCall.DestroyDefaultGeometry,
        BackendCall.DestroyDefaultGeometryVertexBufferDescriptor,
        BackendCall.DestroyAnimatedPoly,
        BackendCall.AllocatorExplicitFree,
        BackendCall.DestroyContext,
        BackendCall.CoreFreeAligned ] := by
  rw [destroyCalls, GameDestroy_trace s hi, List.drop_left]

theorem initCalls_eq (cfg : PlatformConstants) (env : InitEnv) (w h : Nat) (s : GameState) :
    initCalls cfg env w h s =
      [ BackendCall.GetPlatformWindowHandles, BackendCall.CreateContext w h,
        BackendCall.CoreMallocAligned
          (TINKER_PLATFORM_GRAPHICS_COMMAND_STREAM_MAX * cfg.sizeofGraphicsCommand) cfg.CACHE_LINE,
        BackendCall.AllocatorInit ShaderManager.totalShaderBytecodeMaxSizeInBytes 1 ] ++
      ShaderManager.LoadAllShaderResources cfg env.shaderResources w h [] ++
      [ BackendCall.DebugUI_Init, BackendCall.CreateDefaultGeometry,
        BackendCall.CreateResource (mainViewColorDesc w h) env.rtColorHandle,
        BackendCall.CreateAnimatedPoly,
        BackendCall.CreateDescriptor DescLayoutID.DESCLAYOUT_ID_SWAP_CHAIN_BLIT_TEX
          env.swapChainBlitDescHandle,
        BackendCall.WriteDescriptor DescLayoutID.DESCLAYOUT_ID_SWAP_CHAIN_BLIT_TEX
          env.swapChainBlitDescHandle
          ((DescriptorSetDataHandles.InitInvalid cfg).setHandle 0 env.rtColorHandle),
        BackendCall.WriteDescriptor DescLayoutID.DESCLAYOUT_ID_SWAP_CHAIN_BLIT_VBS
          env.defaultQuad.m_descriptor
          ((((DescriptorSetDataHandles.InitInvalid cfg).setHandle 0
            env.defaultQuad.positionBufferHandle).setHandle 1
            env.defaultQuad.uvBufferHandle).setHandle 2 env.defaultQuad.normalBufferHandle),
        BackendCall.CreateResource (globalBufferDesc cfg) env.descDataBufferHandle_Global,
        BackendCall.CreateDescriptor DescLayoutID.DESCLAYOUT_ID_VIEW_GLOBAL env.descData_Global,
        BackendCall.WriteDescriptor DescLayoutID.DESCLAYOUT_ID_VIEW_GLOBAL env.descData_Global
          ((DescriptorSetDataHandles.InitInvalid cfg).setHandle 0
            env.descDataBufferHandle_Global) ] := by
  simp only [initCalls, GameInit, GameState.emit, ShaderManager.Startup, CreateAllDescriptors,
    InitDemo, CreateGameRenderingResources, WriteSwapChainBlitResources, blitHandles, vbHandles,
    globalDataHandles]
  rw [LoadAllShaderResources_eq, LoadAllShaderResources_eq]
  simp

theorem filterMap_createdBy_LoadAllShaderResources (cfg : PlatformConstants)
    (env : ShaderManager.ShaderResourcesEnv) (w h : Nat) :
    (ShaderManager.LoadAllShaderResources cfg env w h []).filterMap createdBy =
      [Subsystem.shaderManager] := by
  obtain ⟨p0, p1, p2, p3, p4, p5, p6⟩ := ShaderManager.shaderFilePath_values
  rw [LoadAllShaderResources_eq]
  simp [ShaderManager.declaredLayouts, ShaderManager.createLayoutCall, ShaderManager.LoadAllShaders,
    ShaderManager.LoadShader, ShaderManager.loadStage, p0, p1, p2, p3, p4, p5, p6, createdBy]

theorem creationOrder_initCalls (cfg : PlatformConstants) (env : InitEnv) (w h : Nat)
    (s : GameState) :
    creationOrder (initCalls cfg env w h s) =
      [ Subsystem.graphicsContext, Subsystem.commandStreamStorage, Subsystem.shaderManager,
        Subsystem.debugUI, Subsystem.defaultGeometry, Subsystem.renderTarget,
        Subsystem.animatedContent, Subsystem.descriptors ] := by
  rw [initCalls_eq, creationOrder, List.filterMap_append, List.filterMap_append,
    filterMap_createdBy_LoadAllShaderResources]
  simp [createdBy, mainViewColorDesc, globalBufferDesc, firstOccurrences]

theorem releaseOrder_destroyCalls (s : GameState) (hi : s.isGameInitted = true) :
    releaseOrder s.gameGraphicsData.m_rtColorHandle (destroyCalls s) =
      [ Subsystem.debugUI, Subsystem.renderTarget, Subsystem.descriptors, Subsystem.defaultGeometry,
        Subsystem.animatedContent, Subsystem.shaderManager, Subsystem.graphicsContext,
        Subsystem.commandStreamStorage ] := by
  rw [destroyCalls_eq s hi, releaseOrder]
  by_cases hg : s.gameGraphicsData.m_DescDataBufferHandle_Global = s.gameGraphicsData.m_rtColorHandle
  · simp [releasedBy, hg, firstOccurrences]
  · simp [releasedBy, hg, firstOccurrences]

/-- C11, evaluated: in the calls of `GameDestroy` on the sample game the main
colour target (handle 6), last written into the swap-chain-blit descriptor
(handle 7), is destroyed at position 1, before that descriptor at position 2;
the global descriptor (handle 9) at position 3 does precede its uniform buffer
(handle 8) at position 4. -/
theorem GameDestroy_destroys_color_target_before_blit_descriptor :
    sampleInitialized.isGameInitted = true ∧
    lastWrittenData sampleInitialized.trace (DescriptorHandle.created 7) =
      some ((DescriptorSetDataHandles.InitInvalid sampleConstants).setHandle 0
        (ResourceHandle.created 6)) ∧
    lastWrittenData sampleInitialized.trace (DescriptorHandle.created 9) =
      some ((DescriptorSetDataHandles.InitInvalid sampleConstants).setHandle 0
        (ResourceHandle.created 8)) ∧
    (destroyCalls sampleInitialized).indexOf
      (BackendCall.DestroyResource (ResourceHandle.created 6)) = 1 ∧
    (destroyCalls sampleInitialized).indexOf
      (BackendCall.DestroyDescriptor (DescriptorHandle.created 7)) = 2 ∧
    (destroyCalls sampleInitialized).indexOf
      (BackendCall.DestroyDescriptor (DescriptorHandle.created 9)) = 3 ∧
    (destroyCalls sampleInitialized).indexOf
      (BackendCall.DestroyResource (ResourceHandle.created 8)) = 4 := by
  refine ⟨by decide, by decide, by decide, by decide, by decide, by decide, by decide⟩

/-- C12, as stated, fails: on the sample game `GameInit` creates context,
stream storage, shader manager, debug UI, default geometry, render target,
animated content, descriptors in this order, and `GameDestroy` releases debug
UI, render target, descriptors, default geometry, animated content, shader
manager, context, stream storage, which is not the reverse. -/
theorem GameDestroy_order_is_not_reverse :
    sampleInitialized.isGameInitted = true ∧
    creationOrder (initCalls sampleConstants sampleInitEnv 800 600
      (GameState.initial sampleConstants)) =
      [ Subsystem.graphicsContext, Subsystem.commandStreamStorage, Subsystem.shaderManager,
        Subsystem.debugUI, Subsystem.defaultGeometry, Subsystem.renderTarget,
        Subsystem.animatedContent, Subsystem.descriptors ] ∧
    releaseOrder sampleInitialized.gameGraphicsData.m_rtColorHandle
      (destroyCalls sampleInitialized) =
      [ Subsystem.debugUI, Subsystem.renderTarget, Subsystem.descriptors,
        Subsystem.defaultGeometry, Subsystem.animatedContent, Subsystem.shaderManager,
        Subsystem.graphicsContext, Subsystem.commandStreamStorage ] ∧
    releaseOrder sampleInitialized.gameGraphicsData.m_rtColorHandle
      (destroyCalls sampleInitialized) ≠
      (creationOrder (initCalls sampleConstants sampleInitEnv 800 600
        (GameState.initial sampleConstants))).reverse := by
  refine ⟨by decide, by decide, by decide, by decide⟩

/-- C12, amended: `GameInit` creates graphics context, command-stream storage,
shader manager, debug UI, default geometry, render target, animated content and
descriptors in this order, and `GameDestroy` on an initialised game releases
them in a fixed order that is not its reverse: first the debug UI, then the
render target and the descriptors, then default geometry, animated content,
shader manager, graphics context and last the command-stream storage.  (The
order of render target and descriptors among themselves is left open here.) -/
theorem GameDestroy_release_order (cfg : PlatformConstants) (env : InitEnv) (w h : Nat)
    (s0 s : GameState) (hi : s.isGameInitted = true) :
    creationOrder (initCalls cfg env w h s0) =
      [ Subsystem.graphicsContext, Subsystem.commandStreamStorage, Subsystem.shaderManager,
        Subsystem.debugUI, Subsystem.defaultGeometry, Subsystem.renderTarget,
        Subsystem.animatedContent, Subsystem.descriptors ] ∧
    (releaseOrder s.gameGraphicsData.m_rtColorHandle (destroyCalls s)).filter
        (fun x => decide (x ≠ Subsystem.renderTarget)) =
      [ Subsystem.debugUI, Subsystem.descriptors, Subsystem.defaultGeometry,
        Subsystem.animatedContent, Subsystem.shaderManager, Subsystem.graphicsContext,
        Subsystem.commandStreamStorage ] ∧
    (releaseOrder s.gameGraphicsData.m_rtColorHandle (destroyCalls s)).filter
        (fun x => decide (x ≠ Subsystem.descriptors)) =
      [ Subsystem.debugUI, Subsystem.renderTarget, Subsystem.defaultGeometry,
        Subsystem.animatedContent, Subsystem.shaderManager, Subsystem.graphicsContext,
        Subsystem.commandStreamStorage ] ∧
    releaseOrder s.gameGraphicsData.m_rtColorHandle (destroyCalls s) ≠
      (creationOrder (initCalls cfg env w h s0)).reverse := by
  rw [creationOrder_initCalls, releaseOrder_destroyCalls s hi]
  refine ⟨rfl, by decide, by decide, by decide⟩

/-- Witness of the amended C12 on the sample game. -/
theorem GameDestroy_release_order_witness :
    (releaseOrder sampleInitialized.gameGraphicsData.m_rtColorHandle
        (destroyCalls sampleInitialized)).filter (fun x => decide (x ≠ Subsystem.renderTarget)) =
      [ Subsystem.debugUI, Subsystem.descriptors, Subsystem.defaultGeometry,
        Subsystem.animatedContent, Subsystem.shaderManager, Subsystem.graphicsContext,
        Subsystem.commandStreamStorage ] :=
  (GameDestroy_release_order sampleConstants sampleInitEnv 800 600
    (GameState.initial sampleConstants) sampleInitialized (by decide)).2.1

/-- C13: when `isGameInitted` is false, `GameDestroy` returns the state it was
given: no field changes and no call is made. -/
theorem GameDestroy_noop_when_uninitialized (s : GameState) (hi : s.isGameInitted = false) :
    GameDestroy s = s ∧ (GameDestroy s).trace = s.trace ∧ destroyCalls s = [] := by
  have e : GameDestroy s = s := by simp [GameDestroy, hi]
  refine ⟨e, by rw [e], ?_⟩
  rw [destroyCalls, e]
  simp

/-- Witness of C13: `GameDestroy` at program start. -/
theorem GameDestroy_noop_when_uninitialized_witness :
    (GameDestroy (GameState.initial sampleConstants)).trace = [] :=
  (GameDestroy_noop_when_uninitialized (GameState.initial sampleConstants) rfl).2.1

theorem singleColorFormats_values (cfg : PlatformConstants) (fmt : ImageFormat)
    (hR : 1 ≤ cfg.MAX_MULTIPLE_RENDERTARGETS) (hf : fmt ≠ ImageFormat.Invalid) :
    (ShaderManager.singleColorFormats cfg fmt).numColorRTs = 1 ∧
    (ShaderManager.singleColorFormats cfg fmt).colorRTFormats.take 1 = [fmt] ∧
    (ShaderManager.singleColorFormats cfg fmt).colorRTFormats.filter
      (fun f => decide (f ≠ ImageFormat.Invalid)) = [fmt] ∧
    (ShaderManager.singleColorFormats cfg fmt).depthFormat = ImageFormat.Invalid := by
  obtain ⟨m, hm⟩ : ∃ m, cfg.MAX_MULTIPLE_RENDERTARGETS = m + 1 :=
    ⟨cfg.MAX_MULTIPLE_RENDERTARGETS - 1, by omega⟩
  simp [ShaderManager.singleColorFormats, ShaderManager.GraphicsPipelineAttachmentFormats.Init, hm,
    List.replicate_succ, hf, List.filter_cons]

theorem pipelineCalls_LoadAllShaders (cfg : PlatformConstants) (env : ShaderManager.ShaderEnv)
    (w h : Nat) (hR : 1 ≤ cfg.MAX_MULTIPLE_RENDERTARGETS) :
    (pipelineCalls (ShaderManager.LoadAllShaders cfg env w h [])).map PipelineArgs.attachments =
      [ (ShaderID.SHADER_ID_SWAP_CHAIN_BLIT, 1, [ImageFormat.TheSwapChainFormat],
          [ImageFormat.TheSwapChainFormat], ImageFormat.Invalid),
        (ShaderID.SHADER_ID_IMGUI_DEBUGUI, 1, [ImageFormat.RGBA8_SRGB],
          [ImageFormat.RGBA8_SRGB], ImageFormat.Invalid),
        (ShaderID.SHADER_ID_Pass1, 1, [ImageFormat.RGBA8_SRGB],
          [ImageFormat.RGBA8_SRGB], ImageFormat.Invalid),
        (ShaderID.SHADER_ID_Pass2, 1, [ImageFormat.RGBA8_SRGB],
          [ImageFormat.RGBA8_SRGB], ImageFormat.Invalid) ] := by
  obtain ⟨p0, p1, p2, p3, p4, p5, p6⟩ := ShaderManager.shaderFilePath_values
  obtain ⟨a1, a2, a3, a4⟩ := singleColorFormats_values cfg ImageFormat.TheSwapChainFormat hR
    (by decide)
  obtain ⟨b1, b2, b3, b4⟩ := singleColorFormats_values cfg ImageFormat.RGBA8_SRGB hR (by decide)
  simp only [ShaderManager.LoadAllShaders, ShaderManager.LoadShader, ShaderManager.loadStage,
    p0, p1, p2, p3, p4, p5, p6, pipelineCalls, List.nil_append, List.cons_append,
    List.append_assoc, List.filterMap_cons, List.filterMap_nil, List.filterMap_append,
    List.map_cons, List.map_nil, PipelineArgs.attachments, a1, a2, a3, a4, b1, b2, b3, b4]

theorem GameInit_trace_eq (cfg : PlatformConstants) (env : InitEnv) (w h : Nat) (s : GameState) :
    (GameInit cfg env w h s).2.trace = s.trace ++ initCalls cfg env w h s := by
  rw [initCalls_eq]
  simp only [GameInit, GameState.emit, ShaderManager.Startup, CreateAllDescriptors,
    InitDemo, CreateGameRenderingResources, WriteSwapChainBlitResources, blitHandles, vbHandles,
    globalDataHandles]
  rw [LoadAllShaderResources_eq, LoadAllShaderResources_eq]
  simp

theorem GameInit_state (cfg : PlatformConstants) (env : InitEnv) (w h : Nat) (s : GameState) :
    (GameInit cfg env w h s).2.gameGraphicsData =
      { m_rtColorHandle := env.rtColorHandle
        m_swapChainBlitDescHandle := env.swapChainBlitDescHandle
        m_DescData_Global := env.descData_Global
        m_DescDataBufferHandle_Global := env.descDataBufferHandle_Global } ∧
    (GameInit cfg env w h s).2.mainViewPass =
      { numColorRTs := 1
        colorRTs := (List.replicate cfg.MAX_MULTIPLE_RENDERTARGETS DefaultResHandle_Invalid).set 0
          env.rtColorHandle
        depthRT := DefaultResHandle_Invalid
        renderWidth := w
        renderHeight := h
        debugLabel := "Main Render View" } ∧
    (GameInit cfg env w h s).2.defaultQuad = env.defaultQuad ∧
    (GameInit cfg env w h s).2.isWindowMinimized = s.isWindowMinimized := by
  simp [GameInit, GameState.emit, ShaderManager.Startup, CreateAllDescriptors,
    InitDemo, CreateGameRenderingResources, WriteSwapChainBlitResources, GameRenderPass.Init]

theorem GameUpdate_contents_of_initted (cfg : PlatformConstants) (env : UpdateEnv) (w h : Nat)
    (s : GameState) (hi : s.isGameInitted = true) (ha : env.acquireFrame = true)
    (hn : 18 + env.debugUICommands.length < UINT32_RANGE) :
    (GameUpdate cfg env w h s).2.graphicsCommandStream.contents =
      (frameCommands cfg w h s env.debugUICommands).map some := by
  have e := afterLazyInit_of_initted cfg env w h s hi
  have ef : frameCommands cfg w h (afterLazyInit cfg env w h s) env.debugUICommands =
      frameCommands cfg w h s env.debugUICommands := by
    rw [e]; exact frameCommands_congr cfg w h s _ _ rfl rfl rfl
  rw [(GameUpdate_acquired_stream cfg env w h s ha hn).2.1, ef]

theorem layoutsAfter_append (cur : ResourceHandle → ImageLayout) (a b : List GraphicsCommand) :
    layoutsAfter cur (a ++ b) = layoutsAfter (layoutsAfter cur a) b := by
  simp [layoutsAfter, List.foldl_append]

theorem layoutsAfter_cons (cur : ResourceHandle → ImageLayout) (c : GraphicsCommand)
    (cs : List GraphicsCommand) :
    layoutsAfter cur (c :: cs) = layoutsAfter (layoutsAfterCommand cur c) cs := rfl

theorem layoutsAfter_nil (cur : ResourceHandle → ImageLayout) : layoutsAfter cur [] = cur := rfl

theorem layoutsAfterCommand_of_not_transition (cur : ResourceHandle → ImageLayout)
    (c : GraphicsCommand) (hc : c.isLayoutTransition = false) : layoutsAfterCommand cur c = cur := by
  cases c <;> simp [GraphicsCommand.isLayoutTransition] at hc <;> rfl

theorem layoutsAfter_of_no_transition (cs : List GraphicsCommand)
    (cur : ResourceHandle → ImageLayout) (hc : ∀ c ∈ cs, c.isLayoutTransition = false) :
    layoutsAfter cur cs = cur := by
  induction cs generalizing cur with
  | nil => rfl
  | cons c cs ih =>
    rw [layoutsAfter_cons, layoutsAfterCommand_of_not_transition cur c (hc c (List.mem_cons_self _ _))]
    exact ih cur (fun d hd => hc d (List.mem_cons_of_mem _ hd))

theorem transitionsChained_cons (cur : ResourceHandle → ImageLayout) (c : GraphicsCommand)
    (cs : List GraphicsCommand) :
    transitionsChained cur (c :: cs) =
      (transitionStartsFrom cur c && transitionsChained (layoutsAfterCommand cur c) cs) := rfl

theorem transitionsChained_append (a b : List GraphicsCommand)
    (cur : ResourceHandle → ImageLayout) :
    transitionsChained cur (a ++ b) =
      (transitionsChained cur a && transitionsChained (layoutsAfter cur a) b) := by
  induction a generalizing cur with
  | nil => simp [transitionsChained, layoutsAfter_nil]
  | cons c cs ih =>
    rw [List.cons_append, transitionsChained_cons, transitionsChained_cons, ih, layoutsAfter_cons,
      Bool.and_assoc]

theorem transitionStartsFrom_of_not_transition (cur : ResourceHandle → ImageLayout)
    (c : GraphicsCommand) (hc : c.isLayoutTransition = false) :
    transitionStartsFrom cur c = true := by
  cases c <;> simp [GraphicsCommand.isLayoutTransition] at hc <;> rfl

theorem transitionsChained_of_no_transition (cs : List GraphicsCommand)
    (cur : ResourceHandle → ImageLayout) (hc : ∀ c ∈ cs, c.isLayoutTransition = false) :
    transitionsChained cur cs = true := by
  induction cs generalizing cur with
  | nil => rfl
  | cons c cs ih =>
    have h1 := hc c (List.mem_cons_self _ _)
    rw [transitionsChained_cons, layoutsAfterCommand_of_not_transition cur c h1,
      ih cur (fun d hd => hc d (List.mem_cons_of_mem _ hd)),
      transitionStartsFrom_of_not_transition cur c h1]
    rfl

theorem take_past {α : Type} (X B : List α) (i n : Nat) (h : n = X.length + i) :
    (X ++ B).take n = X ++ B.take i := by
  subst h; simp [List.take_append_eq_append_take]

theorem get?_past {α : Type} (X B : List α) (i n : Nat) (h : n = X.length + i) :
    (X ++ B).get? n = B.get? i := by
  subst h
  simp [List.get?_eq_getElem?, List.getElem?_append_right]

/-- The layouts in one acquired frame, for a state whose main pass targets the
main colour target. -/
theorem frameCommands_layouts (cfg : PlatformConstants) (w h : Nat) (X : GameState)
    (ui : List GraphicsCommand)
    (hT : X.mainViewPass.colorRTs.take X.mainViewPass.numColorRTs =
      [X.gameGraphicsData.m_rtColorHandle])
    (hrt : X.gameGraphicsData.m_rtColorHandle ≠ IMAGE_HANDLE_SWAP_CHAIN)
    (hui : ∀ c ∈ ui, c.isLayoutTransition = false) :
    transitionsChained layoutsAtFrameStart (frameCommands cfg w h X ui) = true ∧
    ((frameCommands cfg w h X ui).get? 1 =
        some (GraphicsCommand.eClearImage "Clear color buffer"
          X.gameGraphicsData.m_rtColorHandle (0, 0, 0, 0)) ∧
      layoutsAfter layoutsAtFrameStart ((frameCommands cfg w h X ui).take 1)
        X.gameGraphicsData.m_rtColorHandle = ImageLayout.eTransferDst) ∧
    ((frameCommands cfg w h X ui).get? 4 =
        some (GraphicsCommand.eRenderPassBegin X.mainViewPass.debugLabel
          X.mainViewPass.numColorRTs [X.gameGraphicsData.m_rtColorHandle] X.mainViewPass.depthRT
          X.mainViewPass.renderWidth X.mainViewPass.renderHeight) ∧
      layoutsAfter layoutsAtFrameStart ((frameCommands cfg w h X ui).take 4)
        X.gameGraphicsData.m_rtColorHandle = ImageLayout.eRenderOptimal) ∧
    ((frameCommands cfg w h X ui).get? (13 + ui.length) =
        some (GraphicsCommand.eRenderPassBegin "Blit to swap chain" 1 [IMAGE_HANDLE_SWAP_CHAIN]
          DefaultResHandle_Invalid w h) ∧
      layoutsAfter layoutsAtFrameStart ((frameCommands cfg w h X ui).take (13 + ui.length))
        IMAGE_HANDLE_SWAP_CHAIN = ImageLayout.eRenderOptimal) ∧
    ((frameCommands cfg w h X ui).get? (15 + ui.length) =
        some (GraphicsCommand.eDrawCall "Draw default quad" cfg.DEFAULT_QUAD_NUM_INDICES 1 0 0
          X.defaultQuad.indexBufferHandle ShaderID.SHADER_ID_SWAP_CHAIN_BLIT BlendState.eReplace
          DepthState.eOff_NoCull
          (((descriptorsAllInvalid cfg).set 0 X.gameGraphicsData.m_swapChainBlitDescHandle).set 1
            X.defaultQuad.m_descriptor)) ∧
      layoutsAfter layoutsAtFrameStart ((frameCommands cfg w h X ui).take (15 + ui.length))
        X.gameGraphicsData.m_rtColorHandle = ImageLayout.eShaderRead) := by
  have hsw : ¬ IMAGE_HANDLE_SWAP_CHAIN = X.gameGraphicsData.m_rtColorHandle := fun e => hrt e.symm
  have hP : (colorBufferTransitionCommands X ++
      [GraphicsCommand.eTimestamp "Begin Frame" "Timestamp" true] ++
      mainViewCommands cfg w h X ++ ui).length = 11 + ui.length := by
    simp [colorBufferTransitionCommands, mainViewCommands]; omega
  have hLP : layoutsAfter layoutsAtFrameStart (colorBufferTransitionCommands X ++
      [GraphicsCommand.eTimestamp "Begin Frame" "Timestamp" true] ++
      mainViewCommands cfg w h X ++ ui) =
      fun x => if x = X.gameGraphicsData.m_rtColorHandle then ImageLayout.eRenderOptimal
        else ImageLayout.eUndefined := by
    rw [layoutsAfter_append, layoutsAfter_of_no_transition ui _ hui]
    funext x
    by_cases hx : x = X.gameGraphicsData.m_rtColorHandle <;>
      simp [layoutsAfter, layoutsAfterCommand, layoutsAtFrameStart, colorBufferTransitionCommands,
        mainViewCommands, hx]
  refine ⟨?_, ⟨?_, ?_⟩, ⟨?_, ?_⟩, ⟨?_, ?_⟩, ⟨?_, ?_⟩⟩
  · unfold frameCommands
    rw [transitionsChained_append, hLP, transitionsChained_append,
      transitionsChained_of_no_transition ui _ hui]
    simp [transitionsChained, transitionStartsFrom, layoutsAfterCommand, layoutsAtFrameStart,
      colorBufferTransitionCommands, mainViewCommands, finalBlitCommands, hsw, hrt]
  · simp [frameCommands, colorBufferTransitionCommands]
  · simp [frameCommands, colorBufferTransitionCommands, layoutsAfter, layoutsAfterCommand,
      layoutsAtFrameStart]
  · simp [frameCommands, colorBufferTransitionCommands, mainViewCommands, hT]
  · simp [frameCommands, colorBufferTransitionCommands, mainViewCommands, layoutsAfter,
      layoutsAfterCommand, layoutsAtFrameStart]
  · unfold frameCommands
    rw [get?_past _ _ 2 _ (by rw [hP]; omega)]
    simp [finalBlitCommands]
  · unfold frameCommands
    rw [take_past _ _ 2 _ (by rw [hP]; omega), layoutsAfter_append, hLP]
    simp [finalBlitCommands, layoutsAfter, layoutsAfterCommand, hsw]
  · unfold frameCommands
    rw [get?_past _ _ 4 _ (by rw [hP]; omega)]
    simp [finalBlitCommands]
  · unfold frameCommands
    rw [take_past _ _ 4 _ (by rw [hP]; omega), layoutsAfter_append, hLP]
    simp [finalBlitCommands, layoutsAfter, layoutsAfterCommand, hsw, hrt]

theorem run_append_singleton (cfg : PlatformConstants) (s : GameState) (pre : List EntryCall)
    (c : EntryCall) : run cfg s (pre ++ [c]) = step cfg (run cfg s pre) c := by
  simp [run, List.foldl_append]

theorem run_invariant (cfg : PlatformConstants) (P : GameState → Prop) (Q : EntryCall → Prop)
    (hstep : ∀ s c, P s → Q c → P (step cfg s c)) (calls : List EntryCall) (s : GameState)
    (h0 : P s) (hq : ∀ c ∈ calls, Q c) : P (run cfg s calls) := by
  induction calls generalizing s with
  | nil => exact h0
  | cons c cs ih =>
    exact ih _ (hstep s c h0 (hq c (List.mem_cons_self _ _)))
      (fun d hd => hq d (List.mem_cons_of_mem _ hd))

theorem afterLazyInit_of_not_initted (cfg : PlatformConstants) (env : UpdateEnv) (w h : Nat)
    (s : GameState) (hi : s.isGameInitted = false) :
    afterLazyInit cfg env w h s =
      { (GameInit cfg env.init w h
          { s with graphicsCommandStream :=
              { s.graphicsCommandStream with m_numCommands := 0 } }).2 with
        isGameInitted := true } := by
  unfold afterLazyInit
  simp [hi]

theorem afterLazyInit_mainTarget (cfg : PlatformConstants) (env : UpdateEnv) (w h : Nat)
    (s : GameState) (hR : 1 ≤ cfg.MAX_MULTIPLE_RENDERTARGETS) (hs : MainTargetBound s)
    (hv : env.init.rtColorHandle.isCreated = true) :
    (afterLazyInit cfg env w h s).mainViewPass.colorRTs.take
        (afterLazyInit cfg env w h s).mainViewPass.numColorRTs =
      [(afterLazyInit cfg env w h s).gameGraphicsData.m_rtColorHandle] ∧
    (afterLazyInit cfg env w h s).gameGraphicsData.m_rtColorHandle.isCreated = true := by
  cases hi : s.isGameInitted with
  | true =>
    rw [afterLazyInit_of_initted cfg env w h s hi]
    exact hs hi
  | false =>
    rw [afterLazyInit_of_not_initted cfg env w h s hi]
    obtain ⟨g1, g2, -, -⟩ := GameInit_state cfg env.init w h
      { s with graphicsCommandStream := { s.graphicsCommandStream with m_numCommands := 0 } }
    simp only [g1, g2]
    exact ⟨take_one_set_zero _ _ _ hR, hv⟩

theorem MainTargetBound_step (cfg : PlatformConstants) (hR : 1 ≤ cfg.MAX_MULTIPLE_RENDERTARGETS)
    (s : GameState) (c : EntryCall) (hs : MainTargetBound s) (hc : c.targetCreated) :
    MainTargetBound (step cfg s c) := by
  cases c with
  | update env w h =>
    intro _
    have e : step cfg s (EntryCall.update env w h) = (GameUpdate cfg env w h s).2 := rfl
    rw [e, GameUpdate_eq, GameUpdate_frame_mainViewPass, GameUpdate_frame_gameGraphicsData]
    exact afterLazyInit_mainTarget cfg env w h s hR hs hc
  | resize env w h =>
    show MainTargetBound (GameWindowResize cfg env w h s)
    by_cases hwh : w = 0 ∧ h = 0
    · obtain ⟨rfl, rfl⟩ := hwh
      rw [GameWindowResize_zero]
      exact hs
    · rw [GameWindowResize_nonzero cfg env w h s hwh]
      intro _
      exact ⟨take_one_set_zero _ _ _ hR, hc⟩

theorem MainTargetBound_initial (cfg : PlatformConstants) :
    MainTargetBound (GameState.initial cfg) := by
  intro h; cases h

theorem stateAfter_update (cfg : PlatformConstants) (pre : List EntryCall) (env : UpdateEnv)
    (w h : Nat) :
    stateAfter cfg (pre ++ [EntryCall.update env w h]) =
      (GameUpdate cfg env w h (stateAfter cfg pre)).2 := by
  rw [stateAfter, run_append_singleton]
  rfl

theorem frameCommands_after_update (cfg : PlatformConstants) (env : UpdateEnv) (w h : Nat)
    (s : GameState) (ui : List GraphicsCommand) :
    frameCommands cfg w h (GameUpdate cfg env w h s).2 ui =
      frameCommands cfg w h (afterLazyInit cfg env w h s) ui := by
  apply frameCommands_congr
  · rw [GameUpdate_eq, GameUpdate_frame_gameGraphicsData]
  · rw [GameUpdate_eq, GameUpdate_frame_mainViewPass]
  · rw [GameUpdate_eq, GameUpdate_frame_defaultQuad]

theorem GameUpdate_contents_self (cfg : PlatformConstants) (env : UpdateEnv) (w h : Nat)
    (s : GameState) (ha : env.acquireFrame = true)
    (hn : 18 + env.debugUICommands.length < UINT32_RANGE) :
    (GameUpdate cfg env w h s).2.graphicsCommandStream.contents =
      (frameCommands cfg w h (GameUpdate cfg env w h s).2 env.debugUICommands).map some := by
  rw [frameCommands_after_update, (GameUpdate_acquired_stream cfg env w h s ha hn).2.1]

/-- C15: in the stream of every acquired frame of a run from program start
(main colour targets being created resources, at least one render-target slot,
a debug UI pass that records no layout transition), every layout transition
starts from the layout its image is in, all images starting the frame in
`Undefined`; the `ClearImage` at index 1 finds the main colour target in
`TransferDst`; the main pass begins at index 4 with the main colour target in
`RenderOptimal`; the blit pass begins at index `13 + k` with the swap chain in
`RenderOptimal`; and the blit draw at index `15 + k` finds the main colour
target in `ShaderRead`. -/
theorem frame_layout_transitions_chain (cfg : PlatformConstants) (pre : List EntryCall)
    (env : UpdateEnv) (w h : Nat) (S : GameState)
    (hS : S = stateAfter cfg (pre ++ [EntryCall.update env w h]))
    (hR : 1 ≤ cfg.MAX_MULTIPLE_RENDERTARGETS)
    (hv : ∀ c ∈ pre ++ [EntryCall.update env w h], c.targetCreated)
    (ha : env.acquireFrame = true) (hn : 18 + env.debugUICommands.length < UINT32_RANGE)
    (hui : ∀ c ∈ env.debugUICommands, c.isLayoutTransition = false) :
    S.graphicsCommandStream.contents =
      (frameCommands cfg w h S env.debugUICommands).map some ∧
    transitionsChained layoutsAtFrameStart (frameCommands cfg w h S env.debugUICommands) = true ∧
    ((frameCommands cfg w h S env.debugUICommands).get? 1 =
        some (GraphicsCommand.eClearImage "Clear color buffer"
          S.gameGraphicsData.m_rtColorHandle (0, 0, 0, 0)) ∧
      layoutsAfter layoutsAtFrameStart ((frameCommands cfg w h S env.debugUICommands).take 1)
        S.gameGraphicsData.m_rtColorHandle = ImageLayout.eTransferDst) ∧
    ((frameCommands cfg w h S env.debugUICommands).get? 4 =
        some (GraphicsCommand.eRenderPassBegin S.mainViewPass.debugLabel
          S.mainViewPass.numColorRTs [S.gameGraphicsData.m_rtColorHandle] S.mainViewPass.depthRT
          S.mainViewPass.renderWidth S.mainViewPass.renderHeight) ∧
      layoutsAfter layoutsAtFrameStart ((frameCommands cfg w h S env.debugUICommands).take 4)
        S.gameGraphicsData.m_rtColorHandle = ImageLayout.eRenderOptimal) ∧
    ((frameCommands cfg w h S env.debugUICommands).get? (13 + env.debugUICommands.length) =
        some (GraphicsCommand.eRenderPassBegin "Blit to swap chain" 1 [IMAGE_HANDLE_SWAP_CHAIN]
          DefaultResHandle_Invalid w h) ∧
      layoutsAfter layoutsAtFrameStart
        ((frameCommands cfg w h S env.debugUICommands).take (13 + env.debugUICommands.length))
        IMAGE_HANDLE_SWAP_CHAIN = ImageLayout.eRenderOptimal) ∧
    ((frameCommands cfg w h S env.debugUICommands).get? (15 + env.debugUICommands.length) =
        some (GraphicsCommand.eDrawCall "Draw default quad" cfg.DEFAULT_QUAD_NUM_INDICES 1 0 0
          S.defaultQuad.indexBufferHandle ShaderID.SHADER_ID_SWAP_CHAIN_BLIT BlendState.eReplace
          DepthState.eOff_NoCull
          (((descriptorsAllInvalid cfg).set 0 S.gameGraphicsData.m_swapChainBlitDescHandle).set 1
            S.defaultQuad.m_descriptor)) ∧
      layoutsAfter layoutsAtFrameStart
        ((frameCommands cfg w h S env.debugUICommands).take (15 + env.debugUICommands.length))
        S.gameGraphicsData.m_rtColorHandle = ImageLayout.eShaderRead) := by
  have hb : MainTargetBound S := by
    rw [hS]
    exact run_invariant cfg MainTargetBound EntryCall.targetCreated
      (MainTargetBound_step cfg hR) _ _ (MainTargetBound_initial cfg) hv
  have e := stateAfter_update cfg pre env w h
  have hinit : S.isGameInitted = true := by
    rw [hS, e]; exact GameUpdate_isGameInitted cfg env w h _
  obtain ⟨hT, hc⟩ := hb hinit
  have hrt : S.gameGraphicsData.m_rtColorHandle ≠ IMAGE_HANDLE_SWAP_CHAIN := by
    intro x
    rw [x] at hc
    cases hc
  refine ⟨?_, frameCommands_layouts cfg w h S env.debugUICommands hT hrt hui⟩
  rw [hS, e]
  exact GameUpdate_contents_self cfg env w h _ ha hn

/-- Witness of C15: first update, a resize to 640 x 480, then the update whose
frame is examined. -/
theorem frame_layout_transitions_chain_witness :
    transitionsChained layoutsAtFrameStart
      (frameCommands sampleConstants 640 480
        (stateAfter sampleConstants
          ([EntryCall.update sampleUpdateEnv 800 600, EntryCall.resize sampleResizeEnv 640 480] ++
            [EntryCall.update sampleUpdateEnv 640 480]))
        sampleUpdateEnv.debugUICommands) = true :=
  (frame_layout_transitions_chain sampleConstants
    [EntryCall.update sampleUpdateEnv 800 600, EntryCall.resize sampleResizeEnv 640 480]
    sampleUpdateEnv 640 480 _ rfl (by decide)
    (by
      intro c hc
      simp only [List.cons_append, List.nil_append, List.mem_cons, List.mem_singleton,
        List.not_mem_nil, or_false] at hc
      rcases hc with rfl | rfl | rfl <;> rfl)
    rfl (by decide) (by intro c hc; cases hc)).2.1

theorem boundLayout_append (t u : Trace) (d : DescriptorHandle) :
    boundLayout (t ++ u) d = u.foldl (boundLayoutStep d) (boundLayout t d) := by
  simp [boundLayout, List.foldl_append]

theorem pipelineFor_append (t u : Trace) (sh : ShaderID) :
    pipelineFor (t ++ u) sh = u.foldl (pipelineForStep sh) (pipelineFor t sh) := by
  simp [pipelineFor, List.foldl_append]

theorem foldl_boundLayoutStep_LoadAllShaders (cfg : PlatformConstants)
    (env : ShaderManager.ShaderEnv) (w h : Nat) (d : DescriptorHandle)
    (acc : Option DescLayoutID) :
    (ShaderManager.LoadAllShaders cfg env w h []).foldl (boundLayoutStep d) acc = acc := by
  obtain ⟨p0, p1, p2, p3, p4, p5, p6⟩ := ShaderManager.shaderFilePath_values
  simp [ShaderManager.LoadAllShaders, ShaderManager.LoadShader, ShaderManager.loadStage,
    p0, p1, p2, p3, p4, p5, p6, boundLayoutStep]

theorem foldl_boundLayoutStep_declaredLayouts (cfg : PlatformConstants)
    (env : ShaderManager.ShaderResourcesEnv) (d : DescriptorHandle) (acc : Option DescLayoutID) :
    ((ShaderManager.declaredLayouts cfg).map (ShaderManager.createLayoutCall env)).foldl
      (boundLayoutStep d) acc = acc := by
  simp [ShaderManager.declaredLayouts, ShaderManager.createLayoutCall, boundLayoutStep]

theorem foldl_pipelineForStep_declaredLayouts (cfg : PlatformConstants)
    (env : ShaderManager.ShaderResourcesEnv) (sh : ShaderID) (acc : Option PipelineArgs) :
    ((ShaderManager.declaredLayouts cfg).map (ShaderManager.createLayoutCall env)).foldl
      (pipelineForStep sh) acc = acc := by
  simp [ShaderManager.declaredLayouts, ShaderManager.createLayoutCall, pipelineForStep]

theorem take_two_set {α : Type} (n : Nat) (x a b : α) (hn : 2 ≤ n) :
    (((List.replicate n x).set 0 a).set 1 b).take 2 = [a, b] ∧
    ((List.replicate n x).set 0 a).take 1 = [a] := by
  obtain ⟨m, rfl⟩ : ∃ m, n = m + 2 := ⟨n - 2, by omega⟩
  simp [List.replicate_succ]

theorem filter_valid_set (n : Nat) (a b : DescriptorHandle) (hn : 2 ≤ n)
    (ha : a ≠ DefaultDescHandle_Invalid) (hb : b ≠ DefaultDescHandle_Invalid) :
    ((((List.replicate n DefaultDescHandle_Invalid).set 0 a).set 1 b).filter
      (fun d => decide (d ≠ DefaultDescHandle_Invalid))).length = 2 ∧
    (((List.replicate n DefaultDescHandle_Invalid).set 0 a).filter
      (fun d => decide (d ≠ DefaultDescHandle_Invalid))).length = 1 := by
  obtain ⟨m, rfl⟩ : ∃ m, n = m + 2 := ⟨n - 2, by omega⟩
  simp [List.replicate_succ, List.filter_cons, ha, hb]

theorem PipelineLayouts_LoadAllShaders (cfg : PlatformConstants) (env : ShaderManager.ShaderEnv)
    (w h : Nat) (t : Trace) (hD : 2 ≤ cfg.MAX_DESCRIPTOR_SETS_PER_SHADER) :
    PipelineLayouts (t ++ ShaderManager.LoadAllShaders cfg env w h []) ShaderID.SHADER_ID_Pass1 1
      [DescLayoutID.DESCLAYOUT_ID_SWAP_CHAIN_BLIT_VBS] ∧
    PipelineLayouts (t ++ ShaderManager.LoadAllShaders cfg env w h []) ShaderID.SHADER_ID_Pass2 1
      [DescLayoutID.DESCLAYOUT_ID_SWAP_CHAIN_BLIT_VBS] ∧
    PipelineLayouts (t ++ ShaderManager.LoadAllShaders cfg env w h [])
      ShaderID.SHADER_ID_SWAP_CHAIN_BLIT 2
      [DescLayoutID.DESCLAYOUT_ID_SWAP_CHAIN_BLIT_TEX,
       DescLayoutID.DESCLAYOUT_ID_SWAP_CHAIN_BLIT_VBS] := by
  obtain ⟨p0, p1, p2, p3, p4, p5, p6⟩ := ShaderManager.shaderFilePath_values
  obtain ⟨k2, -⟩ := take_two_set cfg.MAX_DESCRIPTOR_SETS_PER_SHADER DescLayoutID.DESCLAYOUT_ID_MAX
    DescLayoutID.DESCLAYOUT_ID_SWAP_CHAIN_BLIT_TEX DescLayoutID.DESCLAYOUT_ID_SWAP_CHAIN_BLIT_VBS hD
  obtain ⟨-, k1⟩ := take_two_set cfg.MAX_DESCRIPTOR_SETS_PER_SHADER DescLayoutID.DESCLAYOUT_ID_MAX
    DescLayoutID.DESCLAYOUT_ID_SWAP_CHAIN_BLIT_VBS DescLayoutID.DESCLAYOUT_ID_SWAP_CHAIN_BLIT_VBS hD
  refine ⟨?_, ?_, ?_⟩ <;>
  · unfold PipelineLayouts
    rw [pipelineFor_append]
    simp [ShaderManager.LoadAllShaders, ShaderManager.LoadShader, ShaderManager.loadStage,
      p0, p1, p2, p3, p4, p5, p6, pipelineForStep, ShaderManager.descLayoutsAllMax, k1, k2]

theorem PipelineLayouts_append (t u : Trace) (sh : ShaderID) (n : Nat) (ls : List DescLayoutID)
    (hu : ∀ acc, u.foldl (pipelineForStep sh) acc = acc) (hp : PipelineLayouts t sh n ls) :
    PipelineLayouts (t ++ u) sh n ls := by
  unfold PipelineLayouts at hp ⊢
  rw [pipelineFor_append, hu]
  exact hp

theorem GameUpdate_frame_boundLayout (cfg : PlatformConstants) (env : UpdateEnv) (w h : Nat)
    (s : GameState) (d : DescriptorHandle) :
    boundLayout (GameUpdate_frame cfg env w h s).2.trace d = boundLayout s.trace d := by
  unfold GameUpdate_frame
  cases ha : env.acquireFrame <;> cases hm : s.isWindowMinimized <;>
    simp [GameState.emit, isMultiplayer, hm, processCommandStream, recordFinalBlit, recordDebugUI,
      recordMainView, recordFrameStartTimestamp, recordColorBufferTransitions,
      GameState.writeCommand, GameState.incrNumCommands, boundLayout, List.foldl_append,
      boundLayoutStep]

theorem GameUpdate_frame_pipelineFor (cfg : PlatformConstants) (env : UpdateEnv) (w h : Nat)
    (s : GameState) (sh : ShaderID) :
    pipelineFor (GameUpdate_frame cfg env w h s).2.trace sh = pipelineFor s.trace sh := by
  unfold GameUpdate_frame
  cases ha : env.acquireFrame <;> cases hm : s.isWindowMinimized <;>
    simp [GameState.emit, isMultiplayer, hm, processCommandStream, recordFinalBlit, recordDebugUI,
      recordMainView, recordFrameStartTimestamp, recordColorBufferTransitions,
      GameState.writeCommand, GameState.incrNumCommands, pipelineFor, List.foldl_append,
      pipelineForStep]

theorem DescriptorsBound_afterInit (cfg : PlatformConstants) (env : InitEnv) (w h : Nat)
    (s : GameState) (hD : 2 ≤ cfg.MAX_DESCRIPTOR_SETS_PER_SHADER)
    (h3 : env.swapChainBlitDescHandle ≠ env.defaultQuad.m_descriptor)
    (h4 : env.swapChainBlitDescHandle ≠ env.descData_Global)
    (h5 : env.defaultQuad.m_descriptor ≠ env.descData_Global) :
    boundLayout (s.trace ++ initCalls cfg env w h s) env.swapChainBlitDescHandle =
      some DescLayoutID.DESCLAYOUT_ID_SWAP_CHAIN_BLIT_TEX ∧
    boundLayout (s.trace ++ initCalls cfg env w h s) env.defaultQuad.m_descriptor =
      some DescLayoutID.DESCLAYOUT_ID_SWAP_CHAIN_BLIT_VBS ∧
    PipelineLayouts (s.trace ++ initCalls cfg env w h s) ShaderID.SHADER_ID_Pass1 1
      [DescLayoutID.DESCLAYOUT_ID_SWAP_CHAIN_BLIT_VBS] ∧
    PipelineLayouts (s.trace ++ initCalls cfg env w h s) ShaderID.SHADER_ID_Pass2 1
      [DescLayoutID.DESCLAYOUT_ID_SWAP_CHAIN_BLIT_VBS] ∧
    PipelineLayouts (s.trace ++ initCalls cfg env w h s) ShaderID.SHADER_ID_SWAP_CHAIN_BLIT 2
      [DescLayoutID.DESCLAYOUT_ID_SWAP_CHAIN_BLIT_TEX,
       DescLayoutID.DESCLAYOUT_ID_SWAP_CHAIN_BLIT_VBS] := by
  have g3 : ¬ env.defaultQuad.m_descriptor = env.swapChainBlitDescHandle := fun e => h3 e.symm
  have g4 : ¬ env.descData_Global = env.swapChainBlitDescHandle := fun e => h4 e.symm
  have g5 : ¬ env.descData_Global = env.defaultQuad.m_descriptor := fun e => h5 e.symm
  rw [initCalls_eq, LoadAllShaderResources_eq]
  refine ⟨?_, ?_, ?_⟩
  · simp only [boundLayout_append, List.foldl_append, List.nil_append,
      foldl_boundLayoutStep_LoadAllShaders, foldl_boundLayoutStep_declaredLayouts]
    simp [boundLayoutStep, g3, g4]
  · simp only [boundLayout_append, List.foldl_append, List.nil_append,
      foldl_boundLayoutStep_LoadAllShaders, foldl_boundLayoutStep_declaredLayouts]
    simp [boundLayoutStep, g5, h3]
  · have e : ∀ (a b c d : Trace), a ++ (b ++ ([] ++ c ++
        ShaderManager.LoadAllShaders cfg env.shaderResources.shaders w h []) ++ d) =
        (a ++ b ++ c ++ ShaderManager.LoadAllShaders cfg env.shaderResources.shaders w h []) ++ d := by
      intro a b c d; simp
    rw [e]
    obtain ⟨q1, q2, q3⟩ := PipelineLayouts_LoadAllShaders cfg env.shaderResources.shaders w h
      (s.trace ++ [BackendCall.GetPlatformWindowHandles, BackendCall.CreateContext w h,
        BackendCall.CoreMallocAligned
          (TINKER_PLATFORM_GRAPHICS_COMMAND_STREAM_MAX * cfg.sizeofGraphicsCommand) cfg.CACHE_LINE,
        BackendCall.AllocatorInit ShaderManager.totalShaderBytecodeMaxSizeInBytes 1] ++
        (ShaderManager.declaredLayouts cfg).map
          (ShaderManager.createLayoutCall env.shaderResources)) hD
    exact ⟨PipelineLayouts_append _ _ _ _ _ (by intro acc; simp [pipelineForStep]) q1,
      PipelineLayouts_append _ _ _ _ _ (by intro acc; simp [pipelineForStep]) q2,
      PipelineLayouts_append _ _ _ _ _ (by intro acc; simp [pipelineForStep]) q3⟩

theorem afterLazyInit_trace (cfg : PlatformConstants) (env : UpdateEnv) (w h : Nat) (s : GameState)
    (hi : s.isGameInitted = false) :
    (afterLazyInit cfg env w h s).trace = s.trace ++ initCalls cfg env.init w h s ∧
    (afterLazyInit cfg env w h s).gameGraphicsData.m_swapChainBlitDescHandle =
      env.init.swapChainBlitDescHandle ∧
    (afterLazyInit cfg env w h s).defaultQuad.m_descriptor = env.init.defaultQuad.m_descriptor := by
  rw [afterLazyInit_of_not_initted cfg env w h s hi]
  obtain ⟨g1, -, g3, -⟩ := GameInit_state cfg env.init w h
    { s with graphicsCommandStream := { s.graphicsCommandStream with m_numCommands := 0 } }
  simp only [g1, g3, GameInit_trace_eq, and_true]
  rw [initCalls_eq, initCalls_eq]

theorem DescriptorsBound_step (cfg : PlatformConstants)
    (hD : 2 ≤ cfg.MAX_DESCRIPTOR_SETS_PER_SHADER) (s : GameState) (c : EntryCall)
    (hs : DescriptorsBound s) (hc : c.descriptorsDistinct) : DescriptorsBound (step cfg s c) := by
  cases c with
  | update env w h =>
    intro _
    have e : step cfg s (EntryCall.update env w h) = (GameUpdate cfg env w h s).2 := rfl
    rw [e, GameUpdate_eq]
    unfold PipelineLayouts
    simp only [GameUpdate_frame_gameGraphicsData, GameUpdate_frame_defaultQuad,
      GameUpdate_frame_boundLayout, GameUpdate_frame_pipelineFor]
    cases hi : s.isGameInitted with
    | true =>
      rw [afterLazyInit_of_initted cfg env w h s hi]
      exact hs hi
    | false =>
      obtain ⟨t1, t2, t3⟩ := afterLazyInit_trace cfg env w h s hi
      obtain ⟨c1, c2, c3, c4, c5⟩ := hc
      rw [t1, t2, t3]
      obtain ⟨b1, b2, b3, b4, b5⟩ := DescriptorsBound_afterInit cfg env.init w h s hD c3 c4 c5
      exact ⟨c1, c2, b1, b2, b3, b4, b5⟩
  | resize env w h =>
    show DescriptorsBound (GameWindowResize cfg env w h s)
    by_cases hwh : w = 0 ∧ h = 0
    · obtain ⟨rfl, rfl⟩ := hwh
      rw [GameWindowResize_zero]
      intro hi
      obtain ⟨a1, a2, a3, a4, a5, a6, a7⟩ := hs hi
      refine ⟨a1, a2, ?_, ?_, ?_, ?_, ?_⟩
      · simp only [boundLayout_append]; simpa [boundLayoutStep] using a3
      · simp only [boundLayout_append]; simpa [boundLayoutStep] using a4
      · exact PipelineLayouts_append _ _ _ _ _ (by intro acc; simp [pipelineForStep]) a5
      · exact PipelineLayouts_append _ _ _ _ _ (by intro acc; simp [pipelineForStep]) a6
      · exact PipelineLayouts_append _ _ _ _ _ (by intro acc; simp [pipelineForStep]) a7
    · rw [GameWindowResize_nonzero cfg env w h s hwh]
      intro hi
      obtain ⟨a1, a2, a3, a4, -, -, -⟩ := hs hi
      have hne : s.gameGraphicsData.m_swapChainBlitDescHandle ≠ s.defaultQuad.m_descriptor := by
        intro x
        rw [x, a4] at a3
        cases a3
      have hne2 : ¬ s.defaultQuad.m_descriptor = s.gameGraphicsData.m_swapChainBlitDescHandle :=
        fun x => hne x.symm
      obtain ⟨q1, q2, q3⟩ := PipelineLayouts_LoadAllShaders cfg env.shaders w h
        (s.trace ++ [BackendCall.WindowResize]) hD
      refine ⟨a1, a2, ?_, ?_, ?_, ?_, ?_⟩
      · simp only [boundLayout_append, List.foldl_append, foldl_boundLayoutStep_LoadAllShaders]
        simp [boundLayoutStep, hne2]
      · simp only [boundLayout_append, List.foldl_append, foldl_boundLayoutStep_LoadAllShaders]
        simp [boundLayoutStep]
      · exact PipelineLayouts_append _ _ _ _ _ (by intro acc; simp [pipelineForStep]) q1
      · exact PipelineLayouts_append _ _ _ _ _ (by intro acc; simp [pipelineForStep]) q2
      · exact PipelineLayouts_append _ _ _ _ _ (by intro acc; simp [pipelineForStep]) q3

theorem DescriptorsBound_initial (cfg : PlatformConstants) :
    DescriptorsBound (GameState.initial cfg) := by
  intro h; cases h

theorem frameCommands_drawMatches (cfg : PlatformConstants) (w h : Nat) (X : GameState)
    (ui : List GraphicsCommand) (t : Trace) (hD : 2 ≤ cfg.MAX_DESCRIPTOR_SETS_PER_SHADER)
    (a1 : X.gameGraphicsData.m_swapChainBlitDescHandle ≠ DefaultDescHandle_Invalid)
    (a2 : X.defaultQuad.m_descriptor ≠ DefaultDescHandle_Invalid)
    (a3 : boundLayout t X.gameGraphicsData.m_swapChainBlitDescHandle =
      some DescLayoutID.DESCLAYOUT_ID_SWAP_CHAIN_BLIT_TEX)
    (a4 : boundLayout t X.defaultQuad.m_descriptor =
      some DescLayoutID.DESCLAYOUT_ID_SWAP_CHAIN_BLIT_VBS)
    (a5 : PipelineLayouts t ShaderID.SHADER_ID_Pass1 1
      [DescLayoutID.DESCLAYOUT_ID_SWAP_CHAIN_BLIT_VBS])
    (a6 : PipelineLayouts t ShaderID.SHADER_ID_Pass2 1
      [DescLayoutID.DESCLAYOUT_ID_SWAP_CHAIN_BLIT_VBS])
    (a7 : PipelineLayouts t ShaderID.SHADER_ID_SWAP_CHAIN_BLIT 2
      [DescLayoutID.DESCLAYOUT_ID_SWAP_CHAIN_BLIT_TEX,
       DescLayoutID.DESCLAYOUT_ID_SWAP_CHAIN_BLIT_VBS])
    (c : GraphicsCommand) (hc : c ∈ frameCommands cfg w h X ui) :
    c ∈ ui ∨ drawMatchesPipeline t c = true := by
  obtain ⟨x1, e1, n1, l1⟩ := a5
  obtain ⟨x2, e2, n2, l2⟩ := a6
  obtain ⟨x3, e3, n3, l3⟩ := a7
  obtain ⟨f2, -⟩ := filter_valid_set cfg.MAX_DESCRIPTOR_SETS_PER_SHADER
    X.gameGraphicsData.m_swapChainBlitDescHandle X.defaultQuad.m_descriptor hD a1 a2
  obtain ⟨-, g1⟩ := filter_valid_set cfg.MAX_DESCRIPTOR_SETS_PER_SHADER
    X.defaultQuad.m_descriptor X.defaultQuad.m_descriptor hD a2 a2
  obtain ⟨k2, -⟩ := take_two_set cfg.MAX_DESCRIPTOR_SETS_PER_SHADER DefaultDescHandle_Invalid
    X.gameGraphicsData.m_swapChainBlitDescHandle X.defaultQuad.m_descriptor hD
  obtain ⟨-, k1⟩ := take_two_set cfg.MAX_DESCRIPTOR_SETS_PER_SHADER DefaultDescHandle_Invalid
    X.defaultQuad.m_descriptor X.defaultQuad.m_descriptor hD
  simp only [frameCommands, colorBufferTransitionCommands, mainViewCommands, finalBlitCommands,
    List.mem_append, List.mem_cons, List.mem_singleton, List.not_mem_nil, or_false] at hc
  rcases hc with (((hc | hc) | hc) | hc) | hc
  · right; rcases hc with rfl | rfl | rfl <;> rfl
  · right; subst hc; rfl
  · right
    rcases hc with rfl | rfl | rfl | rfl | rfl | rfl | rfl
    · rfl
    · rfl
    · simp only [drawMatchesPipeline, e1, n1, l1, descriptorsAllInvalid, g1, k1]
      simp [a4]
    · rfl
    · simp only [drawMatchesPipeline, e2, n2, l2, descriptorsAllInvalid, g1, k1]
      simp [a4]
    · rfl
    · rfl
  · left; exact hc
  · right
    rcases hc with rfl | rfl | rfl | rfl | rfl | rfl | rfl
    · rfl
    · rfl
    · rfl
    · rfl
    · simp only [drawMatchesPipeline, e3, n3, l3, descriptorsAllInvalid, f2, k2]
      simp [a3, a4]
    · rfl
    · rfl

/-- C14: in every run from program start in which the backend hands out valid,
pairwise distinct descriptor handles and the descriptor arrays have at least two
slots, the stream of an acquired frame is `frameCommands`, and every draw in it
that is not one of the debug UI's commands matches the pipeline last built for
its shader: as many non-invalid entries in `m_descriptors` as `numDescLayouts`,
and at each index the layout id the descriptor was last created or written
under equal to the pipeline's.  `SHADER_ID_Pass1` and `SHADER_ID_Pass2` were
built with `[SWAP_CHAIN_BLIT_VBS]`, `SHADER_ID_SWAP_CHAIN_BLIT` with
`[SWAP_CHAIN_BLIT_TEX, SWAP_CHAIN_BLIT_VBS]`; `m_swapChainBlitDescHandle` is
bound to `SWAP_CHAIN_BLIT_TEX` and `defaultQuad.m_descriptor` to
`SWAP_CHAIN_BLIT_VBS`. -/
theorem draws_match_pipelines (cfg : PlatformConstants) (pre : List EntryCall)
    (env : UpdateEnv) (w h : Nat) (S : GameState)
    (hS : S = stateAfter cfg (pre ++ [EntryCall.update env w h]))
    (hD : 2 ≤ cfg.MAX_DESCRIPTOR_SETS_PER_SHADER)
    (hv : ∀ c ∈ pre ++ [EntryCall.update env w h], c.descriptorsDistinct)
    (ha : env.acquireFrame = true) (hn : 18 + env.debugUICommands.length < UINT32_RANGE) :
    S.graphicsCommandStream.contents =
      (frameCommands cfg w h S env.debugUICommands).map some ∧
    (∀ c ∈ frameCommands cfg w h S env.debugUICommands,
      c ∈ env.debugUICommands ∨ drawMatchesPipeline S.trace c = true) ∧
    PipelineLayouts S.trace ShaderID.SHADER_ID_Pass1 1
      [DescLayoutID.DESCLAYOUT_ID_SWAP_CHAIN_BLIT_VBS] ∧
    PipelineLayouts S.trace ShaderID.SHADER_ID_Pass2 1
      [DescLayoutID.DESCLAYOUT_ID_SWAP_CHAIN_BLIT_VBS] ∧
    PipelineLayouts S.trace ShaderID.SHADER_ID_SWAP_CHAIN_BLIT 2
      [DescLayoutID.DESCLAYOUT_ID_SWAP_CHAIN_BLIT_TEX,
       DescLayoutID.DESCLAYOUT_ID_SWAP_CHAIN_BLIT_VBS] ∧
    boundLayout S.trace S.gameGraphicsData.m_swapChainBlitDescHandle =
      some DescLayoutID.DESCLAYOUT_ID_SWAP_CHAIN_BLIT_TEX ∧
    boundLayout S.trace S.defaultQuad.m_descriptor =
      some DescLayoutID.DESCLAYOUT_ID_SWAP_CHAIN_BLIT_VBS ∧
    ((descriptorsAllInvalid cfg).set 0 S.defaultQuad.m_descriptor).take 1 =
      [S.defaultQuad.m_descriptor] ∧
    (((descriptorsAllInvalid cfg).set 0 S.gameGraphicsData.m_swapChainBlitDescHandle).set 1
      S.defaultQuad.m_descriptor).take 2 =
      [S.gameGraphicsData.m_swapChainBlitDescHandle, S.defaultQuad.m_descriptor] := by
  have hb : DescriptorsBound S := by
    rw [hS]
    exact run_invariant cfg DescriptorsBound EntryCall.descriptorsDistinct
      (DescriptorsBound_step cfg hD) _ _ (DescriptorsBound_initial cfg) hv
  have e := stateAfter_update cfg pre env w h
  have hinit : S.isGameInitted = true := by
    rw [hS, e]; exact GameUpdate_isGameInitted cfg env w h _
  obtain ⟨a1, a2, a3, a4, a5, a6, a7⟩ := hb hinit
  refine ⟨?_, frameCommands_drawMatches cfg w h S env.debugUICommands S.trace hD a1 a2 a3 a4 a5
    a6 a7, a5, a6, a7, a3, a4, ?_, ?_⟩
  · rw [hS, e]
    exact GameUpdate_contents_self cfg env w h _ ha hn
  · exact (take_two_set _ _ S.defaultQuad.m_descriptor S.defaultQuad.m_descriptor hD).2
  · exact (take_two_set _ _ _ _ hD).1

/-- Witness of C14: first update, a resize to 640 x 480, then the update whose
draws are examined. -/
theorem draws_match_pipelines_witness :
    boundLayout
        (stateAfter sampleConstants
          ([EntryCall.update sampleUpdateEnv 800 600, EntryCall.resize sampleResizeEnv 640 480] ++
            [EntryCall.update sampleUpdateEnv 640 480])).trace
        (stateAfter sampleConstants
          ([EntryCall.update sampleUpdateEnv 800 600, EntryCall.resize sampleResizeEnv 640 480] ++
            [EntryCall.update sampleUpdateEnv 640 480])).gameGraphicsData.m_swapChainBlitDescHandle =
      some DescLayoutID.DESCLAYOUT_ID_SWAP_CHAIN_BLIT_TEX ∧
    boundLayout
        (stateAfter sampleConstants
          ([EntryCall.update sampleUpdateEnv 800 600, EntryCall.resize sampleResizeEnv 640 480] ++
            [EntryCall.update sampleUpdateEnv 640 480])).trace
        (stateAfter sampleConstants
          ([EntryCall.update sampleUpdateEnv 800 600, EntryCall.resize sampleResizeEnv 640 480] ++
            [EntryCall.update sampleUpdateEnv 640 480])).defaultQuad.m_descriptor =
      some DescLayoutID.DESCLAYOUT_ID_SWAP_CHAIN_BLIT_VBS :=
  have H := draws_match_pipelines sampleConstants
    [EntryCall.update sampleUpdateEnv 800 600, EntryCall.resize sampleResizeEnv 640 480]
    sampleUpdateEnv 640 480 _ rfl (by decide)
    (by
      intro c hc
      simp only [List.cons_append, List.nil_append, List.mem_cons, List.mem_singleton,
        List.not_mem_nil, or_false] at hc
      rcases hc with rfl | rfl | rfl
      · exact ⟨by decide, by decide, by decide, by decide, by decide⟩
      · exact trivial
      · exact ⟨by decide, by decide, by decide, by decide, by decide⟩)
    rfl (by decide)
  ⟨H.2.2.2.2.2.1, H.2.2.2.2.2.2.1⟩

/-! ## Attachment formats of pipelines and render passes -/

theorem targetFormat_append (t u : Trace) (x : ResourceHandle) (hx : x.isCreated = true) :
    targetFormat (t ++ u) x = u.foldl (targetFormatStep x) (targetFormat t x) := by
  cases x with
  | invalid => cases hx
  | swapChain => cases hx
  | created n => simp [targetFormat, List.foldl_append]

theorem foldl_targetFormatStep_LoadAllShaders (cfg : PlatformConstants)
    (env : ShaderManager.ShaderEnv) (w h : Nat) (x : ResourceHandle) (acc : Option ImageFormat) :
    (ShaderManager.LoadAllShaders cfg env w h []).foldl (targetFormatStep x) acc = acc := by
  obtain ⟨p0, p1, p2, p3, p4, p5, p6⟩ := ShaderManager.shaderFilePath_values
  simp [ShaderManager.LoadAllShaders, ShaderManager.LoadShader, ShaderManager.loadStage,
    p0, p1, p2, p3, p4, p5, p6, targetFormatStep]

theorem foldl_targetFormatStep_declaredLayouts (cfg : PlatformConstants)
    (env : ShaderManager.ShaderResourcesEnv) (x : ResourceHandle) (acc : Option ImageFormat) :
    ((ShaderManager.declaredLayouts cfg).map (ShaderManager.createLayoutCall env)).foldl
      (targetFormatStep x) acc = acc := by
  simp [ShaderManager.declaredLayouts, ShaderManager.createLayoutCall, targetFormatStep]

theorem GameUpdate_frame_targetFormat (cfg : PlatformConstants) (env : UpdateEnv) (w h : Nat)
    (s : GameState) (x : ResourceHandle) :
    targetFormat (GameUpdate_frame cfg env w h s).2.trace x = targetFormat s.trace x := by
  unfold GameUpdate_frame
  cases x <;> cases ha : env.acquireFrame <;> cases hm : s.isWindowMinimized <;>
    simp [GameState.emit, isMultiplayer, hm, processCommandStream, recordFinalBlit, recordDebugUI,
      recordMainView, recordFrameStartTimestamp, recordColorBufferTransitions,
      GameState.writeCommand, GameState.incrNumCommands, targetFormat, List.foldl_append,
      targetFormatStep]

theorem PipelineFormats_LoadAllShaders (cfg : PlatformConstants) (env : ShaderManager.ShaderEnv)
    (w h : Nat) (t : Trace) (hR : 1 ≤ cfg.MAX_MULTIPLE_RENDERTARGETS) :
    PipelineFormats (t ++ ShaderManager.LoadAllShaders cfg env w h []) ShaderID.SHADER_ID_Pass1
      ImageFormat.RGBA8_SRGB ∧
    PipelineFormats (t ++ ShaderManager.LoadAllShaders cfg env w h []) ShaderID.SHADER_ID_Pass2
      ImageFormat.RGBA8_SRGB ∧
    PipelineFormats (t ++ ShaderManager.LoadAllShaders cfg env w h [])
      ShaderID.SHADER_ID_SWAP_CHAIN_BLIT ImageFormat.TheSwapChainFormat := by
  obtain ⟨p0, p1, p2, p3, p4, p5, p6⟩ := ShaderManager.shaderFilePath_values
  obtain ⟨a1, a2, a3, a4⟩ := singleColorFormats_values cfg ImageFormat.TheSwapChainFormat hR
    (by decide)
  obtain ⟨b1, b2, b3, b4⟩ := singleColorFormats_values cfg ImageFormat.RGBA8_SRGB hR (by decide)
  simp only [ne_eq, decide_not] at a3 b3
  refine ⟨?_, ?_, ?_⟩ <;>
  · unfold PipelineFormats
    rw [pipelineFor_append]
    simp [ShaderManager.LoadAllShaders, ShaderManager.LoadShader, ShaderManager.loadStage,
      p0, p1, p2, p3, p4, p5, p6, pipelineForStep, a1, a2, a3, a4, b1, b2, b3, b4]

theorem PipelineFormats_append (t u : Trace) (sh : ShaderID) (fmt : ImageFormat)
    (hu : ∀ acc, u.foldl (pipelineForStep sh) acc = acc) (hp : PipelineFormats t sh fmt) :
    PipelineFormats (t ++ u) sh fmt := by
  unfold PipelineFormats at hp ⊢
  rw [pipelineFor_append, hu]
  exact hp

theorem targetFormat_afterInit (cfg : PlatformConstants) (env : InitEnv) (w h : Nat)
    (s : GameState) (hv : env.rtColorHandle.isCreated = true) :
    targetFormat (s.trace ++ initCalls cfg env w h s) env.rtColorHandle =
      some ImageFormat.RGBA8_SRGB := by
  rw [targetFormat_append _ _ _ hv, initCalls_eq, LoadAllShaderResources_eq]
  simp only [List.foldl_append, List.nil_append, foldl_targetFormatStep_LoadAllShaders,
    foldl_targetFormatStep_declaredLayouts]
  simp [targetFormatStep, mainViewColorDesc, globalBufferDesc]

theorem PipelineFormats_afterInit (cfg : PlatformConstants) (env : InitEnv) (w h : Nat)
    (s : GameState) (hR : 1 ≤ cfg.MAX_MULTIPLE_RENDERTARGETS) :
    PipelineFormats (s.trace ++ initCalls cfg env w h s) ShaderID.SHADER_ID_Pass1
      ImageFormat.RGBA8_SRGB ∧
    PipelineFormats (s.trace ++ initCalls cfg env w h s) ShaderID.SHADER_ID_Pass2
      ImageFormat.RGBA8_SRGB ∧
    PipelineFormats (s.trace ++ initCalls cfg env w h s) ShaderID.SHADER_ID_SWAP_CHAIN_BLIT
      ImageFormat.TheSwapChainFormat := by
  rw [initCalls_eq, LoadAllShaderResources_eq]
  have e : ∀ (a b c d : Trace), a ++ (b ++ ([] ++ c ++
      ShaderManager.LoadAllShaders cfg env.shaderResources.shaders w h []) ++ d) =
      (a ++ b ++ c ++ ShaderManager.LoadAllShaders cfg env.shaderResources.shaders w h []) ++ d := by
    intro a b c d; simp
  rw [e]
  obtain ⟨q1, q2, q3⟩ := PipelineFormats_LoadAllShaders cfg env.shaderResources.shaders w h
    (s.trace ++ [BackendCall.GetPlatformWindowHandles, BackendCall.CreateContext w h,
      BackendCall.CoreMallocAligned
        (TINKER_PLATFORM_GRAPHICS_COMMAND_STREAM_MAX * cfg.sizeofGraphicsCommand) cfg.CACHE_LINE,
      BackendCall.AllocatorInit ShaderManager.totalShaderBytecodeMaxSizeInBytes 1] ++
      (ShaderManager.declaredLayouts cfg).map
        (ShaderManager.createLayoutCall env.shaderResources)) hR
  exact ⟨PipelineFormats_append _ _ _ _ (by intro acc; simp [pipelineForStep]) q1,
    PipelineFormats_append _ _ _ _ (by intro acc; simp [pipelineForStep]) q2,
    PipelineFormats_append _ _ _ _ (by intro acc; simp [pipelineForStep]) q3⟩

theorem afterLazyInit_formats (cfg : PlatformConstants) (env : UpdateEnv) (w h : Nat)
    (s : GameState) (hi : s.isGameInitted = false) :
    (afterLazyInit cfg env w h s).trace = s.trace ++ initCalls cfg env.init w h s ∧
    (afterLazyInit cfg env w h s).gameGraphicsData.m_rtColorHandle = env.init.rtColorHandle ∧
    (afterLazyInit cfg env w h s).mainViewPass.numColorRTs = 1 ∧
    (afterLazyInit cfg env w h s).mainViewPass.colorRTs =
      (List.replicate cfg.MAX_MULTIPLE_RENDERTARGETS DefaultResHandle_Invalid).set 0
        env.init.rtColorHandle ∧
    (afterLazyInit cfg env w h s).mainViewPass.depthRT = DefaultResHandle_Invalid := by
  refine ⟨(afterLazyInit_trace cfg env w h s hi).1, ?_⟩
  rw [afterLazyInit_of_not_initted cfg env w h s hi]
  obtain ⟨g1, g2, -, -⟩ := GameInit_state cfg env.init w h
    { s with graphicsCommandStream := { s.graphicsCommandStream with m_numCommands := 0 } }
  simp only [g1, g2, and_self]

theorem FormatsBound_step (cfg : PlatformConstants) (hR : 1 ≤ cfg.MAX_MULTIPLE_RENDERTARGETS)
    (s : GameState) (c : EntryCall) (hs : FormatsBound s) (hc : c.targetCreated) :
    FormatsBound (step cfg s c) := by
  cases c with
  | update env w h =>
    intro _
    have e : step cfg s (EntryCall.update env w h) = (GameUpdate cfg env w h s).2 := rfl
    rw [e, GameUpdate_eq]
    unfold PipelineFormats
    simp only [GameUpdate_frame_gameGraphicsData, GameUpdate_frame_mainViewPass,
      GameUpdate_frame_targetFormat, GameUpdate_frame_pipelineFor]
    cases hi : s.isGameInitted with
    | true =>
      rw [afterLazyInit_of_initted cfg env w h s hi]
      exact hs hi
    | false =>
      obtain ⟨t1, t2, t3, t4, t5⟩ := afterLazyInit_formats cfg env w h s hi
      rw [t1, t2, t3, t4, t5]
      obtain ⟨b1, b2, b3⟩ := PipelineFormats_afterInit cfg env.init w h s hR
      exact ⟨rfl, take_one_set_zero _ _ _ hR, rfl, hc, targetFormat_afterInit cfg env.init w h s hc,
        b1, b2, b3⟩
  | resize env w h =>
    show FormatsBound (GameWindowResize cfg env w h s)
    by_cases hwh : w = 0 ∧ h = 0
    · obtain ⟨rfl, rfl⟩ := hwh
      rw [GameWindowResize_zero]
      intro hi
      obtain ⟨a1, a2, a3, a4, a5, a6, a7, a8⟩ := hs hi
      refine ⟨a1, a2, a3, a4, ?_, ?_, ?_, ?_⟩
      · have x := targetFormat_append s.trace [BackendCall.WindowMinimized] _ a4
        simp only [List.foldl, targetFormatStep] at x
        rw [← a5]; exact x
      · exact PipelineFormats_append _ _ _ _ (by intro acc; simp [pipelineForStep]) a6
      · exact PipelineFormats_append _ _ _ _ (by intro acc; simp [pipelineForStep]) a7
      · exact PipelineFormats_append _ _ _ _ (by intro acc; simp [pipelineForStep]) a8
    · rw [GameWindowResize_nonzero cfg env w h s hwh]
      intro _
      obtain ⟨q1, q2, q3⟩ := PipelineFormats_LoadAllShaders cfg env.shaders w h
        (s.trace ++ [BackendCall.WindowResize]) hR
      refine ⟨rfl, take_one_set_zero _ _ _ hR, rfl, hc, ?_, ?_, ?_, ?_⟩
      · have x := targetFormat_append (s.trace ++ [BackendCall.WindowResize] ++
          ShaderManager.LoadAllShaders cfg env.shaders w h [])
          [ BackendCall.DestroyResource s.gameGraphicsData.m_rtColorHandle,
            BackendCall.CreateResource (mainViewColorDesc w h) env.rtColorHandle,
            BackendCall.WriteDescriptor DescLayoutID.DESCLAYOUT_ID_SWAP_CHAIN_BLIT_TEX
              s.gameGraphicsData.m_swapChainBlitDescHandle
              ((DescriptorSetDataHandles.InitInvalid cfg).setHandle 0 env.rtColorHandle),
            BackendCall.WriteDescriptor DescLayoutID.DESCLAYOUT_ID_SWAP_CHAIN_BLIT_VBS
              s.defaultQuad.m_descriptor (vbHandles cfg s) ] env.rtColorHandle hc
        simp only [x]
        simp [targetFormatStep, mainViewColorDesc]
      · exact PipelineFormats_append _ _ _ _ (by intro acc; simp [pipelineForStep]) q1
      · exact PipelineFormats_append _ _ _ _ (by intro acc; simp [pipelineForStep]) q2
      · exact PipelineFormats_append _ _ _ _ (by intro acc; simp [pipelineForStep]) q3

theorem FormatsBound_initial (cfg : PlatformConstants) : FormatsBound (GameState.initial cfg) := by
  intro h; cases h

theorem enclosingPass_append (xs ys : List GraphicsCommand) :
    enclosingPass (xs ++ ys) = ys.foldl enclosingPassStep (enclosingPass xs) := by
  simp [enclosingPass, List.foldl_append]

theorem frameCommands_passesAgree (cfg : PlatformConstants) (w h : Nat) (X : GameState)
    (ui : List GraphicsCommand) (t : Trace)
    (a1 : X.mainViewPass.numColorRTs = 1)
    (a2 : X.mainViewPass.colorRTs.take 1 = [X.gameGraphicsData.m_rtColorHandle])
    (a3 : X.mainViewPass.depthRT = DefaultResHandle_Invalid)
    (a5 : targetFormat t X.gameGraphicsData.m_rtColorHandle = some ImageFormat.RGBA8_SRGB)
    (a6 : PipelineFormats t ShaderID.SHADER_ID_Pass1 ImageFormat.RGBA8_SRGB)
    (a7 : PipelineFormats t ShaderID.SHADER_ID_Pass2 ImageFormat.RGBA8_SRGB)
    (a8 : PipelineFormats t ShaderID.SHADER_ID_SWAP_CHAIN_BLIT ImageFormat.TheSwapChainFormat)
    (i : Nat) (c : GraphicsCommand) (hc : (frameCommands cfg w h X ui).get? i = some c)
    (hi : i < 11 ∨ 11 + ui.length ≤ i) :
    drawAgreesWithPass t (enclosingPass ((frameCommands cfg w h X ui).take i)) c = true := by
  obtain ⟨x1, e1, n1, l1, -, d1⟩ := a6
  obtain ⟨x2, e2, n2, l2, -, d2⟩ := a7
  obtain ⟨x3, e3, n3, l3, -, d3⟩ := a8
  have hP : (colorBufferTransitionCommands X ++
      [GraphicsCommand.eTimestamp "Begin Frame" "Timestamp" true] ++
      mainViewCommands cfg w h X ++ ui).length = 11 + ui.length := by
    simp [colorBufferTransitionCommands, mainViewCommands]; omega
  rcases hi with hi | hi
  · interval_cases i
    · simp [frameCommands, colorBufferTransitionCommands] at hc; subst hc; rfl
    · simp [frameCommands, colorBufferTransitionCommands] at hc; subst hc; rfl
    · simp [frameCommands, colorBufferTransitionCommands] at hc; subst hc; rfl
    · simp [frameCommands, colorBufferTransitionCommands] at hc; subst hc; rfl
    · simp [frameCommands, colorBufferTransitionCommands, mainViewCommands] at hc; subst hc; rfl
    · simp [frameCommands, colorBufferTransitionCommands, mainViewCommands] at hc; subst hc; rfl
    · simp [frameCommands, colorBufferTransitionCommands, mainViewCommands] at hc
      subst hc
      simp [frameCommands, colorBufferTransitionCommands, mainViewCommands, enclosingPass,
        enclosingPassStep, drawAgreesWithPass, e1, n1, l1, d1, a1, a2, a3, a5, depthFormatOf]
    · simp [frameCommands, colorBufferTransitionCommands, mainViewCommands] at hc; subst hc; rfl
    · simp [frameCommands, colorBufferTransitionCommands, mainViewCommands] at hc
      subst hc
      simp [frameCommands, colorBufferTransitionCommands, mainViewCommands, enclosingPass,
        enclosingPassStep, drawAgreesWithPass, e2, n2, l2, d2, a1, a2, a3, a5, depthFormatOf]
    · simp [frameCommands, colorBufferTransitionCommands, mainViewCommands] at hc; subst hc; rfl
    · simp [frameCommands, colorBufferTransitionCommands, mainViewCommands] at hc; subst hc; rfl
  · obtain ⟨j, rfl⟩ : ∃ j, i = 11 + ui.length + j := ⟨i - (11 + ui.length), by omega⟩
    unfold frameCommands at hc ⊢
    rw [get?_past _ _ j _ (by rw [hP])] at hc
    rw [take_past _ _ j _ (by rw [hP]), enclosingPass_append]
    have hj : j < 7 := by
      by_contra hge
      have : (finalBlitCommands cfg w h X).length ≤ j := by
        simp [finalBlitCommands]; omega
      rw [List.get?_eq_none.mpr this] at hc
      cases hc
    interval_cases j
    · simp [finalBlitCommands] at hc; subst hc; rfl
    · simp [finalBlitCommands] at hc; subst hc; rfl
    · simp [finalBlitCommands] at hc; subst hc; rfl
    · simp [finalBlitCommands] at hc; subst hc; rfl
    · simp [finalBlitCommands] at hc
      subst hc
      simp [finalBlitCommands, enclosingPassStep, drawAgreesWithPass, e3, n3, l3, d3,
        depthFormatOf, targetFormat, IMAGE_HANDLE_SWAP_CHAIN]
    · simp [finalBlitCommands] at hc; subst hc; rfl
    · simp [finalBlitCommands] at hc; subst hc; rfl

theorem frameCommands_drawPasses (cfg : PlatformConstants) (w h : Nat) (X : GameState)
    (ui : List GraphicsCommand) :
    ((frameCommands cfg w h X ui).get? 6 =
        some (GraphicsCommand.eDrawCall "Draw default quad" cfg.DEFAULT_QUAD_NUM_INDICES 1 0 0
          X.defaultQuad.indexBufferHandle ShaderID.SHADER_ID_Pass1 BlendState.eReplace
          DepthState.eOff_NoCull ((descriptorsAllInvalid cfg).set 0 X.defaultQuad.m_descriptor)) ∧
      enclosingPass ((frameCommands cfg w h X ui).take 6) =
        some (GraphicsCommand.eRenderPassBegin X.mainViewPass.debugLabel
          X.mainViewPass.numColorRTs (X.mainViewPass.colorRTs.take X.mainViewPass.numColorRTs)
          X.mainViewPass.depthRT X.mainViewPass.renderWidth X.mainViewPass.renderHeight)) ∧
    ((frameCommands cfg w h X ui).get? 8 =
        some (GraphicsCommand.eDrawCall "Draw default quad" cfg.DEFAULT_QUAD_NUM_INDICES 1 0 0
          X.defaultQuad.indexBufferHandle ShaderID.SHADER_ID_Pass2 BlendState.eReplace
          DepthState.eOff_NoCull ((descriptorsAllInvalid cfg).set 0 X.defaultQuad.m_descriptor)) ∧
      enclosingPass ((frameCommands cfg w h X ui).take 8) =
        some (GraphicsCommand.eRenderPassBegin X.mainViewPass.debugLabel
          X.mainViewPass.numColorRTs (X.mainViewPass.colorRTs.take X.mainViewPass.numColorRTs)
          X.mainViewPass.depthRT X.mainViewPass.renderWidth X.mainViewPass.renderHeight)) ∧
    ((frameCommands cfg w h X ui).get? (15 + ui.length) =
        some (GraphicsCommand.eDrawCall "Draw default quad" cfg.DEFAULT_QUAD_NUM_INDICES 1 0 0
          X.defaultQuad.indexBufferHandle ShaderID.SHADER_ID_SWAP_CHAIN_BLIT BlendState.eReplace
          DepthState.eOff_NoCull
          (((descriptorsAllInvalid cfg).set 0 X.gameGraphicsData.m_swapChainBlitDescHandle).set 1
            X.defaultQuad.m_descriptor)) ∧
      enclosingPass ((frameCommands cfg w h X ui).take (15 + ui.length)) =
        some (GraphicsCommand.eRenderPassBegin "Blit to swap chain" 1 [IMAGE_HANDLE_SWAP_CHAIN]
          DefaultResHandle_Invalid w h)) := by
  have hP : (colorBufferTransitionCommands X ++
      [GraphicsCommand.eTimestamp "Begin Frame" "Timestamp" true] ++
      mainViewCommands cfg w h X ++ ui).length = 11 + ui.length := by
    simp [colorBufferTransitionCommands, mainViewCommands]; omega
  refine ⟨⟨?_, ?_⟩, ⟨?_, ?_⟩, ⟨?_, ?_⟩⟩
  · simp [frameCommands, colorBufferTransitionCommands, mainViewCommands]
  · simp [frameCommands, colorBufferTransitionCommands, mainViewCommands, enclosingPass,
      enclosingPassStep]
  · simp [frameCommands, colorBufferTransitionCommands, mainViewCommands]
  · simp [frameCommands, colorBufferTransitionCommands, mainViewCommands, enclosingPass,
      enclosingPassStep]
  · unfold frameCommands
    rw [get?_past _ _ 4 _ (by rw [hP]; omega)]
    simp [finalBlitCommands]
  · unfold frameCommands
    rw [take_past _ _ 4 _ (by rw [hP]; omega), enclosingPass_append]
    simp [finalBlitCommands, enclosingPassStep]

/-- C16: with at least one render-target slot, the pipelines that
`LoadAllShaders` builds declare one colour format each and an invalid depth
format: `TheSwapChainFormat` for `SHADER_ID_SWAP_CHAIN_BLIT`, `RGBA8_SRGB` for
`SHADER_ID_Pass1` and `SHADER_ID_Pass2` (and the debug UI); after `GameInit` and
after every `GameWindowResize` to a size other than (0,0) the main pass has one
colour target, the handle returned for a resource created as `RGBA8_SRGB`, and
an invalid depth target; the stream of an acquired frame holds the main-pass
begin carrying those fields and a blit-pass begin with one colour target,
`IMAGE_HANDLE_SWAP_CHAIN`, and an invalid depth target.  And in every run from
program start whose main colour targets are created resources, the stream of an
acquired frame is `frameCommands`, and every draw in it that is not one of the
debug UI's commands agrees with the render pass it is recorded in, that is the
last pass begun before it and not yet ended: the pipeline last built for the
draw's `m_shader` declares as many colour targets as the pass has, the formats
of the images created under the pass's colour targets (the swap-chain format
for `IMAGE_HANDLE_SWAP_CHAIN`) are the pipeline's colour formats, and the
pipeline's depth format is that of the pass's depth target (`Invalid` for the
invalid handle).  The draws at indices 6 and 8 use `SHADER_ID_Pass1` and
`SHADER_ID_Pass2` inside the main pass, the draw at index 15 plus the number of
debug UI commands uses `SHADER_ID_SWAP_CHAIN_BLIT` inside the blit pass; the
pipelines last built for the three shaders declare exactly one colour format,
`RGBA8_SRGB`, `RGBA8_SRGB` and `TheSwapChainFormat`, and an invalid depth
format; the main pass has one colour target, the main colour target, last
created as an `RGBA8_SRGB` image, and an invalid depth target. -/
theorem attachment_formats_agree (cfg : PlatformConstants) (senv : ShaderManager.ShaderEnv)
    (ienv : InitEnv) (renv : ResizeEnv) (env : UpdateEnv) (w h W H : Nat) (s0 s1 s : GameState)
    (pre : List EntryCall) (S : GameState)
    (hS : S = stateAfter cfg (pre ++ [EntryCall.update env w h]))
    (hR : 1 ≤ cfg.MAX_MULTIPLE_RENDERTARGETS) (hwh : ¬ (W = 0 ∧ H = 0))
    (hi : s.isGameInitted = true) (ha : env.acquireFrame = true)
    (hn : 18 + env.debugUICommands.length < UINT32_RANGE)
    (hv : ∀ c ∈ pre ++ [EntryCall.update env w h], c.targetCreated) :
    (pipelineCalls (ShaderManager.LoadAllShaders cfg senv w h [])).map PipelineArgs.attachments =
      [ (ShaderID.SHADER_ID_SWAP_CHAIN_BLIT, 1, [ImageFormat.TheSwapChainFormat],
          [ImageFormat.TheSwapChainFormat], ImageFormat.Invalid),
        (ShaderID.SHADER_ID_IMGUI_DEBUGUI, 1, [ImageFormat.RGBA8_SRGB],
          [ImageFormat.RGBA8_SRGB], ImageFormat.Invalid),
        (ShaderID.SHADER_ID_Pass1, 1, [ImageFormat.RGBA8_SRGB],
          [ImageFormat.RGBA8_SRGB], ImageFormat.Invalid),
        (ShaderID.SHADER_ID_Pass2, 1, [ImageFormat.RGBA8_SRGB],
          [ImageFormat.RGBA8_SRGB], ImageFormat.Invalid) ] ∧
    (mainViewColorDesc w h).imageFormat = some ImageFormat.RGBA8_SRGB ∧
    ((GameInit cfg ienv w h s0).2.mainViewPass.numColorRTs = 1 ∧
      (GameInit cfg ienv w h s0).2.mainViewPass.colorRTs.take 1 = [ienv.rtColorHandle] ∧
      (GameInit cfg ienv w h s0).2.mainViewPass.depthRT = DefaultResHandle_Invalid ∧
      BackendCall.CreateResource (mainViewColorDesc w h) ienv.rtColorHandle ∈
        initCalls cfg ienv w h s0) ∧
    ((GameWindowResize cfg renv W H s1).mainViewPass.numColorRTs = 1 ∧
      (GameWindowResize cfg renv W H s1).mainViewPass.colorRTs.take 1 = [renv.rtColorHandle] ∧
      (GameWindowResize cfg renv W H s1).mainViewPass.depthRT = DefaultResHandle_Invalid ∧
      BackendCall.CreateResource (mainViewColorDesc W H) renv.rtColorHandle ∈
        (GameWindowResize cfg renv W H s1).trace.drop s1.trace.length) ∧
    some (GraphicsCommand.eRenderPassBegin s.mainViewPass.debugLabel s.mainViewPass.numColorRTs
        (s.mainViewPass.colorRTs.take s.mainViewPass.numColorRTs) s.mainViewPass.depthRT
        s.mainViewPass.renderWidth s.mainViewPass.renderHeight) ∈
      (GameUpdate cfg env w h s).2.graphicsCommandStream.contents ∧
    some (GraphicsCommand.eRenderPassBegin "Blit to swap chain" 1 [IMAGE_HANDLE_SWAP_CHAIN]
        DefaultResHandle_Invalid w h) ∈
      (GameUpdate cfg env w h s).2.graphicsCommandStream.contents ∧
    S.graphicsCommandStream.contents =
      (frameCommands cfg w h S env.debugUICommands).map some ∧
    (∀ i c, (frameCommands cfg w h S env.debugUICommands).get? i = some c →
      (i < 11 ∨ 11 + env.debugUICommands.length ≤ i) →
      drawAgreesWithPass S.trace
        (enclosingPass ((frameCommands cfg w h S env.debugUICommands).take i)) c = true) ∧
    ((frameCommands cfg w h S env.debugUICommands).get? 6 =
        some (GraphicsCommand.eDrawCall "Draw default quad" cfg.DEFAULT_QUAD_NUM_INDICES 1 0 0
          S.defaultQuad.indexBufferHandle ShaderID.SHADER_ID_Pass1 BlendState.eReplace
          DepthState.eOff_NoCull ((descriptorsAllInvalid cfg).set 0 S.defaultQuad.m_descriptor)) ∧
      enclosingPass ((frameCommands cfg w h S env.debugUICommands).take 6) =
        some (GraphicsCommand.eRenderPassBegin S.mainViewPass.debugLabel 1
          [S.gameGraphicsData.m_rtColorHandle] DefaultResHandle_Invalid
          S.mainViewPass.renderWidth S.mainViewPass.renderHeight)) ∧
    ((frameCommands cfg w h S env.debugUICommands).get? 8 =
        some (GraphicsCommand.eDrawCall "Draw default quad" cfg.DEFAULT_QUAD_NUM_INDICES 1 0 0
          S.defaultQuad.indexBufferHandle ShaderID.SHADER_ID_Pass2 BlendState.eReplace
          DepthState.eOff_NoCull ((descriptorsAllInvalid cfg).set 0 S.defaultQuad.m_descriptor)) ∧
      enclosingPass ((frameCommands cfg w h S env.debugUICommands).take 8) =
        some (GraphicsCommand.eRenderPassBegin S.mainViewPass.debugLabel 1
          [S.gameGraphicsData.m_rtColorHandle] DefaultResHandle_Invalid
          S.mainViewPass.renderWidth S.mainViewPass.renderHeight)) ∧
    ((frameCommands cfg w h S env.debugUICommands).get? (15 + env.debugUICommands.length) =
        some (GraphicsCommand.eDrawCall "Draw default quad" cfg.DEFAULT_QUAD_NUM_INDICES 1 0 0
          S.defaultQuad.indexBufferHandle ShaderID.SHADER_ID_SWAP_CHAIN_BLIT BlendState.eReplace
          DepthState.eOff_NoCull
          (((descriptorsAllInvalid cfg).set 0 S.gameGraphicsData.m_swapChainBlitDescHandle).set 1
            S.defaultQuad.m_descriptor)) ∧
      enclosingPass ((frameCommands cfg w h S env.debugUICommands).take
          (15 + env.debugUICommands.length)) =
        some (GraphicsCommand.eRenderPassBegin "Blit to swap chain" 1 [IMAGE_HANDLE_SWAP_CHAIN]
          DefaultResHandle_Invalid w h)) ∧
    PipelineFormats S.trace ShaderID.SHADER_ID_Pass1 ImageFormat.RGBA8_SRGB ∧
    PipelineFormats S.trace ShaderID.SHADER_ID_Pass2 ImageFormat.RGBA8_SRGB ∧
    PipelineFormats S.trace ShaderID.SHADER_ID_SWAP_CHAIN_BLIT ImageFormat.TheSwapChainFormat ∧
    targetFormat S.trace S.gameGraphicsData.m_rtColorHandle = some ImageFormat.RGBA8_SRGB ∧
    targetFormat S.trace IMAGE_HANDLE_SWAP_CHAIN = some ImageFormat.TheSwapChainFormat ∧
    depthFormatOf S.trace DefaultResHandle_Invalid = some ImageFormat.Invalid := by
  have hb : FormatsBound S := by
    rw [hS]
    exact run_invariant cfg FormatsBound EntryCall.targetCreated (FormatsBound_step cfg hR) _ _
      (FormatsBound_initial cfg) hv
  have e := stateAfter_update cfg pre env w h
  have hinit : S.isGameInitted = true := by
    rw [hS, e]; exact GameUpdate_isGameInitted cfg env w h _
  obtain ⟨a1, a2, a3, -, a5, a6, a7, a8⟩ := hb hinit
  obtain ⟨⟨d1, d2⟩, ⟨d3, d4⟩, d5, d6⟩ :=
    frameCommands_drawPasses cfg w h S env.debugUICommands
  rw [a1, a2, a3] at d2 d4
  refine ⟨pipelineCalls_LoadAllShaders cfg senv w h hR, rfl, ?_, ?_, ?_, ?_, ?_,
    frameCommands_passesAgree cfg w h S env.debugUICommands S.trace a1 a2 a3 a5 a6 a7 a8,
    ⟨d1, d2⟩, ⟨d3, d4⟩, ⟨d5, d6⟩, a6, a7, a8, a5, rfl, rfl⟩
  · obtain ⟨-, g2, -, -⟩ := GameInit_state cfg ienv w h s0
    rw [g2, initCalls_eq]
    refine ⟨rfl, take_one_set_zero _ _ _ hR, rfl, ?_⟩
    simp
  · rw [GameWindowResize_nonzero cfg renv W H s1 hwh]
    refine ⟨rfl, take_one_set_zero _ _ _ hR, rfl, ?_⟩
    simp
  · rw [GameUpdate_contents_of_initted cfg env w h s hi ha hn]
    simp [frameCommands, mainViewCommands]
  · rw [GameUpdate_contents_of_initted cfg env w h s hi ha hn]
    simp [frameCommands, finalBlitCommands]
  · rw [hS, e]
    exact GameUpdate_contents_self cfg env w h _ ha hn

/-- Witness of C16 on the sample game: a first update at 800 x 600, a resize to
640 x 480, then the update whose draws are examined. -/
theorem attachment_formats_agree_witness :
    (pipelineCalls (ShaderManager.LoadAllShaders sampleConstants sampleShaderEnv 640 480 [])).map
        PipelineArgs.attachments =
      [ (ShaderID.SHADER_ID_SWAP_CHAIN_BLIT, 1, [ImageFormat.TheSwapChainFormat],
          [ImageFormat.TheSwapChainFormat], ImageFormat.Invalid),
        (ShaderID.SHADER_ID_IMGUI_DEBUGUI, 1, [ImageFormat.RGBA8_SRGB],
          [ImageFormat.RGBA8_SRGB], ImageFormat.Invalid),
        (ShaderID.SHADER_ID_Pass1, 1, [ImageFormat.RGBA8_SRGB],
          [ImageFormat.RGBA8_SRGB], ImageFormat.Invalid),
        (ShaderID.SHADER_ID_Pass2, 1, [ImageFormat.RGBA8_SRGB],
          [ImageFormat.RGBA8_SRGB], ImageFormat.Invalid) ] ∧
    enclosingPass
        ((frameCommands sampleConstants 640 480
          (stateAfter sampleConstants
            ([EntryCall.update sampleUpdateEnv 800 600, EntryCall.resize sampleResizeEnv 640 480] ++
              [EntryCall.update sampleUpdateEnv 640 480]))
          sampleUpdateEnv.debugUICommands).take 6) =
      some (GraphicsCommand.eRenderPassBegin
        (stateAfter sampleConstants
          ([EntryCall.update sampleUpdateEnv 800 600, EntryCall.resize sampleResizeEnv 640 480] ++
            [EntryCall.update sampleUpdateEnv 640 480])).mainViewPass.debugLabel 1
        [(stateAfter sampleConstants
          ([EntryCall.update sampleUpdateEnv 800 600, EntryCall.resize sampleResizeEnv 640 480] ++
            [EntryCall.update sampleUpdateEnv 640 480])).gameGraphicsData.m_rtColorHandle]
        DefaultResHandle_Invalid
        (stateAfter sampleConstants
          ([EntryCall.update sampleUpdateEnv 800 600, EntryCall.resize sampleResizeEnv 640 480] ++
            [EntryCall.update sampleUpdateEnv 640 480])).mainViewPass.renderWidth
        (stateAfter sampleConstants
          ([EntryCall.update sampleUpdateEnv 800 600, EntryCall.resize sampleResizeEnv 640 480] ++
            [EntryCall.update sampleUpdateEnv 640 480])).mainViewPass.renderHeight) ∧
    PipelineFormats
      (stateAfter sampleConstants
        ([EntryCall.update sampleUpdateEnv 800 600, EntryCall.resize sampleResizeEnv 640 480] ++
          [EntryCall.update sampleUpdateEnv 640 480])).trace
      ShaderID.SHADER_ID_Pass1 ImageFormat.RGBA8_SRGB ∧
    targetFormat
        (stateAfter sampleConstants
          ([EntryCall.update sampleUpdateEnv 800 600, EntryCall.resize sampleResizeEnv 640 480] ++
            [EntryCall.update sampleUpdateEnv 640 480])).trace
        (stateAfter sampleConstants
          ([EntryCall.update sampleUpdateEnv 800 600, EntryCall.resize sampleResizeEnv 640 480] ++
            [EntryCall.update sampleUpdateEnv 640 480])).gameGraphicsData.m_rtColorHandle =
      some ImageFormat.RGBA8_SRGB :=
  have H := attachment_formats_agree sampleConstants sampleShaderEnv sampleInitEnv
    sampleResizeEnv sampleUpdateEnv 640 480 640 480 (GameState.initial sampleConstants)
    sampleInitialized sampleInitialized
    [EntryCall.update sampleUpdateEnv 800 600, EntryCall.resize sampleResizeEnv 640 480]
    _ rfl (by decide) (by decide) (by decide) rfl (by decide)
    (by
      intro c hc
      simp only [List.cons_append, List.nil_append, List.mem_cons, List.mem_singleton,
        List.not_mem_nil, or_false] at hc
      rcases hc with rfl | rfl | rfl <;> rfl)
  ⟨H.1, H.2.2.2.2.2.2.2.2.1.2, H.2.2.2.2.2.2.2.2.2.2.2.1, H.2.2.2.2.2.2.2.2.2.2.2.2.2.2.1⟩

end Tk
